import Mathlib

/-!
# Sphinx search index payloads of the dodal documentation builds

The repository holds four generated files, one per documentation build:

* `1.29.4/searchindex.js`
* `341-new-j20-setup/searchindex.js`
* `483-make-device_factory-decorator-to-ease-making-and-connecting-ophyd-async-devices/searchindex.js`
* `fix_wrong_return_type/searchindex.js`

Each file is the single call `Search.setIndex(<object literal>)`.  This development embeds the
text of every file as a string, reads it with a small JSON reader, and states the properties of
the payloads on what the reader returns.
-/

namespace SearchIndex

/-! ## JSON values -/

/-- JSON values as they occur in a search index payload.  The payloads hold no negative and no
fractional number, so numbers are natural numbers; members of an object keep the order in
which they are written. -/
inductive Json where
  | null : Json
  | bool (b : Bool) : Json
  | num (n : Nat) : Json
  | str (s : String) : Json
  | arr (xs : List Json) : Json
  | obj (kvs : List (String × Json)) : Json

mutual
/-- Structural equality test on JSON values. -/
def Json.beq : Json → Json → Bool
  | .null, .null => true
  | .bool a, .bool b => a == b
  | .num a, .num b => a == b
  | .str a, .str b => a == b
  | .arr a, .arr b => Json.beqList a b
  | .obj a, .obj b => Json.beqMembers a b
  | _, _ => false
/-- Structural equality test on lists of JSON values. -/
def Json.beqList : List Json → List Json → Bool
  | [], [] => true
  | x :: xs, y :: ys => Json.beq x y && Json.beqList xs ys
  | _, _ => false
/-- Structural equality test on member lists of JSON objects. -/
def Json.beqMembers : List (String × Json) → List (String × Json) → Bool
  | [], [] => true
  | (k, x) :: xs, (l, y) :: ys => k == l && Json.beq x y && Json.beqMembers xs ys
  | _, _ => false
end

/-- Equality test between the outcome of a read and an expected value. -/
def Json.optBeq : Option Json → Json → Bool
  | some a, b => Json.beq a b
  | none, _ => false

/-! ## Reading a file

The reader works on the list of character codes of the text.  It accepts the JSON grammar
restricted to what the generator emits: strings without escape sequences and without control
characters, and numbers that are unsigned decimal integers without a leading zero.  A text it
accepts is therefore well-formed JSON. -/

/-- Drop leading JSON whitespace (space, line feed, carriage return, tab). -/
def skipWs : List Nat → List Nat
  | 32 :: r => skipWs r
  | 10 :: r => skipWs r
  | 13 :: r => skipWs r
  | 9 :: r => skipWs r
  | cs => cs

/-- Decimal digit codes, `0` to `9`. -/
def isDigit (c : Nat) : Bool := 48 ≤ c && c ≤ 57

/-- Read the body of a string up to its closing quote (code 34); `acc` holds the characters
read so far, last one first.  A backslash (92) or a control character is refused. -/
def pString : List Nat → List Char → Option (String × List Nat)
  | [], _ => none
  | c :: r, acc =>
    if c = 34 then some (String.mk acc.reverse, r)
    else if c = 92 then none
    else if c < 32 then none
    else pString r (Char.ofNat c :: acc)

/-- Read further decimal digits onto the value `n`. -/
def pDigits : List Nat → Nat → Nat × List Nat
  | [], n => (n, [])
  | c :: r, n => if isDigit c then pDigits r (10 * n + (c - 48)) else (n, c :: r)

/-- What follows an integer is not a fraction (`.`), an exponent (`e`, `E`) or a digit. -/
def isNumEnd : List Nat → Bool
  | [] => true
  | c :: _ => !(c = 46 || c = 101 || c = 69 || isDigit c)

/-- Read an unsigned decimal integer: `0`, or a nonzero digit followed by digits. -/
def pNumber : List Nat → Option (Nat × List Nat)
  | 48 :: r => if isNumEnd r then some (0, r) else none
  | c :: r =>
    if isDigit c then
      let (n, r2) := pDigits r (c - 48)
      if isNumEnd r2 then some (n, r2) else none
    else none
  | [] => none

mutual
/-- Read one JSON value; the first argument bounds the number of nested calls. -/
def pValue : Nat → List Nat → Option (Json × List Nat)
  | 0, _ => none
  | f + 1, cs =>
    match skipWs cs with
    | 34 :: r => (pString r []).map fun p => (Json.str p.1, p.2)
    | 91 :: r =>
      match skipWs r with
      | 93 :: r2 => some (Json.arr [], r2)
      | r2 => (pElems f r2 []).map fun p => (Json.arr p.1, p.2)
    | 123 :: r =>
      match skipWs r with
      | 125 :: r2 => some (Json.obj [], r2)
      | r2 => (pMembers f r2 []).map fun p => (Json.obj p.1, p.2)
    | 110 :: 117 :: 108 :: 108 :: r => some (Json.null, r)
    | 116 :: 114 :: 117 :: 101 :: r => some (Json.bool true, r)
    | 102 :: 97 :: 108 :: 115 :: 101 :: r => some (Json.bool false, r)
    | r => (pNumber r).map fun p => (Json.num p.1, p.2)
/-- Read the elements of a non-empty array up to the closing bracket (93), separated by
commas (44). -/
def pElems : Nat → List Nat → List Json → Option (List Json × List Nat)
  | 0, _, _ => none
  | f + 1, cs, acc =>
    match pValue f cs with
    | none => none
    | some (v, r) =>
      match skipWs r with
      | 44 :: r2 => pElems f r2 (v :: acc)
      | 93 :: r2 => some ((v :: acc).reverse, r2)
      | _ => none
/-- Read the members of a non-empty object up to the closing brace (125): a string key, a
colon (58), a value, separated by commas (44). -/
def pMembers : Nat → List Nat → List (String × Json) →
    Option (List (String × Json) × List Nat)
  | 0, _, _ => none
  | f + 1, cs, acc =>
    match skipWs cs with
    | 34 :: r =>
      match pString r [] with
      | none => none
      | some (k, r1) =>
        match skipWs r1 with
        | 58 :: r2 =>
          match pValue f r2 with
          | none => none
          | some (v, r3) =>
            match skipWs r3 with
            | 44 :: r4 => pMembers f r4 ((k, v) :: acc)
            | 125 :: r4 => some (((k, v) :: acc).reverse, r4)
            | _ => none
        | _ => none
    | _ => none
end

/-- Remove the expected leading codes `p` from a text, when it starts with them. -/
def dropLeading : List Nat → List Nat → Option (List Nat)
  | [], cs => some cs
  | _ :: _, [] => none
  | p :: ps, c :: cs => if p = c then dropLeading ps cs else none

/-- The character codes of `Search.setIndex(`, the text every file starts with. -/
def callee : List Nat := "Search.setIndex(".data.map Char.toNat

/-- The bound on nested calls given to the reader; it exceeds the length of every file. -/
def readFuel : Nat := 100000

/-- The argument of the call and the codes that follow it: the file must start with
`Search.setIndex(`, and one JSON value is read right after. -/
def readCall (src : String) : Option (Json × List Nat) :=
  match dropLeading callee (src.data.map Char.toNat) with
  | none => none
  | some r => pValue readFuel r

/-- The codes that may follow the argument: the closing parenthesis (41), then nothing or
one line feed (10). -/
def isCallEnd (rest : List Nat) : Bool := rest == [41] || rest == [41, 10]

/-- The object passed to `Search.setIndex` by a file: the argument must be a JSON object
and only the closing parenthesis and an optional line feed may follow it. -/
def parseIndex (src : String) : Option Json :=
  match readCall src with
  | some (Json.obj kvs, rest) => if isCallEnd rest then some (Json.obj kvs) else none
  | _ => none

/-! ## Access to the parts of a payload -/

/-- The keys of an object, in the order written. -/
def Json.keys : Json → List String
  | .obj kvs => kvs.map Prod.fst
  | _ => []

/-- The last member with key `k` in a member list: a key written twice in an object literal
keeps its last value. -/
def lookupLast (k : String) : List (String × Json) → Option Json
  | [] => none
  | (l, v) :: rest =>
    match lookupLast k rest with
    | some w => some w
    | none => if l = k then some v else none

/-- The value of `k` in an object. -/
def Json.get? (j : Json) (k : String) : Option Json :=
  match j with
  | .obj kvs => lookupLast k kvs
  | _ => none

/-- The elements of an array. -/
def Json.arr? : Json → Option (List Json)
  | .arr xs => some xs
  | _ => none

/-- The members of an object. -/
def Json.obj? : Json → Option (List (String × Json))
  | .obj kvs => some kvs
  | _ => none

/-- The value of a number. -/
def Json.num? : Json → Option Nat
  | .num n => some n
  | _ => none

/-- The value of a string. -/
def Json.str? : Json → Option String
  | .str s => some s
  | _ => none

/-- The list stored under the top-level key `k`. -/
def Json.list (p : Json) (k : String) : Option (List Json) :=
  (p.get? k).bind Json.arr?

/-- The table (object) stored under the top-level key `k`, as its members. -/
def Json.table (p : Json) (k : String) : Option (List (String × Json)) :=
  (p.get? k).bind Json.obj?

/-- The number of documents of a build: the length of `docnames`. -/
def docCount (p : Json) : Option Nat :=
  (p.list "docnames").map List.length

/-- All elements of a list as numbers, when every one of them is a number. -/
def nums? : List Json → Option (List Nat)
  | [] => some []
  | .num n :: r => (nums? r).map fun ns => n :: ns
  | _ :: _ => none

/-- The document indices of a posting (a value of `terms` or `titleterms`): a number stands
for one document, an array of numbers for several. -/
def postingDocs : Json → Option (List Nat)
  | .num n => some [n]
  | .arr xs => nums? xs
  | _ => none

/-- The first field of an entry of `alltitles`, `objects` or `indexentries`, which is its
document index. -/
def entryDoc : Json → Option Nat
  | .arr (.num d :: _) => some d
  | _ => none

/-- A posting in the form the generator writes: a single document index, or an array of at
least two document indices in strictly increasing order. -/
def IsPosting (v : Json) : Prop :=
  match v with
  | .num _ => True
  | .arr xs => ∃ ds ∈ nums? xs, 2 ≤ ds.length ∧ ds.Pairwise (· < ·)
  | _ => False

instance : DecidablePred IsPosting := fun v =>
  match v with
  | .null => isFalse (by simp [IsPosting])
  | .bool _ => isFalse (by simp [IsPosting])
  | .num _ => isTrue (by simp [IsPosting])
  | .str _ => isFalse (by simp [IsPosting])
  | .arr xs => (inferInstance : Decidable (∃ ds ∈ nums? xs, 2 ≤ ds.length ∧ ds.Pairwise (· < ·)))
  | .obj _ => isFalse (by simp [IsPosting])

open Json

/-- The text of `1.29.4/searchindex.js`, character for character; the braces of the text are
written `\x7b` and `\x7d`, its quotes `\"`, and its final line feed, when it has one, `\n`. -/
def src_1_29_4 : String :=
  "Search.setIndex(\x7b\"alltitles\": \x7b\"1. Record architecture decisions\": [[1, null]], \"2. Adopt python3-pip-skeleton for project structure\": [[2, null]], \"API\": [[22, null]], \"API Index\": [[18, null]], \"About the documentation\": [[20, null]], \"Adding Logging\": [[33, \"adding-logging\"]], \"Additional Notes\": [[7, \"additional-notes\"]], \"Architectural Decision Records\": [[0, null]], \"Autobuild\": [[3, \"autobuild\"]], \"Beamline Modules\": [[5, \"beamline-modules\"]], \"Beamline Prefix\": [[15, \"beamline-prefix\"]], \"Build and test\": [[17, \"build-and-test\"]], \"Build the docs using sphinx\": [[3, null]], \"Check your version of python\": [[34, \"check-your-version-of-python\"]], \"Clone the repository\": [[17, \"clone-the-repository\"]], \"Code Standards\": [[16, \"code-standards\"]], \"Code coverage\": [[4, \"code-coverage\"]], \"Consequences\": [[1, \"consequences\"], [2, \"consequences\"]], \"Context\": [[1, \"context\"], [2, \"context\"]], \"Contributing to the project\": [[4, null]], \"Create a virtual environment\": [[34, \"create-a-virtual-environment\"]], \"Creating a new beamline\": [[5, null]], \"Deciding release numbers\": [[8, \"deciding-release-numbers\"]], \"Decision\": [[1, \"decision\"], [2, \"decision\"]], \"Decision Flowchart for Creating a New ophyd_async Device\": [[7, null]], \"Developer Guide\": [[14, null]], \"Developer guide\": [[4, \"developer-guide\"]], \"Developer install\": [[17, null]], \"Device Standards\": [[15, null]], \"Documentation Standards\": [[16, \"id1\"]], \"Explanations\": [[14, null], [21, null]], \"Fixing issues\": [[6, \"fixing-issues\"]], \"General Coding Standards\": [[16, null]], \"Getting Started\": [[33, null]], \"High-Level Development Flowchart\": [[7, \"high-level-development-flowchart\"]], \"How the documentation is structured\": [[19, \"how-the-documentation-is-structured\"]], \"How-to Guides\": [[14, null]], \"Install dependencies\": [[17, \"install-dependencies\"]], \"Installation\": [[34, null]], \"Installing the library\": [[34, \"installing-the-library\"]], \"Interface Selection Flowchart\": [[7, \"interface-selection-flowchart\"]], \"Issue or Discussion?\": [[4, \"issue-or-discussion\"]], \"Make a release\": [[8, null]], \"Moving code from another repo\": [[9, null]], \"Ophyd Devices best practices\": [[15, \"ophyd-devices-best-practices\"]], \"Ophyd vs Ophyd-async\": [[15, \"ophyd-vs-ophyd-async\"]], \"PV Suffixes\": [[15, \"pv-suffixes\"]], \"Reference\": [[14, null], [21, null]], \"Run linting using pre-commit\": [[6, null]], \"Run static analysis using mypy\": [[11, null]], \"Run the tests using pytest\": [[10, null]], \"Running pre-commit\": [[6, \"running-pre-commit\"]], \"See what was installed\": [[17, \"see-what-was-installed\"]], \"Status\": [[1, \"status\"], [2, \"status\"]], \"Supported Python Versions\": [[16, \"supported-python-versions\"]], \"Testing Connectivity\": [[19, \"testing-connectivity\"]], \"Testing Flowchart\": [[7, \"testing-flowchart\"]], \"The Purpose of Dodal\": [[33, \"the-purpose-of-dodal\"]], \"Tutorials\": [[14, null], [21, null]], \"Update the tools\": [[12, null]], \"Use of signals\": [[15, \"use-of-signals\"]], \"User Guide\": [[21, null]], \"Using Devices\": [[33, \"using-devices\"]], \"VSCode support\": [[6, \"vscode-support\"]], \"Where to put devices\": [[15, \"where-to-put-devices\"]], \"Zocalo Interaction\": [[13, null]], \"dodal\": [[19, null], [22, \"dodal\"]], \"dodal.beamlines\": [[23, null]], \"dodal.common\": [[24, null]], \"dodal.devices\": [[25, null]], \"dodal.plans\": [[26, null]], \"types\": [[27, null]], \"types.DynamicClassAttribute\": [[28, null]], \"types.GenericAlias\": [[29, null]], \"types.SimpleNamespace\": [[30, null]], \"types.UnionType\": [[31, null]], \"zocalo\": [[32, null]]\x7d, \"docnames\": [\"developer/explanations/decisions\", \"developer/explanations/decisions/0001-record-architecture-decisions\", \"developer/explanations/decisions/0002-switched-to-pip-skeleton\", \"developer/how-to/build-docs\", \"developer/how-to/contribute\", \"developer/how-to/create-beamline\", \"developer/how-to/lint\", \"developer/how-to/make-new-ophyd-async-device\", \"developer/how-to/make-release\", \"developer/how-to/move-code\", \"developer/how-to/run-tests\", \"developer/how-to/static-analysis\", \"developer/how-to/update-tools\", \"developer/how-to/zocalo\", \"developer/index\", \"developer/reference/device-standards\", \"developer/reference/standards\", \"developer/tutorials/dev-install\", \"genindex\", \"index\", \"user/explanations/docs-structure\", \"user/index\", \"user/reference/api\", \"user/reference/generated/dodal.beamlines\", \"user/reference/generated/dodal.common\", \"user/reference/generated/dodal.devices\", \"user/reference/generated/dodal.plans\", \"user/reference/generated/types\", \"user/reference/generated/types.DynamicClassAttribute\", \"user/reference/generated/types.GenericAlias\", \"user/reference/generated/types.SimpleNamespace\", \"user/reference/generated/types.UnionType\", \"user/reference/generated/zocalo\", \"user/tutorials/get_started\", \"user/tutorials/installation\"], \"envversion\": \x7b\"sphinx\": 62, \"sphinx.domains.c\": 3, \"sphinx.domains.changeset\": 1, \"sphinx.domains.citation\": 1, \"sphinx.domains.cpp\": 9, \"sphinx.domains.index\": 1, \"sphinx.domains.javascript\": 3, \"sphinx.domains.math\": 2, \"sphinx.domains.python\": 4, \"sphinx.domains.rst\": 2, \"sphinx.domains.std\": 2, \"sphinx.ext.intersphinx\": 1, \"sphinx.ext.viewcode\": 1\x7d, \"filenames\": [\"developer/explanations/decisions.rst\", \"developer/explanations/decisions/0001-record-architecture-decisions.rst\", \"developer/explanations/decisions/0002-switched-to-pip-skeleton.rst\", \"developer/how-to/build-docs.rst\", \"developer/how-to/contribute.rst\", \"developer/how-to/create-beamline.rst\", \"developer/how-to/lint.rst\", \"developer/how-to/make-new-ophyd-async-device.rst\", \"developer/how-to/make-release.rst\", \"developer/how-to/move-code.rst\", \"developer/how-to/run-tests.rst\", \"developer/how-to/static-analysis.rst\", \"developer/how-to/update-tools.rst\", \"developer/how-to/zocalo.rst\", \"developer/index.rst\", \"developer/reference/device-standards.rst\", \"developer/reference/standards.rst\", \"developer/tutorials/dev-install.rst\", \"genindex.rst\", \"index.rst\", \"user/explanations/docs-structure.rst\", \"user/index.rst\", \"user/reference/api.rst\", \"user/reference/generated/dodal.beamlines.rst\", \"user/reference/generated/dodal.common.rst\", \"user/reference/generated/dodal.devices.rst\", \"user/reference/generated/dodal.plans.rst\", \"user/reference/generated/types.rst\", \"user/reference/generated/types.DynamicClassAttribute.rst\", \"user/reference/generated/types.GenericAlias.rst\", \"user/reference/generated/types.SimpleNamespace.rst\", \"user/reference/generated/types.UnionType.rst\", \"user/reference/generated/zocalo.rst\", \"user/tutorials/get_started.rst\", \"user/tutorials/installation.rst\"], \"indexentries\": \x7b\"all_beamline_modules() (in module dodal.beamlines)\": [[23, \"dodal.beamlines.all_beamline_modules\", false]], \"all_beamline_names() (in module dodal.beamlines)\": [[23, \"dodal.beamlines.all_beamline_names\", false]], \"coroutine() (in module types)\": [[27, \"types.coroutine\", false]], \"dodal\": [[22, \"module-dodal\", false]], \"dodal.__version__ (in module dodal)\": [[22, \"dodal.dodal.__version__\", false]], \"dodal.beamlines\": [[23, \"module-dodal.beamlines\", false]], \"dodal.common\": [[24, \"module-dodal.common\", false]], \"dodal.devices\": [[25, \"module-dodal.devices\", false]], \"dodal.plans\": [[26, \"module-dodal.plans\", false]], \"dynamicclassattribute (class in types)\": [[28, \"types.DynamicClassAttribute\", false]], \"genericalias (class in types)\": [[29, \"types.GenericAlias\", false]], \"group_uuid() (in module dodal.common)\": [[24, \"dodal.common.group_uuid\", false]], \"in_micros() (in module dodal.common)\": [[24, \"dodal.common.in_micros\", false]], \"inject() (in module dodal.common)\": [[24, \"dodal.common.inject\", false]], \"module\": [[22, \"module-dodal\", false], [23, \"module-dodal.beamlines\", false], [24, \"module-dodal.common\", false], [25, \"module-dodal.devices\", false], [26, \"module-dodal.plans\", false], [27, \"module-types\", false], [32, \"module-zocalo\", false]], \"module_name_for_beamline() (in module dodal.beamlines)\": [[23, \"dodal.beamlines.module_name_for_beamline\", false]], \"new_class() (in module types)\": [[27, \"types.new_class\", false]], \"prepare_class() (in module types)\": [[27, \"types.prepare_class\", false]], \"resolve_bases() (in module types)\": [[27, \"types.resolve_bases\", false]], \"simplenamespace (class in types)\": [[30, \"types.SimpleNamespace\", false]], \"step_to_num() (in module dodal.common)\": [[24, \"dodal.common.step_to_num\", false]], \"types\": [[27, \"module-types\", false]], \"uniontype (class in types)\": [[31, \"types.UnionType\", false]], \"zocalo\": [[32, \"module-zocalo\", false]]\x7d, \"objects\": \x7b\"\": [[22, 0, 0, \"-\", \"dodal\"], [27, 0, 0, \"-\", \"types\"], [32, 0, 0, \"-\", \"zocalo\"]], \"dodal\": [[23, 0, 0, \"-\", \"beamlines\"], [24, 0, 0, \"-\", \"common\"], [25, 0, 0, \"-\", \"devices\"], [26, 0, 0, \"-\", \"plans\"]], \"dodal.beamlines\": [[23, 1, 1, \"\", \"all_beamline_modules\"], [23, 1, 1, \"\", \"all_beamline_names\"], [23, 1, 1, \"\", \"module_name_for_beamline\"]], \"dodal.common\": [[24, 1, 1, \"\", \"group_uuid\"], [24, 1, 1, \"\", \"in_micros\"], [24, 1, 1, \"\", \"inject\"], [24, 1, 1, \"\", \"step_to_num\"]], \"dodal.dodal\": [[22, 2, 1, \"\", \"__version__\"]], \"types\": [[28, 3, 1, \"\", \"DynamicClassAttribute\"], [29, 3, 1, \"\", \"GenericAlias\"], [30, 3, 1, \"\", \"SimpleNamespace\"], [31, 3, 1, \"\", \"UnionType\"], [27, 1, 1, \"\", \"coroutine\"], [27, 1, 1, \"\", \"new_class\"], [27, 1, 1, \"\", \"prepare_class\"], [27, 1, 1, \"\", \"resolve_bases\"]]\x7d, \"objnames\": \x7b\"0\": [\"py\", \"module\", \"Python module\"], \"1\": [\"py\", \"function\", \"Python function\"], \"2\": [\"py\", \"data\", \"Python data\"], \"3\": [\"py\", \"class\", \"Python class\"]\x7d, \"objtypes\": \x7b\"0\": \"py:module\", \"1\": \"py:function\", \"2\": \"py:data\", \"3\": \"py:class\"\x7d, \"terms\": \x7b\"\": [1, 5, 7, 9, 19, 28, 33], \"0\": [9, 24], \"0029\": 16, \"01\": [5, 15], \"02\": [1, 2, 15], \"0440\": 8, \"1\": [0, 16, 23, 24], \"10\": [16, 28], \"100\": 4, \"11\": 16, \"123\": 9, \"18\": [1, 2], \"2\": [0, 16, 19], \"2022\": [1, 2], \"3\": [16, 17, 27, 28, 34], \"4\": 28, \"560\": 27, \"585\": 29, \"604\": 31, \"8\": [17, 34], \"8000\": 3, \"9\": [9, 28], \"A\": [5, 15, 24, 30], \"As\": [2, 16], \"At\": 9, \"For\": [5, 16, 19, 24], \"If\": [3, 4, 5, 6, 7, 9, 15, 24, 27, 33, 34], \"In\": [9, 15], \"It\": [6, 9, 10, 11, 13, 34], \"On\": 19, \"Or\": 6, \"That\": 7, \"The\": [2, 3, 4, 5, 6, 7, 8, 16, 19, 20, 23, 34], \"Then\": 7, \"There\": [7, 15, 20], \"These\": [7, 13, 17], \"To\": [1, 8, 12, 17, 33], \"__args__\": 29, \"__getattr__\": 28, \"__init__\": 15, \"__origin__\": 29, \"__prepare__\": 27, \"__version__\": 22, \"abl\": 6, \"about\": [15, 21], \"abov\": [1, 6], \"abstract\": 7, \"accept\": [1, 2], \"access\": [14, 21, 27, 28, 33], \"across\": [15, 19, 33], \"act\": 28, \"activ\": [17, 28, 34], \"ad\": 5, \"adaravi\": 5, \"adaravisdetector\": 5, \"add\": [7, 9], \"add_children_as_read\": 7, \"add_code_from_hyperion\": 9, \"adjusted_stop\": 24, \"adopt\": 0, \"adr\": [0, 1], \"advic\": 7, \"advis\": 7, \"after\": [5, 8], \"against\": 7, \"aggress\": 9, \"all\": [4, 6, 8, 9, 15, 23], \"all_beamlin\": 5, \"all_beamline_modul\": 23, \"all_beamline_nam\": 23, \"allow\": [9, 28], \"alon\": 7, \"along\": 24, \"alreadi\": [5, 7], \"also\": [3, 4, 5, 6, 10, 14, 21, 33, 34], \"alwai\": 5, \"am\": 33, \"amount\": 33, \"an\": [3, 5, 6, 7, 9, 12, 15, 24, 27, 28], \"analysi\": [14, 16, 17], \"ani\": [3, 4, 5, 9, 12, 13, 15, 19, 24, 27, 33, 34], \"anoth\": [14, 24], \"anyth\": [7, 8, 15, 33], \"api\": [3, 16, 21], \"append\": 24, \"approach\": 20, \"appropri\": [7, 27], \"ar\": [3, 4, 5, 8, 9, 13, 15, 16, 19, 20, 33], \"architectur\": 14, \"area\": 12, \"areadetector\": 5, \"aren\": 27, \"arg\": 16, \"arg1\": 16, \"arg2\": 16, \"argument\": [5, 24, 27], \"arithmat\": 24, \"articl\": 1, \"ask\": 4, \"assist\": 24, \"assum\": [7, 9, 15, 24], \"assumpt\": 7, \"async\": 7, \"attach\": 15, \"attribut\": [28, 30], \"attributeerror\": 28, \"automat\": [6, 8, 15], \"avail\": 24, \"avoid\": [9, 15], \"ax\": 5, \"axi\": 24, \"b\": 9, \"back\": 19, \"backward\": 24, \"bar\": [14, 21], \"base\": [3, 13, 27, 30], \"beamlin\": [7, 14, 19, 33], \"beamline_util\": 5, \"been\": [8, 9, 15, 34], \"befor\": [4, 7], \"being\": [5, 6], \"below\": [0, 5], \"between\": [12, 24, 28], \"big\": 4, \"bin\": [17, 34], \"bl\": 5, \"bl03i\": 15, \"bl_prefix\": [5, 15], \"blah\": 15, \"blixx\": 5, \"blueski\": [5, 8, 13, 15, 33], \"bool\": [5, 16], \"bp\": 15, \"bragg\": 15, \"branch\": [8, 9], \"break\": [7, 8], \"browser\": 3, \"bug\": [4, 8], \"build\": [14, 16], \"built\": [3, 27], \"builtin\": 27, \"bypass\": 24, \"calcul\": 22, \"call\": [5, 15, 20, 24, 27], \"callback\": 13, \"came\": 9, \"can\": [2, 3, 4, 5, 6, 7, 9, 10, 11, 13, 15, 17, 19, 33, 34], \"capabl\": 5, \"case\": [6, 9, 15, 17], \"categori\": [14, 21], \"caught\": 4, \"cd\": [2, 9, 17], \"centr\": 13, \"chang\": [2, 3, 4, 6, 7, 8, 9, 12, 19], \"channel\": [8, 13], \"chart\": 7, \"check\": [4, 5, 6, 9, 10, 11, 12, 16, 17, 24], \"checklist\": 8, \"checkout\": 9, \"child\": 7, \"choos\": [8, 17], \"chose\": 8, \"ci\": 2, \"class\": [5, 7, 13, 15, 27, 28, 29, 30, 31], \"clean\": 9, \"cleanli\": 24, \"cli\": 7, \"click\": [8, 17], \"clone\": [5, 6, 9], \"clone_for_histori\": 9, \"close\": [4, 12], \"code\": [3, 5, 6, 14, 17, 19, 33], \"codebas\": 9, \"coerc\": 24, \"coexist\": 7, \"collect\": 5, \"colloqui\": 5, \"com\": [9, 12, 17, 34], \"come\": 9, \"command\": 6, \"commandlin\": [10, 34], \"commerci\": 15, \"commit\": [9, 14, 16, 17], \"common\": 5, \"commonli\": 33, \"complet\": 5, \"complex\": [15, 17], \"compliant\": 8, \"compon\": [5, 7], \"concurr\": 5, \"condition\": 5, \"confid\": 7, \"configur\": 5, \"confirm\": 8, \"conflict\": 12, \"conform\": [5, 16], \"connect\": [5, 15, 33], \"consid\": [15, 16], \"consist\": 2, \"constructor\": 5, \"consult\": 7, \"contain\": [4, 7, 15, 16, 17, 19, 33], \"context\": [7, 24], \"contribut\": [14, 19], \"control\": 7, \"convent\": [5, 16], \"convers\": 15, \"convert\": [24, 27], \"copi\": [1, 5, 7, 9, 27], \"coroutin\": 27, \"correct\": 9, \"could\": [2, 5, 15, 19, 24], \"cov\": 10, \"cover\": 33, \"coverag\": 10, \"creat\": [1, 8, 9, 14, 15, 27], \"create_soft_sign\": 15, \"creation\": 20, \"current\": [0, 12, 13, 16, 34], \"d11\": 5, \"dai\": 14, \"data\": 13, \"date\": [1, 2], \"david\": 20, \"dcam\": 5, \"dcid\": 13, \"dcm\": [15, 33], \"debug\": [24, 33], \"decis\": [13, 14, 15], \"def\": [5, 15, 16, 24], \"default\": [5, 24, 33], \"defin\": [5, 16, 27, 28], \"definit\": 11, \"depend\": [5, 9, 34], \"deprec\": 16, \"deprecation_polici\": 16, \"describ\": [0, 1], \"descript\": 16, \"descriptor\": 28, \"design\": 7, \"detail\": 12, \"determin\": 7, \"dev\": [14, 17], \"devcontain\": 17, \"develop\": [2, 8, 19], \"devic\": [5, 9, 13, 14, 19, 24], \"device_instanti\": [5, 15], \"di\": 5, \"diamond\": 7, \"diamondlightsourc\": [9, 12, 17, 19, 34], \"dict\": 27, \"differ\": [2, 7, 9, 20, 23, 28], \"digit\": 5, \"dimension\": 24, \"direct\": 24, \"directli\": [24, 27], \"directori\": [3, 9, 15, 16, 33], \"discourag\": 5, \"divid\": 24, \"dl\": [9, 19, 33, 34], \"dls_sw\": 33, \"do\": [5, 6, 7, 8, 9, 11, 15, 33], \"doc\": [14, 16, 17], \"docstr\": [3, 16], \"document\": [4, 7, 14, 17, 21], \"dodal\": [5, 7, 9, 15, 17, 34], \"doe\": [4, 15, 24], \"don\": 4, \"done\": [7, 10, 11, 28], \"doodal\": 5, \"draft\": [7, 8], \"duplic\": 15, \"dynam\": 27, \"e\": [3, 5, 6, 7, 9, 10, 11, 15, 17, 23, 24, 29, 31], \"each\": [5, 6], \"earli\": 7, \"easili\": [4, 15], \"edit\": 8, \"editor\": 6, \"effect\": [8, 15], \"effort\": 15, \"either\": 17, \"els\": [5, 24], \"empti\": 27, \"enabl\": 6, \"end\": [4, 24], \"ensur\": [2, 7, 9, 15], \"entri\": 27, \"enum\": 28, \"environ\": [2, 4, 17, 23], \"epic\": [15, 17], \"epicsmotor\": 15, \"equival\": 24, \"error\": [10, 24], \"even\": 15, \"ever\": 9, \"everi\": [6, 9], \"everyth\": 9, \"exampl\": [5, 9, 16], \"except\": [8, 32], \"exclud\": 5, \"exec_bodi\": 27, \"exist\": [1, 4, 5, 7, 34], \"exlus\": 33, \"expect\": 15, \"experi\": 5, \"experienc\": 21, \"explan\": 20, \"explicit\": 9, \"explicitli\": 33, \"extend\": [16, 24], \"extens\": 16, \"extern\": [15, 24], \"extract\": 16, \"f\": [5, 9], \"facil\": 15, \"factori\": 5, \"fake\": 5, \"fake_with_ophyd_sim\": 5, \"fals\": [5, 12, 15], \"fast\": 7, \"fd\": 9, \"featur\": [8, 34], \"feedback\": 7, \"fetch\": 24, \"fictiti\": 5, \"file\": [4, 5, 6, 9, 11, 15, 33], \"filter\": 9, \"final\": 24, \"find\": [7, 10], \"firefox\": 3, \"first\": [13, 17], \"fit\": [4, 9, 24], \"fix\": [2, 8], \"fixtur\": 7, \"float\": 24, \"flowchart\": [14, 15], \"folder\": [5, 9, 15], \"follow\": [2, 4, 5, 8, 9, 15, 16, 17, 33], \"forc\": 24, \"form\": 24, \"format\": [2, 6, 16], \"four\": [14, 20, 21], \"framework\": 7, \"free\": 4, \"from\": [1, 2, 3, 5, 6, 7, 13, 14, 15, 16, 21, 23, 24, 28, 33, 34], \"func\": [16, 27], \"function\": [5, 7, 10, 16, 20, 23, 24, 27, 33], \"g\": [5, 7, 9, 15, 23, 24, 29, 31], \"gc\": 9, \"gener\": [7, 8, 9, 12, 14, 15, 23, 27, 29], \"get\": [7, 8, 14, 17, 21, 23], \"get_beamline_nam\": 5, \"git\": [6, 9, 12, 17, 34], \"github\": [4, 8, 9, 12, 17, 19, 34], \"give\": [24, 33], \"given\": [13, 15], \"go\": [5, 8, 15, 33], \"good\": [9, 20], \"googl\": 16, \"grand\": 20, \"graph\": 17, \"graylog\": 33, \"great\": 4, \"group\": [5, 24], \"group_uuid\": 24, \"guid\": [7, 8, 16, 19, 20], \"ha\": [5, 7, 8, 12, 15, 34], \"had\": 9, \"handl\": [4, 6, 13, 24], \"hard\": 9, \"hardwar\": [7, 33], \"have\": [2, 4, 5, 6, 8, 9, 15, 17, 28, 33], \"head\": 16, \"headl\": 16, \"help\": [7, 19, 20, 33], \"helper\": 33, \"here\": 21, \"higher\": 8, \"highlight\": [6, 11], \"hint\": 16, \"histor\": 15, \"histori\": 9, \"hook\": 6, \"host\": 17, \"how\": [7, 16, 20, 21], \"howev\": 15, \"html\": [3, 16], \"http\": [3, 8, 9, 12, 16, 19, 34], \"human\": 24, \"hutch\": 5, \"hyperion\": 9, \"i\": [0, 4, 5, 6, 7, 8, 9, 10, 11, 12, 13, 14, 15, 16, 20, 21, 22, 24, 27, 28, 29, 33, 34], \"i03\": [5, 33], \"i04\": 23, \"i04_1\": [5, 23], \"idea\": [4, 9], \"immedi\": 33, \"immens\": 20, \"implement\": [7, 15], \"implic\": 20, \"import\": [5, 8, 9, 23, 33], \"improv\": [4, 20], \"in_micro\": 24, \"includ\": [3, 5, 19, 21, 24], \"inconsist\": 24, \"increas\": 33, \"index\": [3, 21, 22], \"indic\": 12, \"infer\": 13, \"info\": 33, \"inform\": [4, 20], \"inherit\": 7, \"inject\": 24, \"inspect\": 28, \"instal\": [6, 9, 14, 19, 21], \"instanc\": [5, 15, 28, 33], \"instanti\": 5, \"instead\": [4, 15, 33], \"instruct\": 17, \"instrument\": 33, \"int\": [16, 24, 29, 31], \"integr\": [7, 17], \"interact\": 14, \"interfac\": [8, 15, 34], \"interfer\": 34, \"intern\": 22, \"involv\": 4, \"io\": 19, \"ioc\": 15, \"isn\": 20, \"ispyb\": 13, \"issu\": [7, 9, 11], \"iter\": [7, 23], \"its\": [5, 15, 34], \"ixx\": 15, \"job\": 13, \"json\": 6, \"just\": [6, 8], \"keep\": [9, 12], \"kind\": 13, \"know\": 7, \"kwarg\": 30, \"kwd\": 27, \"la\": 20, \"lambda\": 5, \"larg\": 15, \"later\": [17, 34], \"latest\": [2, 8, 12], \"leav\": 24, \"length\": 24, \"level\": [15, 32], \"librari\": [4, 7, 21], \"like\": [8, 10, 15, 33], \"line\": [16, 24], \"link\": [1, 14, 21], \"lint\": [2, 14, 16, 17], \"list\": [0, 5, 19, 29], \"live\": 5, \"local\": [3, 9, 17, 33], \"localhost\": 3, \"log\": [5, 9], \"logger\": 33, \"look\": [8, 9, 10], \"lost\": 15, \"m\": [9, 17, 34], \"machin\": [5, 17, 19], \"made\": [1, 7, 13], \"mai\": [2, 5, 6, 9, 15, 23], \"main\": [7, 8, 9], \"major\": [0, 8], \"make\": [3, 4, 9, 13, 14, 15], \"manag\": [2, 7], \"mani\": 33, \"manual\": [6, 8], \"mark\": 24, \"match\": [11, 16], \"materi\": [14, 21], \"maxim\": 24, \"maximum\": 5, \"mean\": 12, \"mention\": 9, \"merg\": [7, 12], \"messag\": [9, 15, 33], \"metaclass\": 27, \"method\": [7, 27, 28], \"metric\": 15, \"michael\": [0, 1], \"microsecond\": 24, \"might\": [4, 7], \"minim\": 17, \"minor\": 8, \"mistaken\": 9, \"mkdir\": 9, \"mo\": 15, \"modifi\": 9, \"modul\": [2, 12, 22, 23, 24, 25, 26, 28, 32], \"module_name_for_beamlin\": 23, \"monitor\": 5, \"more\": [5, 7, 9, 12, 17, 19, 20, 21, 33], \"most\": [4, 15, 20], \"mostli\": 9, \"motor\": [5, 15], \"movabl\": [7, 24], \"move\": 14, \"mro\": 27, \"msg\": 9, \"multipl\": [5, 12, 15], \"must\": 7, \"mv\": [9, 15], \"my_devic\": 15, \"my_plan\": 15, \"mydevic\": 15, \"mypi\": [14, 16, 17], \"name\": [5, 7, 15, 23, 24, 27, 28], \"namespac\": [27, 30], \"napoleon\": 16, \"nearest\": 24, \"necessari\": 13, \"need\": [1, 5, 7, 20, 34], \"neg\": 15, \"nep\": 16, \"new\": [1, 4, 8, 14, 15, 17, 21], \"new_class\": 27, \"new_valu\": 15, \"next\": 33, \"none\": 27, \"normal\": 28, \"notat\": 9, \"note\": [8, 9, 21], \"notifi\": 8, \"now\": [6, 9, 17, 33, 34], \"num\": 24, \"number\": [4, 22, 24], \"numpi\": 16, \"nygard\": [0, 1], \"oav\": 15, \"object\": [5, 7, 27], \"obviou\": 4, \"obvious\": 8, \"occur\": 33, \"offer\": 4, \"often\": 20, \"old\": [9, 15], \"old_repo\": 9, \"omit\": 8, \"onc\": 5, \"one\": [4, 5, 7, 20, 28], \"ones\": 1, \"onli\": [5, 7, 9, 13, 15, 33], \"open\": [3, 4, 17], \"ophyd\": [5, 7, 19, 33], \"ophyd_async\": 14, \"optic\": 5, \"optim\": 7, \"option\": [5, 8, 19], \"orchestr\": 24, \"order\": [15, 20], \"org\": [8, 16], \"origin\": 9, \"other\": [7, 9, 19, 33], \"otherwis\": 8, \"our\": [0, 5], \"out\": 9, \"outer\": 24, \"outlin\": 7, \"over\": 15, \"overrid\": 7, \"own\": [5, 9, 15], \"p\": [9, 17], \"packag\": [2, 5, 17, 32], \"page\": [3, 8, 16], \"parallel\": 17, \"param\": 15, \"paramet\": [15, 23, 24], \"particular\": [5, 15, 23], \"pass\": [5, 27], \"past\": 1, \"patch\": 8, \"path\": [9, 34], \"peopl\": 7, \"pep\": [8, 27, 29, 31], \"pep440\": 8, \"per\": 23, \"perform\": 24, \"philosophi\": 15, \"pip\": [0, 9, 12, 17, 19, 34], \"pipdeptre\": 17, \"place\": [4, 15], \"plan\": [8, 13, 15, 24, 33], \"pleas\": [4, 8, 16, 33], \"podman\": 17, \"point\": [5, 9, 24], \"polici\": 16, \"posit\": 24, \"possibl\": [6, 7, 15], \"post\": 8, \"potenti\": [8, 11, 15], \"pr\": 7, \"practic\": [14, 21], \"pre\": [14, 16, 17], \"prefer\": 15, \"prefix\": 5, \"prepar\": [9, 27], \"prepare_class\": 27, \"prepend\": 15, \"prevent\": 24, \"previou\": 8, \"procedur\": 7, \"process\": [3, 7, 9, 13, 16], \"product\": 15, \"project\": [0, 1, 3, 10, 12, 14], \"prompt\": 17, \"properli\": 28, \"properti\": [7, 28], \"protocol\": 5, \"provid\": [7, 12, 33], \"prune\": 9, \"publish\": 8, \"pull\": [2, 3, 4, 9, 12], \"purpos\": 20, \"push\": [8, 9, 33], \"pv\": [7, 19], \"py\": 5, \"pypa\": 22, \"pypi\": [8, 19], \"pytest\": [14, 17], \"python\": [3, 8, 12, 17, 28], \"python3\": [0, 12, 17, 34], \"question\": 4, \"quit\": 15, \"rabbitmq\": 13, \"rai\": 13, \"rais\": [4, 24, 28], \"re\": [8, 9, 15], \"read\": [5, 13], \"readabl\": [7, 24], \"readable_uid\": 24, \"real\": 33, \"realis\": 9, \"reason\": 15, \"rebas\": [9, 12], \"rebuild\": 3, \"receiv\": 13, \"recommend\": 34, \"reconcil\": 7, \"record\": 14, \"reduc\": 4, \"ref\": 22, \"refer\": [9, 20, 22, 24], \"referenc\": 24, \"reformat\": 6, \"regular\": 27, \"releas\": [14, 19, 21, 34], \"reload\": 3, \"remain\": [4, 28], \"remot\": 9, \"remov\": [9, 27], \"reopen\": 17, \"repo\": [6, 14], \"report\": [6, 10], \"repositori\": [6, 9, 16], \"repres\": [20, 29, 31], \"request\": [4, 12], \"requir\": [17, 20, 34], \"reset\": 9, \"resolv\": 27, \"resolve_bas\": 27, \"result\": [6, 13], \"return\": [5, 16, 23, 24, 27], \"review\": 8, \"rm\": 9, \"round\": 24, \"rout\": 28, \"ruff\": [6, 16], \"run\": [3, 4, 5, 8, 12, 14, 16, 17], \"runengin\": 13, \"s41\": 5, \"safe\": 9, \"sai\": 15, \"same\": [4, 5, 8, 24, 28], \"save\": [6, 33], \"scan\": 24, \"scope\": 4, \"second\": 24, \"secret\": 20, \"section\": 19, \"sed\": 9, \"see\": [1, 3, 7, 8], \"seek\": 7, \"seem\": 7, \"self\": [7, 15], \"sens\": [8, 9], \"set\": [2, 4, 5, 6, 15, 16, 33], \"set_beamlin\": 5, \"set_log_beamlin\": 5, \"set_up_logging_handl\": 33, \"set_utils_beamlin\": 5, \"setup\": [2, 12, 17], \"setuptools_scm\": 22, \"shape\": 24, \"share\": 4, \"should\": [2, 4, 5, 7, 8, 15, 16, 19, 34], \"side\": [14, 15, 21], \"signatur\": 16, \"significantli\": 4, \"similar\": [5, 7], \"simpl\": 30, \"simplifi\": 15, \"simul\": [5, 15, 33], \"sinc\": 28, \"skeleton\": [0, 12], \"skip_devic\": 5, \"slack\": 8, \"so\": [7, 9, 13, 15, 17, 33, 34], \"soft\": 15, \"softwar\": [20, 34], \"some\": [5, 7, 9, 15, 33], \"someon\": 7, \"someth\": [4, 12], \"somewher\": 5, \"sourc\": [3, 9, 11, 17, 19, 23, 24, 27, 28, 34], \"specif\": 15, \"specifi\": [15, 27], \"spend\": 4, \"sphinx\": [14, 16, 17], \"split\": [14, 19, 21], \"src\": [3, 9], \"stage_x\": 24, \"standard\": [4, 7, 14, 24], \"start\": [7, 21, 24], \"state\": 7, \"static\": [3, 14, 16, 17], \"statu\": 5, \"step\": [14, 17, 21, 24], \"step_to_num\": 24, \"still\": [15, 28], \"stop\": 24, \"store\": 24, \"str\": [5, 15, 16, 22, 23, 24, 31], \"string\": 24, \"structur\": [0, 9, 12], \"style\": 16, \"subclass\": 28, \"subscrib\": 13, \"suffic\": 19, \"suit\": 7, \"summari\": 16, \"super\": 15, \"suppli\": 8, \"support\": [3, 23], \"sure\": 4, \"switch\": 2, \"sync\": 12, \"synchrotron\": 5, \"system\": 7, \"t\": [4, 20, 24, 27, 29], \"tag\": 8, \"take\": 17, \"task\": [7, 14], \"technic\": [14, 20, 21], \"techniqu\": [2, 12], \"tell\": [3, 6], \"termin\": [17, 34], \"test\": [4, 5, 8, 9, 14], \"test_device_instanti\": 5, \"than\": 8, \"thei\": [5, 7, 8, 13, 20], \"them\": [10, 11, 15, 33], \"theori\": 20, \"therefor\": 24, \"thi\": [1, 2, 3, 5, 6, 7, 8, 9, 12, 15, 16, 17, 19, 20, 22, 27, 28, 33, 34], \"thing\": [15, 20], \"think\": [15, 33], \"those\": [6, 7], \"through\": [4, 7, 8, 17, 28], \"ticket\": 4, \"tidi\": 9, \"time\": [4, 6, 13, 24], \"titl\": [8, 16], \"togeth\": 5, \"too\": 3, \"took\": 5, \"tool\": [2, 5, 14, 16], \"top\": [15, 32], \"topic\": 20, \"tox\": [3, 6, 10, 11, 17], \"track\": 15, \"transit\": 7, \"treat\": 28, \"tree\": [15, 17], \"trigger\": 13, \"true\": [5, 16], \"truncat\": 24, \"tupl\": [24, 27], \"tutori\": 20, \"twin\": 5, \"two\": 7, \"type\": [5, 11, 16, 17, 19, 23, 24, 34], \"typic\": 21, \"unchang\": 24, \"under\": [6, 17], \"undergo\": 15, \"underlin\": 16, \"understand\": 20, \"understood\": 20, \"unifi\": 20, \"union\": 31, \"uniqu\": 24, \"unrel\": 9, \"unsur\": 8, \"up\": [4, 9, 14, 24, 33], \"updat\": [2, 8, 14, 27], \"urgent\": 7, \"us\": [1, 2, 5, 7, 9, 13, 14, 16, 17, 19, 27, 28, 34], \"usag\": 21, \"user\": [6, 8, 19], \"usual\": 24, \"util\": [5, 19], \"valid\": [5, 19, 24], \"valu\": [7, 16], \"valueerror\": 24, \"variabl\": 23, \"venv\": [2, 17, 34], \"veri\": 15, \"verifi\": 7, \"version\": [3, 8, 12, 22, 28], \"view\": 3, \"virtual\": 28, \"virtualenv\": 17, \"visibl\": 19, \"vmxi\": 5, \"vscode\": 17, \"w41\": 5, \"wai\": 21, \"wait\": 5, \"wait_for_connect\": 5, \"want\": [4, 9], \"watch\": 3, \"we\": [0, 1, 2, 4, 9, 16], \"web\": 3, \"welcom\": 4, \"well\": 6, \"were\": 7, \"what\": [4, 8, 15, 33], \"when\": [4, 5, 15, 17, 28, 33], \"whenev\": 3, \"where\": [7, 9, 11, 12], \"which\": [3, 5, 12, 17, 24], \"while\": 4, \"whilst\": 15, \"whole\": 24, \"why\": [14, 21], \"window\": 6, \"within\": 24, \"without\": [7, 11, 24], \"work\": [7, 21, 33], \"workstat\": [19, 33], \"would\": [5, 15, 33], \"write\": [7, 9, 15, 20], \"written\": 15, \"wrong\": 7, \"x\": [13, 24], \"xml\": 10, \"yield\": 15, \"you\": [3, 4, 6, 7, 8, 9, 10, 11, 15, 17, 19, 33, 34], \"your\": [3, 4, 6, 7, 19, 33], \"zocalo\": 14, \"zocaloresult\": 13, \"zocalotrigg\": 13\x7d, \"titles\": [\"Architectural Decision Records\", \"1. Record architecture decisions\", \"2. Adopt python3-pip-skeleton for project structure\", \"Build the docs using sphinx\", \"Contributing to the project\", \"Creating a new beamline\", \"Run linting using pre-commit\", \"Decision Flowchart for Creating a New ophyd_async Device\", \"Make a release\", \"Moving code from another repo\", \"Run the tests using pytest\", \"Run static analysis using mypy\", \"Update the tools\", \"Zocalo Interaction\", \"Developer Guide\", \"Device Standards\", \"General Coding Standards\", \"Developer install\", \"API Index\", \"dodal\", \"About the documentation\", \"User Guide\", \"API\", \"dodal.beamlines\", \"dodal.common\", \"dodal.devices\", \"dodal.plans\", \"types\", \"types.DynamicClassAttribute\", \"types.GenericAlias\", \"types.SimpleNamespace\", \"types.UnionType\", \"zocalo\", \"Getting Started\", \"Installation\"], \"titleterms\": \x7b\"1\": 1, \"2\": 2, \"The\": 33, \"about\": 20, \"ad\": 33, \"addit\": 7, \"adopt\": 2, \"analysi\": 11, \"anoth\": 9, \"api\": [18, 22], \"architectur\": [0, 1], \"async\": 15, \"autobuild\": 3, \"beamlin\": [5, 15, 23], \"best\": 15, \"build\": [3, 17], \"check\": 34, \"clone\": 17, \"code\": [4, 9, 16], \"commit\": 6, \"common\": 24, \"connect\": 19, \"consequ\": [1, 2], \"context\": [1, 2], \"contribut\": 4, \"coverag\": 4, \"creat\": [5, 7, 34], \"decid\": 8, \"decis\": [0, 1, 2, 7], \"depend\": 17, \"develop\": [4, 7, 14, 17], \"devic\": [7, 15, 25, 33], \"discuss\": 4, \"doc\": 3, \"document\": [16, 19, 20], \"dodal\": [19, 22, 23, 24, 25, 26, 33], \"dynamicclassattribut\": 28, \"environ\": 34, \"explan\": [14, 21], \"fix\": 6, \"flowchart\": 7, \"from\": 9, \"gener\": 16, \"genericalia\": 29, \"get\": 33, \"guid\": [4, 14, 21], \"high\": 7, \"how\": [14, 19], \"i\": 19, \"index\": 18, \"instal\": [17, 34], \"interact\": 13, \"interfac\": 7, \"issu\": [4, 6], \"level\": 7, \"librari\": 34, \"lint\": 6, \"log\": 33, \"make\": 8, \"modul\": 5, \"move\": 9, \"mypi\": 11, \"new\": [5, 7], \"note\": 7, \"number\": 8, \"ophyd\": 15, \"ophyd_async\": 7, \"pip\": 2, \"plan\": 26, \"practic\": 15, \"pre\": 6, \"prefix\": 15, \"project\": [2, 4], \"purpos\": 33, \"put\": 15, \"pv\": 15, \"pytest\": 10, \"python\": [16, 34], \"python3\": 2, \"record\": [0, 1], \"refer\": [14, 21], \"releas\": 8, \"repo\": 9, \"repositori\": 17, \"run\": [6, 10, 11], \"see\": 17, \"select\": 7, \"signal\": 15, \"simplenamespac\": 30, \"skeleton\": 2, \"sphinx\": 3, \"standard\": [15, 16], \"start\": 33, \"static\": 11, \"statu\": [1, 2], \"structur\": [2, 19], \"suffix\": 15, \"support\": [6, 16], \"test\": [7, 10, 17, 19], \"tool\": 12, \"tutori\": [14, 21], \"type\": [27, 28, 29, 30, 31], \"uniontyp\": 31, \"updat\": 12, \"us\": [3, 6, 10, 11, 15, 33], \"user\": 21, \"v\": 15, \"version\": [16, 34], \"virtual\": 34, \"vscode\": 6, \"wa\": 17, \"what\": 17, \"where\": 15, \"your\": 34, \"zocalo\": [13, 32]\x7d\x7d)\n"

/-- The text of `341-new-j20-setup/searchindex.js`, character for character; the braces of the text are
written `\x7b` and `\x7d`, its quotes `\"`, and its final line feed, when it has one, `\n`. -/
def src_341_new_j20_setup : String :=
  "Search.setIndex(\x7b\"alltitles\": \x7b\"1. Record architecture decisions\": [[1, \"record-architecture-decisions\"]], \"2. Adopt python3-pip-skeleton for project structure\": [[2, \"adopt-python3-pip-skeleton-for-project-structure\"]], \"API\": [[19, \"module-dodal\"]], \"API Index\": [[14, \"api-index\"]], \"About the documentation\": [[16, \"about-the-documentation\"]], \"Adding Logging\": [[20, \"adding-logging\"]], \"Architectural Decision Records\": [[0, \"architectural-decision-records\"]], \"Autobuild\": [[3, \"autobuild\"]], \"Build and test\": [[13, \"build-and-test\"]], \"Build the docs using sphinx\": [[3, \"build-the-docs-using-sphinx\"]], \"Check your version of python\": [[21, \"check-your-version-of-python\"]], \"Clone the repository\": [[13, \"clone-the-repository\"]], \"Code Standards\": [[12, \"code-standards\"]], \"Code coverage\": [[4, \"code-coverage\"]], \"Consequences\": [[1, \"consequences\"], [2, \"consequences\"]], \"Context\": [[1, \"context\"], [2, \"context\"]], \"Contributing to the project\": [[4, \"contributing-to-the-project\"]], \"Create a virtual environment\": [[21, \"create-a-virtual-environment\"]], \"Creating a new beamline\": [[17, \"creating-a-new-beamline\"]], \"Decision\": [[1, \"decision\"], [2, \"decision\"]], \"Developer Guide\": [[11, \"developer-guide\"]], \"Developer guide\": [[4, \"developer-guide\"]], \"Developer install\": [[13, \"developer-install\"]], \"Documentation Standards\": [[12, \"documentation-standards\"]], \"Explanations\": [[11, null], [18, null]], \"Fixing issues\": [[5, \"fixing-issues\"]], \"Getting Started\": [[20, \"getting-started\"]], \"How the documentation is structured\": [[15, \"how-the-documentation-is-structured\"]], \"How-to Guides\": [[11, null], [18, null]], \"Install dependencies\": [[13, \"install-dependencies\"]], \"Installation\": [[21, \"installation\"]], \"Installing the library\": [[21, \"installing-the-library\"]], \"Issue or Discussion?\": [[4, \"issue-or-discussion\"]], \"Make a release\": [[6, \"make-a-release\"]], \"Moving code from another repo\": [[7, \"moving-code-from-another-repo\"]], \"Reference\": [[11, null], [18, null]], \"Run linting using pre-commit\": [[5, \"run-linting-using-pre-commit\"]], \"Run static analysis using mypy\": [[9, \"run-static-analysis-using-mypy\"]], \"Run the tests using pytest\": [[8, \"run-the-tests-using-pytest\"]], \"Running pre-commit\": [[5, \"running-pre-commit\"]], \"See what was installed\": [[13, \"see-what-was-installed\"]], \"Standards\": [[12, \"standards\"]], \"Status\": [[1, \"status\"], [2, \"status\"]], \"The Purpose of Dodal\": [[20, \"the-purpose-of-dodal\"]], \"Tutorials\": [[11, null], [18, null]], \"Update the tools\": [[10, \"update-the-tools\"]], \"User Guide\": [[18, \"user-guide\"]], \"Using Devices\": [[20, \"using-devices\"]], \"VSCode support\": [[5, \"vscode-support\"]], \"dodal\": [[15, \"dodal\"], [19, \"dodal\"]]\x7d, \"docnames\": [\"developer/explanations/decisions\", \"developer/explanations/decisions/0001-record-architecture-decisions\", \"developer/explanations/decisions/0002-switched-to-pip-skeleton\", \"developer/how-to/build-docs\", \"developer/how-to/contribute\", \"developer/how-to/lint\", \"developer/how-to/make-release\", \"developer/how-to/move-code\", \"developer/how-to/run-tests\", \"developer/how-to/static-analysis\", \"developer/how-to/update-tools\", \"developer/index\", \"developer/reference/standards\", \"developer/tutorials/dev-install\", \"genindex\", \"index\", \"user/explanations/docs-structure\", \"user/how-to/create-beamline\", \"user/index\", \"user/reference/api\", \"user/tutorials/get_started\", \"user/tutorials/installation\"], \"envversion\": \x7b\"sphinx\": 61, \"sphinx.domains.c\": 3, \"sphinx.domains.changeset\": 1, \"sphinx.domains.citation\": 1, \"sphinx.domains.cpp\": 9, \"sphinx.domains.index\": 1, \"sphinx.domains.javascript\": 3, \"sphinx.domains.math\": 2, \"sphinx.domains.python\": 4, \"sphinx.domains.rst\": 2, \"sphinx.domains.std\": 2, \"sphinx.ext.intersphinx\": 1, \"sphinx.ext.viewcode\": 1\x7d, \"filenames\": [\"developer/explanations/decisions.rst\", \"developer/explanations/decisions/0001-record-architecture-decisions.rst\", \"developer/explanations/decisions/0002-switched-to-pip-skeleton.rst\", \"developer/how-to/build-docs.rst\", \"developer/how-to/contribute.rst\", \"developer/how-to/lint.rst\", \"developer/how-to/make-release.rst\", \"developer/how-to/move-code.rst\", \"developer/how-to/run-tests.rst\", \"developer/how-to/static-analysis.rst\", \"developer/how-to/update-tools.rst\", \"developer/index.rst\", \"developer/reference/standards.rst\", \"developer/tutorials/dev-install.rst\", \"genindex.rst\", \"index.rst\", \"user/explanations/docs-structure.rst\", \"user/how-to/create-beamline.rst\", \"user/index.rst\", \"user/reference/api.rst\", \"user/tutorials/get_started.rst\", \"user/tutorials/installation.rst\"], \"indexentries\": \x7b\"dodal\": [[19, \"module-dodal\", false]], \"dodal.__version__ (in module dodal)\": [[19, \"dodal.dodal.__version__\", false]], \"module\": [[19, \"module-dodal\", false]]\x7d, \"objects\": \x7b\"\": [[19, 0, 0, \"-\", \"dodal\"]], \"dodal.dodal\": [[19, 1, 1, \"\", \"__version__\"]]\x7d, \"objnames\": \x7b\"0\": [\"py\", \"module\", \"Python module\"], \"1\": [\"py\", \"data\", \"Python data\"]\x7d, \"objtypes\": \x7b\"0\": \"py:module\", \"1\": \"py:data\"\x7d, \"terms\": \x7b\"\": [1, 7, 17, 20], \"0\": 7, \"01\": 17, \"02\": [1, 2], \"0440\": 6, \"1\": [0, 12], \"100\": 4, \"123\": 7, \"18\": [1, 2], \"2\": [0, 12, 15], \"2022\": [1, 2], \"3\": [12, 13, 21], \"8\": [13, 21], \"8000\": 3, \"9\": 7, \"A\": 17, \"As\": [2, 12], \"At\": 7, \"For\": 12, \"If\": [3, 4, 5, 7, 17, 20, 21], \"In\": 7, \"It\": [5, 7, 8, 9, 21], \"Or\": 5, \"The\": [2, 3, 4, 5, 12, 15, 16, 17, 21], \"There\": 16, \"These\": 13, \"To\": [1, 6, 10, 13, 20], \"__version__\": 19, \"abl\": 5, \"about\": 18, \"abov\": [1, 5], \"accept\": [1, 2], \"access\": [11, 18, 20], \"across\": [15, 20], \"activ\": [13, 21], \"ad\": 17, \"adaravi\": 17, \"adaravisdetector\": 17, \"add\": 7, \"add_code_from_hyperion\": 7, \"adopt\": 0, \"adr\": [0, 1], \"aggress\": 7, \"all\": [4, 5, 7], \"all_beamlin\": 17, \"allow\": 7, \"alreadi\": 17, \"also\": [3, 4, 5, 8, 11, 17, 18, 20, 21], \"alwai\": 17, \"am\": 20, \"amount\": 20, \"an\": [3, 5, 7, 10, 17], \"analysi\": [11, 12, 13], \"ani\": [3, 4, 7, 10, 17, 20, 21], \"anoth\": 11, \"anyth\": 20, \"api\": [3, 12, 18], \"approach\": 16, \"ar\": [3, 4, 7, 12, 16, 17, 20], \"architectur\": 11, \"area\": 10, \"areadetector\": 17, \"arg\": 12, \"arg1\": 12, \"arg2\": 12, \"argument\": 17, \"articl\": 1, \"ask\": 4, \"assum\": 7, \"automat\": 5, \"avoid\": 7, \"ax\": 17, \"b\": 7, \"back\": 15, \"bar\": [11, 18], \"base\": 3, \"beamlin\": [15, 18, 20], \"beamline_util\": 17, \"been\": [7, 21], \"befor\": 4, \"being\": [5, 17], \"below\": [0, 17], \"between\": 10, \"big\": 4, \"bin\": [13, 21], \"bl\": 17, \"bl_prefix\": 17, \"black\": [5, 12], \"blixx\": 17, \"blueski\": [17, 20], \"bool\": [12, 17], \"branch\": [6, 7], \"browser\": 3, \"bug\": 4, \"build\": [11, 12], \"built\": 3, \"calcul\": 19, \"call\": [16, 17], \"came\": 7, \"can\": [2, 3, 4, 5, 7, 8, 9, 13, 17, 20, 21], \"capabl\": 17, \"case\": [5, 7, 13], \"categori\": [11, 18], \"caught\": 4, \"cd\": [2, 7, 13], \"chang\": [2, 3, 4, 5, 7, 10, 15], \"check\": [4, 5, 7, 8, 9, 10, 12, 13, 17], \"checklist\": 6, \"checkout\": 7, \"choos\": [6, 13], \"chose\": 6, \"ci\": 2, \"class\": 17, \"clean\": 7, \"click\": [6, 13], \"clone\": [5, 7, 17], \"clone_for_histori\": 7, \"close\": [4, 10], \"code\": [3, 5, 11, 13, 15, 20], \"codebas\": 7, \"collect\": 17, \"com\": [7, 10, 13, 21], \"come\": 7, \"command\": 5, \"commandlin\": [8, 21], \"commit\": [7, 11, 12, 13], \"commonli\": 20, \"complet\": 17, \"complex\": 13, \"compliant\": 6, \"compon\": 17, \"concurr\": 17, \"condition\": 17, \"configur\": 17, \"conflict\": 10, \"conform\": [12, 17], \"connect\": [17, 20], \"consid\": 12, \"consist\": 2, \"constructor\": 17, \"contain\": [4, 12, 13, 15, 20], \"contribut\": [11, 15], \"convent\": 12, \"copi\": [1, 7, 17], \"correct\": 7, \"could\": [2, 15, 17], \"cov\": 8, \"cover\": 20, \"coverag\": 8, \"creat\": [1, 6, 7, 18], \"creation\": 16, \"current\": [0, 10, 21], \"d11\": 17, \"dai\": 11, \"date\": [1, 2], \"david\": 16, \"dcam\": 17, \"dcm\": 20, \"debug\": 20, \"decis\": 11, \"def\": [12, 17], \"default\": [17, 20], \"defin\": [12, 17], \"definit\": 9, \"depend\": [7, 21], \"describ\": [0, 1], \"descript\": 12, \"detail\": 10, \"dev\": [11, 13], \"devcontain\": 13, \"develop\": [2, 15], \"devic\": [7, 15, 17], \"device_instanti\": 17, \"di\": 17, \"diamondlightsourc\": [7, 10, 13, 15, 21], \"differ\": [2, 7, 16], \"directori\": [3, 7, 12, 20], \"discourag\": 17, \"dl\": [7, 15, 20, 21], \"dls_sw\": 20, \"do\": [5, 7, 9, 17, 20], \"doc\": [11, 12, 13], \"docstr\": [3, 12], \"document\": [3, 4, 11, 13, 18], \"dodal\": [7, 13, 17, 21], \"doe\": 4, \"don\": 4, \"done\": [8, 9], \"draft\": 6, \"e\": [3, 5, 7, 8, 9, 13], \"each\": 5, \"easili\": 4, \"edit\": 6, \"editor\": 5, \"effect\": 6, \"either\": 13, \"enabl\": 5, \"end\": 4, \"ensur\": [2, 7], \"environ\": [2, 4, 13], \"epic\": 13, \"error\": 8, \"ever\": 7, \"everi\": [5, 7], \"everyth\": 7, \"exampl\": [7, 12, 17], \"except\": 6, \"exclud\": 17, \"exist\": [1, 4, 17, 21], \"exlus\": 20, \"experi\": 17, \"experienc\": 18, \"explan\": 16, \"explicit\": 7, \"explicitli\": 20, \"extend\": 12, \"extens\": 12, \"extract\": 12, \"f\": [7, 17], \"factori\": 17, \"fake\": 17, \"fake_with_ophyd_sim\": 17, \"fals\": [10, 17], \"fd\": 7, \"featur\": 21, \"fictiti\": 17, \"file\": [4, 5, 7, 9, 20], \"filter\": 7, \"find\": 8, \"firefox\": 3, \"first\": 13, \"fit\": [4, 7], \"fix\": 2, \"folder\": 7, \"follow\": [2, 4, 6, 7, 12, 13, 17, 20], \"format\": [2, 5, 12], \"four\": [11, 16, 18], \"free\": 4, \"from\": [1, 2, 3, 5, 11, 12, 17, 18, 20, 21], \"func\": 12, \"function\": [8, 12, 16, 17, 20], \"g\": 7, \"gc\": 7, \"gener\": [6, 7, 10], \"get\": [6, 11, 13, 18], \"get_beamline_nam\": 17, \"git\": [5, 7, 10, 13, 21], \"github\": [4, 6, 7, 10, 13, 15, 21], \"give\": 20, \"go\": [6, 20], \"good\": [7, 16], \"googl\": 12, \"grand\": 16, \"graph\": 13, \"graylog\": 20, \"great\": 4, \"guid\": [12, 15, 16], \"ha\": [6, 10, 17, 21], \"had\": 7, \"handl\": [4, 5], \"hard\": 7, \"hardwar\": 20, \"have\": [2, 4, 5, 7, 13, 20], \"head\": 12, \"headl\": 12, \"help\": [16, 20], \"helper\": 20, \"here\": 18, \"highlight\": [5, 9], \"hint\": 12, \"histori\": 7, \"hook\": 5, \"host\": 13, \"how\": [12, 16], \"html\": 3, \"http\": [3, 6, 7, 10, 15, 21], \"hutch\": 17, \"hyperion\": 7, \"i\": [0, 4, 5, 7, 8, 9, 10, 11, 12, 16, 17, 18, 19, 20, 21], \"i03\": 20, \"idea\": [4, 7], \"immedi\": 20, \"immens\": 16, \"implic\": 16, \"import\": [7, 17, 20], \"improv\": [4, 16], \"includ\": [3, 17, 18], \"increas\": 20, \"index\": [3, 18], \"indic\": 10, \"info\": 20, \"inform\": [4, 16], \"instal\": [5, 7, 11, 15, 18], \"instanc\": [17, 20], \"instanti\": 17, \"instead\": [4, 20], \"instruct\": 13, \"instrument\": 20, \"int\": 12, \"integr\": 13, \"interfac\": 21, \"interfer\": 21, \"intern\": 19, \"involv\": 4, \"io\": 15, \"isn\": 16, \"issu\": [7, 9], \"its\": 21, \"json\": 5, \"just\": 5, \"keep\": [7, 10], \"la\": 16, \"lambda\": 17, \"later\": [13, 21], \"latest\": [2, 10], \"librari\": [4, 18], \"like\": [8, 20], \"likewis\": 5, \"line\": 12, \"link\": [1, 11, 18], \"lint\": [2, 11, 12, 13], \"list\": [0, 17], \"live\": 17, \"local\": [3, 7, 13, 20], \"localhost\": 3, \"log\": [7, 17], \"logger\": 20, \"look\": [7, 8], \"m\": [7, 13, 21], \"machin\": [13, 17], \"made\": 1, \"mai\": [2, 5, 7, 17], \"main\": [6, 7], \"major\": 0, \"make\": [3, 4, 7, 11], \"manag\": 2, \"mani\": 20, \"manual\": 5, \"match\": 9, \"materi\": [11, 18], \"maximum\": 17, \"mean\": 10, \"mention\": 7, \"merg\": 10, \"messag\": [7, 20], \"michael\": [0, 1], \"might\": 4, \"minim\": 13, \"mistaken\": 7, \"mkdir\": 7, \"modifi\": 7, \"modul\": [2, 10], \"monitor\": 17, \"more\": [7, 10, 13, 16, 17, 18, 20], \"most\": [4, 16], \"mostli\": 7, \"motor\": 17, \"move\": 11, \"msg\": 7, \"multipl\": [10, 17], \"mv\": 7, \"mypi\": [11, 12, 13], \"name\": 17, \"napoleon\": 12, \"need\": [1, 16, 17, 21], \"new\": [1, 4, 6, 13, 18], \"next\": 20, \"notat\": 7, \"note\": [6, 7, 18], \"now\": [5, 7, 13, 20, 21], \"number\": [4, 6, 19], \"nygard\": [0, 1], \"object\": 17, \"obviou\": 4, \"occur\": 20, \"offer\": 4, \"often\": 16, \"old\": 7, \"old_repo\": 7, \"onc\": 17, \"one\": [4, 16, 17], \"ones\": 1, \"onli\": [7, 17, 20], \"open\": [3, 4, 13], \"ophyd\": [15, 17, 20], \"optic\": 17, \"option\": [6, 17], \"order\": 16, \"org\": 6, \"origin\": 7, \"other\": [7, 15, 20], \"our\": 0, \"out\": 7, \"own\": 7, \"p\": [7, 13], \"packag\": [2, 13], \"page\": [3, 6, 12], \"parallel\": 13, \"pass\": 17, \"past\": 1, \"path\": [7, 21], \"pep\": 6, \"pep440\": 6, \"pip\": [0, 7, 10, 13, 15, 21], \"pipdeptre\": 13, \"place\": 4, \"plan\": 20, \"pleas\": [4, 6, 12, 20], \"podman\": 13, \"point\": [7, 17], \"possibl\": 5, \"potenti\": 9, \"practic\": [11, 18], \"pre\": [11, 12, 13], \"prefix\": 17, \"prepar\": 7, \"process\": [3, 7, 12], \"project\": [0, 1, 3, 8, 10, 11], \"prompt\": 13, \"protocol\": 17, \"provid\": [10, 20], \"prune\": 7, \"publish\": 6, \"pull\": [2, 3, 4, 7, 10], \"purpos\": 16, \"push\": [6, 7, 20], \"pypa\": 19, \"pypi\": 15, \"pytest\": [11, 13], \"python\": [6, 10, 13], \"python3\": [0, 10, 13, 21], \"question\": 4, \"rais\": 4, \"re\": 7, \"read\": 17, \"real\": 20, \"realis\": 7, \"rebas\": [7, 10], \"rebuild\": 3, \"recommend\": 21, \"record\": 11, \"reduc\": 4, \"refer\": [7, 16, 19], \"reformat\": 5, \"releas\": [11, 15, 18, 21], \"reload\": 3, \"remain\": 4, \"remot\": 7, \"remov\": 7, \"reopen\": 13, \"repo\": [5, 11], \"report\": [5, 8], \"repositori\": [5, 7, 12], \"repres\": 16, \"request\": [4, 10], \"requir\": [13, 16, 21], \"reset\": 7, \"result\": 5, \"return\": [12, 17], \"review\": 6, \"rm\": 7, \"ruff\": [5, 12], \"run\": [3, 4, 10, 11, 12, 13, 17], \"s41\": 17, \"safe\": 7, \"same\": [4, 6, 17], \"save\": [5, 20], \"scope\": 4, \"secret\": 16, \"section\": 15, \"sed\": 7, \"see\": [1, 3, 6], \"sens\": 7, \"set\": [2, 4, 5, 12, 17, 20], \"set_beamlin\": 17, \"set_log_beamlin\": 17, \"set_up_logging_handl\": 20, \"set_utils_beamlin\": 17, \"setup\": [2, 10, 13], \"setuptools_scm\": 19, \"share\": 4, \"should\": [2, 4, 17, 21], \"side\": [11, 18], \"signatur\": 12, \"significantli\": 4, \"simul\": [17, 20], \"skeleton\": [0, 10], \"skip_devic\": 17, \"so\": [7, 13, 20, 21], \"softwar\": [16, 21], \"some\": [7, 20], \"someth\": [4, 10], \"sourc\": [3, 7, 9, 13, 15, 21], \"spend\": 4, \"sphinx\": [11, 12, 13], \"split\": [11, 15, 18], \"src\": [3, 7], \"standard\": [3, 4, 11], \"start\": 18, \"static\": [3, 11, 12, 13], \"statu\": 17, \"step\": [11, 13, 18], \"str\": [12, 17, 19], \"structur\": [0, 7, 10], \"style\": 12, \"summari\": 12, \"suppli\": 6, \"sure\": 4, \"switch\": 2, \"sync\": 10, \"synchrotron\": 17, \"t\": [4, 16], \"tag\": 6, \"take\": 13, \"task\": 11, \"technic\": [11, 16, 18], \"techniqu\": [2, 10], \"tell\": [3, 5], \"termin\": [13, 21], \"test\": [4, 7, 11, 17], \"test_device_instanti\": 17, \"thei\": [16, 17], \"them\": [8, 9, 20], \"theori\": 16, \"thi\": [1, 2, 3, 5, 6, 7, 10, 12, 13, 16, 17, 19, 20, 21], \"thing\": 16, \"think\": 20, \"those\": 5, \"through\": [4, 13], \"ticket\": 4, \"tidi\": 7, \"time\": [4, 5], \"titl\": [6, 12], \"togeth\": 17, \"too\": 3, \"took\": 17, \"tool\": [2, 11, 12], \"topic\": 16, \"tox\": [3, 5, 8, 9, 13], \"tree\": 13, \"true\": [12, 17], \"tutori\": 16, \"twin\": 17, \"type\": [9, 12, 13, 17, 21], \"typic\": 18, \"under\": [5, 13], \"underlin\": 12, \"understand\": 16, \"understood\": 16, \"unifi\": 16, \"unrel\": 7, \"up\": [4, 7, 11, 20], \"updat\": [2, 11], \"us\": [1, 2, 7, 11, 12, 13, 15, 17, 21], \"usag\": 18, \"user\": [5, 15], \"util\": [15, 17], \"valid\": 17, \"valu\": 12, \"venv\": [2, 13, 21], \"version\": [10, 19], \"view\": 3, \"virtualenv\": 13, \"vscode\": 13, \"w41\": 17, \"wai\": 18, \"wait\": 17, \"wait_for_connect\": 17, \"want\": [4, 7], \"watch\": 3, \"we\": [0, 1, 2, 4, 7], \"web\": 3, \"welcom\": 4, \"well\": 5, \"what\": [4, 20], \"when\": [4, 13, 17, 20], \"whenev\": 3, \"where\": [7, 9, 10], \"which\": [3, 10, 13, 17], \"while\": 4, \"why\": [11, 18], \"window\": 5, \"without\": 9, \"work\": [18, 20], \"workstat\": 20, \"would\": [17, 20], \"write\": [7, 16], \"xml\": 8, \"you\": [3, 4, 5, 6, 7, 8, 9, 13, 20, 21], \"your\": [3, 4, 5, 20]\x7d, \"titles\": [\"Architectural Decision Records\", \"1. Record architecture decisions\", \"2. Adopt python3-pip-skeleton for project structure\", \"Build the docs using sphinx\", \"Contributing to the project\", \"Run linting using pre-commit\", \"Make a release\", \"Moving code from another repo\", \"Run the tests using pytest\", \"Run static analysis using mypy\", \"Update the tools\", \"Developer Guide\", \"Standards\", \"Developer install\", \"API Index\", \"dodal\", \"About the documentation\", \"Creating a new beamline\", \"User Guide\", \"API\", \"Getting Started\", \"Installation\"], \"titleterms\": \x7b\"1\": 1, \"2\": 2, \"The\": 20, \"about\": 16, \"ad\": 20, \"adopt\": 2, \"analysi\": 9, \"anoth\": 7, \"api\": [14, 19], \"architectur\": [0, 1], \"autobuild\": 3, \"beamlin\": 17, \"build\": [3, 13], \"check\": 21, \"clone\": 13, \"code\": [4, 7, 12], \"commit\": 5, \"consequ\": [1, 2], \"context\": [1, 2], \"contribut\": 4, \"coverag\": 4, \"creat\": [17, 21], \"decis\": [0, 1, 2], \"depend\": 13, \"develop\": [4, 11, 13], \"devic\": 20, \"discuss\": 4, \"doc\": 3, \"document\": [12, 15, 16], \"dodal\": [15, 19, 20], \"environ\": 21, \"explan\": [11, 18], \"fix\": 5, \"from\": 7, \"get\": 20, \"guid\": [4, 11, 18], \"how\": [11, 15, 18], \"i\": 15, \"index\": 14, \"instal\": [13, 21], \"issu\": [4, 5], \"librari\": 21, \"lint\": 5, \"log\": 20, \"make\": 6, \"move\": 7, \"mypi\": 9, \"new\": 17, \"pip\": 2, \"pre\": 5, \"project\": [2, 4], \"purpos\": 20, \"pytest\": 8, \"python\": 21, \"python3\": 2, \"record\": [0, 1], \"refer\": [11, 18], \"releas\": 6, \"repo\": 7, \"repositori\": 13, \"run\": [5, 8, 9], \"see\": 13, \"skeleton\": 2, \"sphinx\": 3, \"standard\": 12, \"start\": 20, \"static\": 9, \"statu\": [1, 2], \"structur\": [2, 15], \"support\": 5, \"test\": [8, 13], \"tool\": 10, \"tutori\": [11, 18], \"updat\": 10, \"us\": [3, 5, 8, 9, 20], \"user\": 18, \"version\": 21, \"virtual\": 21, \"vscode\": 5, \"wa\": 13, \"what\": 13, \"your\": 21\x7d\x7d)\n"

/-- The text of `483-make-device_factory-decorator-to-ease-making-and-connecting-ophyd-async-devices/searchindex.js`, character for character; the braces of the text are
written `\x7b` and `\x7d`, its quotes `\"`, and its final line feed, when it has one, `\n`. -/
def src_483_make_device_factory : String :=
  "Search.setIndex(\x7b\"alltitles\": \x7b\"1. Record architecture decisions\": [[1, \"record-architecture-decisions\"]], \"2. Adopt python3-pip-skeleton for project structure\": [[2, \"adopt-python3-pip-skeleton-for-project-structure\"]], \"3. Add device factory decorator with lazy connect support\": [[3, \"add-device-factory-decorator-with-lazy-connect-support\"]], \"API\": [[20, \"module-dodal\"]], \"API Index\": [[15, \"api-index\"]], \"About the documentation\": [[17, \"about-the-documentation\"]], \"Adding Logging\": [[21, \"adding-logging\"]], \"Architectural Decision Records\": [[0, \"architectural-decision-records\"]], \"Autobuild\": [[4, \"autobuild\"]], \"Build and test\": [[14, \"build-and-test\"]], \"Build the docs using sphinx\": [[4, \"build-the-docs-using-sphinx\"]], \"Check your version of python\": [[22, \"check-your-version-of-python\"]], \"Clone the repository\": [[14, \"clone-the-repository\"]], \"Code Standards\": [[13, \"code-standards\"]], \"Code coverage\": [[5, \"code-coverage\"]], \"Consequences\": [[1, \"consequences\"], [2, \"consequences\"], [3, \"consequences\"]], \"Context\": [[1, \"context\"], [2, \"context\"], [3, \"context\"]], \"Contributing to the project\": [[5, \"contributing-to-the-project\"]], \"Create a virtual environment\": [[22, \"create-a-virtual-environment\"]], \"Creating a new beamline\": [[18, \"creating-a-new-beamline\"]], \"Decision\": [[1, \"decision\"], [2, \"decision\"], [3, \"decision\"]], \"Developer Guide\": [[12, \"developer-guide\"]], \"Developer guide\": [[5, \"developer-guide\"]], \"Developer install\": [[14, \"developer-install\"]], \"Documentation Standards\": [[13, \"documentation-standards\"]], \"Explanations\": [[12, null], [19, null]], \"Fixing issues\": [[6, \"fixing-issues\"]], \"Getting Started\": [[21, \"getting-started\"]], \"How the documentation is structured\": [[16, \"how-the-documentation-is-structured\"]], \"How-to Guides\": [[12, null], [19, null]], \"Install dependencies\": [[14, \"install-dependencies\"]], \"Installation\": [[22, \"installation\"]], \"Installing the library\": [[22, \"installing-the-library\"]], \"Issue or Discussion?\": [[5, \"issue-or-discussion\"]], \"Make a release\": [[7, \"make-a-release\"]], \"Moving code from another repo\": [[8, \"moving-code-from-another-repo\"]], \"Reference\": [[12, null], [19, null]], \"Run linting using pre-commit\": [[6, \"run-linting-using-pre-commit\"]], \"Run static analysis using mypy\": [[10, \"run-static-analysis-using-mypy\"]], \"Run the tests using pytest\": [[9, \"run-the-tests-using-pytest\"]], \"Running pre-commit\": [[6, \"running-pre-commit\"]], \"See what was installed\": [[14, \"see-what-was-installed\"]], \"Standards\": [[13, \"standards\"]], \"Status\": [[1, \"status\"], [2, \"status\"], [3, \"status\"]], \"Testing Connectivity\": [[16, \"testing-connectivity\"]], \"The Purpose of Dodal\": [[21, \"the-purpose-of-dodal\"]], \"Tutorials\": [[12, null], [19, null]], \"Update the tools\": [[11, \"update-the-tools\"]], \"User Guide\": [[19, \"user-guide\"]], \"Using Devices\": [[21, \"using-devices\"]], \"VSCode support\": [[6, \"vscode-support\"]], \"dodal\": [[16, \"dodal\"], [20, \"dodal\"]]\x7d, \"docnames\": [\"developer/explanations/decisions\", \"developer/explanations/decisions/0001-record-architecture-decisions\", \"developer/explanations/decisions/0002-switched-to-pip-skeleton\", \"developer/explanations/decisions/0003-added-make-devices-decorator\", \"developer/how-to/build-docs\", \"developer/how-to/contribute\", \"developer/how-to/lint\", \"developer/how-to/make-release\", \"developer/how-to/move-code\", \"developer/how-to/run-tests\", \"developer/how-to/static-analysis\", \"developer/how-to/update-tools\", \"developer/index\", \"developer/reference/standards\", \"developer/tutorials/dev-install\", \"genindex\", \"index\", \"user/explanations/docs-structure\", \"user/how-to/create-beamline\", \"user/index\", \"user/reference/api\", \"user/tutorials/get_started\", \"user/tutorials/installation\"], \"envversion\": \x7b\"sphinx\": 61, \"sphinx.domains.c\": 3, \"sphinx.domains.changeset\": 1, \"sphinx.domains.citation\": 1, \"sphinx.domains.cpp\": 9, \"sphinx.domains.index\": 1, \"sphinx.domains.javascript\": 3, \"sphinx.domains.math\": 2, \"sphinx.domains.python\": 4, \"sphinx.domains.rst\": 2, \"sphinx.domains.std\": 2, \"sphinx.ext.intersphinx\": 1, \"sphinx.ext.viewcode\": 1\x7d, \"filenames\": [\"developer/explanations/decisions.rst\", \"developer/explanations/decisions/0001-record-architecture-decisions.rst\", \"developer/explanations/decisions/0002-switched-to-pip-skeleton.rst\", \"developer/explanations/decisions/0003-added-make-devices-decorator.rst\", \"developer/how-to/build-docs.rst\", \"developer/how-to/contribute.rst\", \"developer/how-to/lint.rst\", \"developer/how-to/make-release.rst\", \"developer/how-to/move-code.rst\", \"developer/how-to/run-tests.rst\", \"developer/how-to/static-analysis.rst\", \"developer/how-to/update-tools.rst\", \"developer/index.rst\", \"developer/reference/standards.rst\", \"developer/tutorials/dev-install.rst\", \"genindex.rst\", \"index.rst\", \"user/explanations/docs-structure.rst\", \"user/how-to/create-beamline.rst\", \"user/index.rst\", \"user/reference/api.rst\", \"user/tutorials/get_started.rst\", \"user/tutorials/installation.rst\"], \"indexentries\": \x7b\"dodal\": [[20, \"module-dodal\", false]], \"dodal.__version__ (in module dodal)\": [[20, \"dodal.dodal.__version__\", false]], \"module\": [[20, \"module-dodal\", false]]\x7d, \"objects\": \x7b\"\": [[20, 0, 0, \"-\", \"dodal\"]], \"dodal.dodal\": [[20, 1, 1, \"\", \"__version__\"]]\x7d, \"objnames\": \x7b\"0\": [\"py\", \"module\", \"Python module\"], \"1\": [\"py\", \"data\", \"Python data\"]\x7d, \"objtypes\": \x7b\"0\": \"py:module\", \"1\": \"py:data\"\x7d, \"terms\": \x7b\"\": [1, 8, 16, 18, 21], \"0\": 8, \"01\": 18, \"02\": [1, 2], \"04\": 3, \"0440\": 7, \"1\": [0, 13], \"100\": 5, \"123\": 8, \"18\": [1, 2], \"2\": [0, 13, 16], \"2022\": [1, 2], \"2024\": 3, \"26\": 3, \"3\": [0, 13, 14, 22], \"8\": [14, 22], \"8000\": 4, \"9\": 8, \"A\": 18, \"As\": [2, 13], \"At\": 8, \"For\": [13, 16], \"If\": [4, 5, 6, 8, 18, 21, 22], \"In\": 8, \"It\": [6, 8, 9, 10, 22], \"On\": 16, \"Or\": 6, \"The\": [2, 3, 4, 5, 6, 13, 16, 17, 18, 22], \"There\": 17, \"These\": 14, \"To\": [1, 7, 11, 14, 21], \"__version__\": 20, \"abl\": 6, \"about\": 19, \"abov\": [1, 3, 6], \"accept\": [1, 2, 3], \"access\": [12, 19, 21], \"across\": [16, 21], \"activ\": [14, 22], \"ad\": 18, \"adaravi\": 18, \"adaravisdetector\": 18, \"add\": [0, 8], \"add_code_from_hyperion\": 8, \"adopt\": 0, \"adr\": [0, 1], \"aggress\": 8, \"all\": [3, 5, 6, 8], \"all_beamlin\": 18, \"allow\": 8, \"alreadi\": 18, \"also\": [3, 4, 5, 6, 9, 12, 18, 19, 21, 22], \"alwai\": 18, \"am\": 21, \"amount\": 21, \"an\": [4, 6, 8, 11, 18], \"analysi\": [12, 13, 14], \"ani\": [4, 5, 8, 11, 16, 18, 21, 22], \"anoth\": 12, \"anyth\": 21, \"api\": [4, 13, 19], \"approach\": 17, \"ar\": [3, 4, 5, 8, 13, 16, 17, 18, 21], \"architectur\": 12, \"area\": 11, \"areadetector\": 18, \"arg\": [3, 13], \"arg1\": 13, \"arg2\": 13, \"argument\": 18, \"articl\": 1, \"ask\": 5, \"assum\": 8, \"async\": 3, \"automat\": 6, \"avoid\": 8, \"ax\": 18, \"b\": 8, \"back\": 16, \"bar\": [12, 19], \"base\": 4, \"beamlin\": [16, 19, 21], \"beamline_util\": 18, \"been\": [8, 22], \"befor\": 5, \"being\": [6, 18], \"below\": [0, 18], \"between\": 11, \"big\": 5, \"bin\": [14, 22], \"bl\": 18, \"bl_prefix\": 18, \"blixx\": 18, \"blueapi\": 3, \"blueski\": [18, 21], \"bool\": [13, 18], \"branch\": [7, 8], \"broadcast\": 3, \"browser\": 4, \"bug\": 5, \"build\": [12, 13], \"built\": 4, \"cach\": 3, \"calcul\": 20, \"call\": [3, 17, 18], \"came\": 8, \"can\": [2, 3, 4, 5, 6, 8, 9, 10, 14, 16, 18, 21, 22], \"capabl\": 18, \"case\": [6, 8, 14], \"categori\": [12, 19], \"caught\": 5, \"caus\": 3, \"cd\": [2, 8, 14], \"chang\": [2, 3, 4, 5, 6, 8, 11, 16], \"check\": [5, 6, 8, 9, 10, 11, 13, 14, 18], \"checklist\": 7, \"checkout\": 8, \"choos\": [7, 14], \"chose\": 7, \"ci\": 2, \"class\": 18, \"clean\": 8, \"click\": [7, 14], \"clone\": [6, 8, 18], \"clone_for_histori\": 8, \"close\": [5, 11], \"code\": [4, 6, 12, 14, 16, 21], \"codebas\": 8, \"collect\": 18, \"com\": [8, 11, 14, 22], \"come\": 8, \"command\": 6, \"commandlin\": [9, 22], \"commit\": [8, 12, 13, 14], \"common\": 18, \"commonli\": 21, \"complet\": 18, \"complex\": 14, \"compliant\": 7, \"compon\": 18, \"concurr\": 18, \"condition\": 18, \"configur\": 18, \"conflict\": 11, \"conform\": [13, 18], \"connect\": [0, 18, 21], \"consid\": 13, \"consist\": 2, \"constructor\": 18, \"contain\": [5, 13, 14, 16, 21], \"contribut\": [12, 16], \"convent\": 13, \"copi\": [1, 8, 18], \"correct\": 8, \"could\": [2, 3, 16, 18], \"cov\": 9, \"cover\": 21, \"coverag\": 9, \"creat\": [1, 7, 8, 19], \"creation\": 17, \"current\": [0, 11, 22], \"d11\": 18, \"dai\": 12, \"daq\": 3, \"date\": [1, 2, 3], \"david\": 17, \"dcam\": 18, \"dcm\": 21, \"debug\": 21, \"decis\": 12, \"decor\": 0, \"def\": [13, 18], \"default\": [3, 18, 21], \"defin\": [13, 18], \"definit\": 10, \"depend\": [8, 22], \"describ\": [0, 1], \"descript\": 13, \"detail\": 11, \"dev\": [12, 14], \"devcontain\": 14, \"develop\": [2, 16], \"devic\": [0, 8, 16, 18], \"device_factori\": 3, \"device_instanti\": 18, \"di\": 18, \"diamondlightsourc\": [8, 11, 14, 16, 22], \"differ\": [2, 8, 17], \"directori\": [4, 8, 13, 21], \"discourag\": 18, \"dl\": [8, 16, 21, 22], \"dls_sw\": 21, \"do\": [6, 8, 10, 18, 21], \"doc\": [12, 13, 14], \"docstr\": [4, 13], \"document\": [4, 5, 12, 14, 19], \"dodal\": [3, 8, 14, 18, 22], \"doe\": 5, \"don\": 5, \"done\": [9, 10], \"draft\": 7, \"e\": [4, 6, 8, 9, 10, 14], \"each\": 6, \"easili\": 5, \"edit\": 7, \"editor\": 6, \"effect\": 7, \"either\": 14, \"enabl\": 6, \"end\": 5, \"ensur\": [2, 8], \"ensure_connect\": 3, \"environ\": [2, 5, 14], \"epic\": 14, \"error\": 9, \"ever\": 8, \"everi\": [6, 8], \"everyth\": 8, \"exampl\": [8, 13, 18], \"except\": 7, \"exclud\": 18, \"exist\": [1, 5, 18, 22], \"exlus\": 21, \"experi\": 18, \"experienc\": 19, \"explan\": 17, \"explicit\": 8, \"explicitli\": 21, \"extend\": 13, \"extens\": 13, \"extract\": 13, \"f\": [8, 18], \"factori\": [0, 18], \"fail\": 3, \"fake\": 18, \"fake_with_ophyd_sim\": 18, \"fals\": [3, 11, 18], \"fd\": 8, \"featur\": 22, \"fictiti\": 18, \"file\": [5, 6, 8, 10, 21], \"filter\": 8, \"find\": 9, \"firefox\": 4, \"first\": 14, \"fit\": [5, 8], \"fix\": 2, \"folder\": 8, \"follow\": [2, 5, 7, 8, 13, 14, 18, 21], \"forc\": 3, \"format\": [2, 6, 13], \"four\": [12, 17, 19], \"free\": 5, \"from\": [1, 2, 4, 6, 12, 13, 18, 19, 21, 22], \"func\": 13, \"function\": [9, 13, 17, 18, 21], \"futur\": 3, \"g\": 8, \"gc\": 8, \"gener\": [7, 8, 11], \"get\": [7, 12, 14, 19], \"get_beamline_nam\": 18, \"get_device_factori\": 3, \"git\": [6, 8, 11, 14, 22], \"github\": [5, 7, 8, 11, 14, 16, 22], \"give\": 21, \"go\": [7, 21], \"good\": [8, 17], \"googl\": 13, \"grand\": 17, \"graph\": 14, \"graylog\": 21, \"great\": 5, \"guid\": [13, 16, 17], \"ha\": [7, 11, 18, 22], \"had\": 8, \"handl\": [5, 6], \"hard\": 8, \"hardwar\": 21, \"have\": [2, 5, 6, 8, 14, 21], \"head\": 13, \"headl\": 13, \"heartbeat\": 3, \"help\": [16, 17, 21], \"helper\": 21, \"here\": 19, \"highlight\": [6, 10], \"hint\": 13, \"histori\": 8, \"hook\": 6, \"host\": 14, \"how\": [13, 17], \"html\": 4, \"http\": [4, 7, 8, 11, 16, 22], \"hutch\": 18, \"hyperion\": 8, \"i\": [0, 3, 5, 6, 8, 9, 10, 11, 12, 13, 17, 18, 19, 20, 21, 22], \"i03\": 21, \"idea\": [5, 8], \"idempot\": 3, \"immedi\": 21, \"immens\": 17, \"implic\": 17, \"import\": [8, 18, 21], \"improv\": [5, 17], \"includ\": [4, 16, 18, 19], \"increas\": 21, \"index\": [4, 19], \"indic\": 11, \"info\": 21, \"inform\": [5, 17], \"instal\": [6, 8, 12, 16, 19], \"instanc\": [18, 21], \"instanti\": 18, \"instead\": [5, 21], \"instruct\": 14, \"instrument\": 21, \"int\": 13, \"integr\": 14, \"interfac\": 22, \"interfer\": 22, \"intern\": 20, \"involv\": 5, \"io\": 16, \"isn\": 17, \"issu\": [8, 10], \"iter\": 3, \"its\": 22, \"json\": 6, \"just\": 6, \"keep\": [8, 11], \"la\": 17, \"lambda\": 18, \"later\": [14, 22], \"latest\": [2, 11], \"lazi\": 0, \"led\": 3, \"librari\": [5, 19], \"like\": [9, 21], \"line\": 13, \"link\": [1, 12, 19], \"lint\": [2, 12, 13, 14], \"list\": [0, 16, 18], \"live\": 18, \"local\": [4, 8, 14, 21], \"localhost\": 4, \"log\": [3, 8, 18], \"logger\": 21, \"look\": [8, 9], \"m\": [8, 14, 22], \"machin\": [14, 16, 18], \"made\": 1, \"mai\": [2, 6, 8, 18], \"main\": [7, 8], \"major\": 0, \"make\": [3, 4, 5, 8, 12], \"manag\": 2, \"mani\": 21, \"manual\": 6, \"match\": 10, \"materi\": [12, 19], \"maximum\": 18, \"mean\": 11, \"member\": 3, \"mention\": 8, \"merg\": 11, \"messag\": [8, 21], \"michael\": [0, 1], \"might\": 5, \"minim\": 14, \"mistaken\": 8, \"mkdir\": 8, \"mock\": 3, \"modifi\": 8, \"modul\": [2, 11], \"monitor\": [3, 18], \"more\": [8, 11, 14, 16, 17, 18, 19, 21], \"most\": [5, 17], \"mostli\": 8, \"motor\": 18, \"move\": 12, \"msg\": 8, \"multipl\": [11, 18], \"mv\": 8, \"mypi\": [12, 13, 14], \"name\": [3, 18], \"napoleon\": 13, \"need\": [1, 17, 18, 22], \"new\": [1, 5, 7, 14, 19], \"next\": [3, 21], \"notat\": 8, \"note\": [7, 8, 19], \"now\": [6, 8, 14, 21, 22], \"number\": [5, 7, 20], \"nygard\": [0, 1], \"object\": 18, \"obviou\": 5, \"occur\": 21, \"offer\": 5, \"often\": 17, \"old\": 8, \"old_repo\": 8, \"onc\": 18, \"one\": [5, 17, 18], \"ones\": [1, 3], \"onli\": [8, 18, 21], \"open\": [4, 5, 14], \"ophyd\": [3, 16, 18, 21], \"optic\": 18, \"option\": [3, 7, 16, 18], \"order\": 17, \"org\": 7, \"origin\": 8, \"other\": [8, 16, 21], \"our\": 0, \"out\": 8, \"own\": 8, \"p\": [8, 14], \"packag\": [2, 14], \"page\": [4, 7, 13], \"parallel\": [3, 14], \"pass\": 18, \"past\": 1, \"path\": [8, 22], \"pep\": 7, \"pep440\": 7, \"per\": 3, \"pip\": [0, 8, 11, 14, 16, 22], \"pipdeptre\": 14, \"place\": 5, \"plan\": [3, 21], \"pleas\": [5, 7, 13, 21], \"podman\": 14, \"point\": [8, 18], \"possibl\": 6, \"potenti\": 10, \"practic\": [12, 19], \"pre\": [12, 13, 14], \"prefix\": 18, \"prepar\": 8, \"process\": [4, 8, 13], \"project\": [0, 1, 4, 9, 11, 12], \"prompt\": 14, \"propos\": 3, \"protocol\": 18, \"provid\": [11, 21], \"prune\": 8, \"publish\": 7, \"pull\": [2, 4, 5, 8, 11], \"purpos\": 17, \"push\": [7, 8, 21], \"pv\": [3, 16], \"pypa\": 20, \"pypi\": 16, \"pytest\": [12, 14], \"python\": [7, 11, 14], \"python3\": [0, 11, 14, 22], \"question\": 5, \"rais\": 5, \"re\": 8, \"read\": 18, \"real\": 21, \"realis\": 8, \"rebas\": [8, 11], \"rebuild\": 4, \"recommend\": 22, \"reconnect\": 3, \"record\": 12, \"reduc\": 5, \"refer\": [8, 17, 20], \"reformat\": 6, \"releas\": [12, 16, 19, 22], \"reload\": 4, \"remain\": 5, \"remot\": 8, \"remov\": 8, \"reopen\": 14, \"repo\": [6, 12], \"report\": [6, 9], \"repositori\": [6, 8, 13], \"repres\": 17, \"request\": [5, 11], \"requir\": [14, 17, 22], \"reset\": 8, \"result\": 6, \"return\": [3, 13, 18], \"review\": 7, \"rm\": 8, \"ruff\": [6, 13], \"run\": [3, 4, 5, 11, 12, 13, 14, 18], \"s41\": 18, \"safe\": 8, \"same\": [5, 7, 18], \"save\": [6, 21], \"scope\": 5, \"secret\": 17, \"section\": 16, \"sed\": 8, \"see\": [1, 4, 7], \"sens\": 8, \"set\": [2, 5, 6, 13, 18, 21], \"set_beamlin\": 18, \"set_log_beamlin\": 18, \"set_up_logging_handl\": 21, \"set_utils_beamlin\": 18, \"setup\": [2, 11, 14], \"setuptools_scm\": 20, \"share\": 5, \"should\": [2, 3, 5, 16, 18, 22], \"side\": [12, 19], \"signatur\": 13, \"significantli\": 5, \"simul\": [18, 21], \"skeleton\": [0, 11], \"skip_devic\": 18, \"so\": [3, 8, 14, 21, 22], \"softwar\": [17, 22], \"some\": [8, 21], \"someth\": [5, 11], \"sourc\": [4, 8, 10, 14, 16, 22], \"spend\": 5, \"sphinx\": [12, 13, 14], \"split\": [12, 16, 19], \"src\": [4, 8], \"standard\": [4, 5, 12], \"start\": 19, \"startup\": 3, \"startup_connect\": 3, \"static\": [4, 12, 13, 14], \"statu\": 18, \"step\": [12, 14, 19], \"storm\": 3, \"str\": [13, 18, 20], \"structur\": [0, 8, 11], \"stub\": 3, \"style\": 13, \"suffic\": 16, \"summari\": 13, \"suppli\": 7, \"support\": 0, \"sure\": 5, \"switch\": 2, \"sync\": 11, \"synchrotron\": 18, \"t\": [5, 17], \"tag\": 7, \"take\": 14, \"task\": 12, \"technic\": [12, 17, 19], \"techniqu\": [2, 11], \"tell\": [4, 6], \"termin\": [14, 22], \"test\": [5, 8, 12, 18], \"test_device_instanti\": 18, \"thei\": [3, 17, 18], \"them\": [9, 10, 21], \"theori\": 17, \"thi\": [1, 2, 3, 4, 6, 7, 8, 11, 13, 14, 16, 17, 18, 20, 21, 22], \"thing\": 17, \"think\": 21, \"those\": [3, 6], \"through\": [5, 14], \"ticket\": 5, \"tidi\": 8, \"time\": [3, 5, 6], \"timeout\": 3, \"titl\": [7, 13], \"togeth\": 18, \"too\": 4, \"took\": 18, \"tool\": [2, 12, 13], \"topic\": 17, \"tox\": [4, 6, 9, 10, 14], \"tree\": 14, \"true\": [13, 18], \"tutori\": 17, \"twin\": 18, \"type\": [10, 13, 14, 16, 18, 22], \"typic\": 19, \"u\": 3, \"under\": [6, 14], \"underlin\": 13, \"understand\": 17, \"understood\": 17, \"unifi\": 17, \"unrel\": 8, \"up\": [5, 8, 12, 21], \"updat\": [2, 12], \"us\": [1, 2, 8, 12, 13, 14, 16, 18, 22], \"usag\": 19, \"user\": [6, 16], \"util\": [16, 18], \"valid\": [16, 18], \"valu\": 13, \"venv\": [2, 14, 22], \"verfi\": 3, \"version\": [11, 20], \"view\": 4, \"virtualenv\": 14, \"visibl\": 16, \"vscode\": 14, \"w41\": 18, \"wa\": 3, \"wai\": 19, \"wait\": 18, \"wait_for_connect\": 18, \"want\": [5, 8], \"watch\": 4, \"we\": [0, 1, 2, 3, 5, 8], \"web\": 4, \"welcom\": 5, \"well\": 6, \"what\": [5, 21], \"when\": [3, 5, 14, 18, 21], \"whenev\": 4, \"where\": [8, 10, 11], \"whether\": 3, \"which\": [4, 11, 14, 18], \"while\": 5, \"why\": [12, 19], \"window\": 6, \"without\": 10, \"work\": [19, 21], \"workstat\": [16, 21], \"would\": [3, 18, 21], \"write\": [8, 17], \"xml\": 9, \"you\": [4, 5, 6, 7, 8, 9, 10, 14, 16, 21, 22], \"your\": [4, 5, 6, 16, 21]\x7d, \"titles\": [\"Architectural Decision Records\", \"1. Record architecture decisions\", \"2. Adopt python3-pip-skeleton for project structure\", \"3. Add device factory decorator with lazy connect support\", \"Build the docs using sphinx\", \"Contributing to the project\", \"Run linting using pre-commit\", \"Make a release\", \"Moving code from another repo\", \"Run the tests using pytest\", \"Run static analysis using mypy\", \"Update the tools\", \"Developer Guide\", \"Standards\", \"Developer install\", \"API Index\", \"dodal\", \"About the documentation\", \"Creating a new beamline\", \"User Guide\", \"API\", \"Getting Started\", \"Installation\"], \"titleterms\": \x7b\"1\": 1, \"2\": 2, \"3\": 3, \"The\": 21, \"about\": 17, \"ad\": 21, \"add\": 3, \"adopt\": 2, \"analysi\": 10, \"anoth\": 8, \"api\": [15, 20], \"architectur\": [0, 1], \"autobuild\": 4, \"beamlin\": 18, \"build\": [4, 14], \"check\": 22, \"clone\": 14, \"code\": [5, 8, 13], \"commit\": 6, \"connect\": [3, 16], \"consequ\": [1, 2, 3], \"context\": [1, 2, 3], \"contribut\": 5, \"coverag\": 5, \"creat\": [18, 22], \"decis\": [0, 1, 2, 3], \"decor\": 3, \"depend\": 14, \"develop\": [5, 12, 14], \"devic\": [3, 21], \"discuss\": 5, \"doc\": 4, \"document\": [13, 16, 17], \"dodal\": [16, 20, 21], \"environ\": 22, \"explan\": [12, 19], \"factori\": 3, \"fix\": 6, \"from\": 8, \"get\": 21, \"guid\": [5, 12, 19], \"how\": [12, 16, 19], \"i\": 16, \"index\": 15, \"instal\": [14, 22], \"issu\": [5, 6], \"lazi\": 3, \"librari\": 22, \"lint\": 6, \"log\": 21, \"make\": 7, \"move\": 8, \"mypi\": 10, \"new\": 18, \"pip\": 2, \"pre\": 6, \"project\": [2, 5], \"purpos\": 21, \"pytest\": 9, \"python\": 22, \"python3\": 2, \"record\": [0, 1], \"refer\": [12, 19], \"releas\": 7, \"repo\": 8, \"repositori\": 14, \"run\": [6, 9, 10], \"see\": 14, \"skeleton\": 2, \"sphinx\": 4, \"standard\": 13, \"start\": 21, \"static\": 10, \"statu\": [1, 2, 3], \"structur\": [2, 16], \"support\": [3, 6], \"test\": [9, 14, 16], \"tool\": 11, \"tutori\": [12, 19], \"updat\": 11, \"us\": [4, 6, 9, 10, 21], \"user\": 19, \"version\": 22, \"virtual\": 22, \"vscode\": 6, \"wa\": 14, \"what\": 14, \"your\": 22\x7d\x7d)\n"

/-- The text of `fix_wrong_return_type/searchindex.js`, character for character; the braces of the text are
written `\x7b` and `\x7d`, its quotes `\"`, and its final line feed, when it has one, `\n`. -/
def src_fix_wrong_return_type : String :=
  "Search.setIndex(\x7b\"docnames\": [\"developer/explanations/decisions\", \"developer/explanations/decisions/0001-record-architecture-decisions\", \"developer/how-to/build-docs\", \"developer/how-to/contribute\", \"developer/how-to/lint\", \"developer/how-to/make-release\", \"developer/how-to/move-code\", \"developer/how-to/run-tests\", \"developer/how-to/static-analysis\", \"developer/how-to/update-tools\", \"developer/index\", \"developer/reference/standards\", \"developer/tutorials/dev-install\", \"genindex\", \"index\", \"user/explanations/docs-structure\", \"user/how-to/run-container\", \"user/index\", \"user/reference/api\", \"user/tutorials/get_started\", \"user/tutorials/installation\"], \"filenames\": [\"developer/explanations/decisions.rst\", \"developer/explanations/decisions/0001-record-architecture-decisions.rst\", \"developer/how-to/build-docs.rst\", \"developer/how-to/contribute.rst\", \"developer/how-to/lint.rst\", \"developer/how-to/make-release.rst\", \"developer/how-to/move-code.rst\", \"developer/how-to/run-tests.rst\", \"developer/how-to/static-analysis.rst\", \"developer/how-to/update-tools.rst\", \"developer/index.rst\", \"developer/reference/standards.rst\", \"developer/tutorials/dev-install.rst\", \"genindex.rst\", \"index.rst\", \"user/explanations/docs-structure.rst\", \"user/how-to/run-container.rst\", \"user/index.rst\", \"user/reference/api.rst\", \"user/tutorials/get_started.rst\", \"user/tutorials/installation.rst\"], \"titles\": [\"Architectural Decision Records\", \"1. Record architecture decisions\", \"Build the docs using sphinx\", \"Contributing to the project\", \"Run linting using pre-commit\", \"Make a release\", \"Moving code from another repo\", \"Run the tests using pytest\", \"Run static analysis using mypy\", \"Update the tools\", \"Developer Guide\", \"Standards\", \"Developer install\", \"API Index\", \"dodal\", \"About the documentation\", \"Run in a container\", \"User Guide\", \"API\", \"Getting Started\", \"Installation\"], \"terms\": \x7b\"we\": [0, 1, 3, 6], \"major\": 0, \"adr\": [0, 1], \"describ\": [0, 1], \"michael\": [0, 1], \"nygard\": [0, 1], \"below\": 0, \"i\": [0, 3, 4, 6, 7, 8, 9, 10, 11, 15, 17, 18, 19, 20], \"list\": 0, \"our\": 0, \"current\": [0, 9, 20], \"1\": [0, 11], \"date\": 1, \"2022\": 1, \"02\": 1, \"18\": 1, \"accept\": 1, \"need\": [1, 15, 20], \"made\": 1, \"thi\": [1, 2, 4, 5, 6, 9, 11, 12, 15, 18, 19, 20], \"project\": [1, 2, 7, 9, 10], \"us\": [1, 6, 10, 11, 12, 14, 16, 20], \"see\": [1, 2, 5], \"\": [1, 6, 19], \"articl\": 1, \"link\": [1, 10, 17], \"abov\": [1, 4], \"To\": [1, 5, 9, 12, 16, 19], \"creat\": [1, 5, 6], \"new\": [1, 3, 5, 12, 17], \"copi\": [1, 6], \"past\": 1, \"from\": [1, 2, 10, 11, 16, 17, 19, 20], \"exist\": [1, 3, 20], \"ones\": 1, \"you\": [2, 3, 4, 5, 6, 7, 8, 12, 19, 20], \"can\": [2, 3, 4, 6, 7, 8, 12, 19, 20], \"base\": 2, \"directori\": [2, 6, 11, 19], \"run\": [2, 3, 9, 10, 11, 12, 17], \"tox\": [2, 4, 7, 8, 12], \"e\": [2, 4, 6, 7, 8, 12], \"static\": [2, 10, 11, 12], \"which\": [2, 9, 12], \"includ\": [2, 17], \"api\": [2, 11, 17], \"pull\": [2, 3, 6, 9, 16], \"docstr\": [2, 11], \"code\": [2, 4, 10, 14, 19], \"document\": [2, 3, 10, 17], \"standard\": [2, 3, 10], \"The\": [2, 3, 4, 11, 14, 15, 20], \"built\": [2, 16], \"html\": 2, \"open\": [2, 3, 12], \"local\": [2, 6, 12, 19], \"web\": 2, \"brows\": 2, \"firefox\": 2, \"index\": [2, 17], \"also\": [2, 3, 7, 10, 17, 19, 20], \"an\": [2, 4, 6, 9], \"process\": [2, 6, 11], \"watch\": 2, \"your\": [2, 3, 19], \"chang\": [2, 3, 4, 6, 9, 14], \"rebuild\": 2, \"whenev\": 2, \"reload\": 2, \"ani\": [2, 3, 4, 6, 9, 19, 20], \"browser\": 2, \"page\": [2, 5, 11], \"view\": 2, \"localhost\": 2, \"http\": [2, 5, 6, 9, 14, 20], \"8000\": 2, \"If\": [2, 3, 4, 6, 19, 20], \"ar\": [2, 3, 6, 11, 15, 16, 19], \"make\": [2, 3, 6, 10], \"sourc\": [2, 6, 8, 12, 14, 20], \"too\": 2, \"tell\": [2, 4], \"src\": [2, 6], \"most\": [3, 15], \"welcom\": 3, \"all\": [3, 4, 6], \"request\": [3, 9], \"handl\": [3, 4], \"through\": [3, 12], \"github\": [3, 5, 6, 9, 12, 14, 16, 20], \"pleas\": [3, 5, 11, 19], \"check\": [3, 4, 6, 7, 8, 9, 11, 12], \"befor\": 3, \"file\": [3, 4, 6, 8, 19], \"one\": [3, 15], \"have\": [3, 4, 6, 12, 19], \"great\": 3, \"idea\": [3, 6], \"involv\": 3, \"big\": 3, \"ticket\": 3, \"want\": [3, 6], \"sure\": 3, \"don\": 3, \"t\": [3, 15], \"spend\": 3, \"time\": [3, 4], \"someth\": [3, 9], \"might\": 3, \"fit\": [3, 6], \"scope\": 3, \"offer\": 3, \"place\": 3, \"ask\": 3, \"question\": 3, \"share\": 3, \"end\": 3, \"obviou\": 3, \"when\": [3, 12, 19], \"close\": [3, 9], \"rais\": 3, \"instead\": [3, 16, 19], \"while\": 3, \"100\": 3, \"doe\": 3, \"librari\": [3, 17], \"bug\": 3, \"free\": 3, \"significantli\": 3, \"reduc\": 3, \"number\": [3, 5, 16, 18], \"easili\": 3, \"caught\": 3, \"remain\": 3, \"same\": [3, 5], \"improv\": [3, 15], \"contain\": [3, 11, 12, 14, 17, 19], \"inform\": [3, 15], \"set\": [3, 4, 11, 19], \"up\": [3, 6, 10, 19], \"environ\": [3, 12], \"test\": [3, 6, 10], \"what\": [3, 19], \"should\": [3, 20], \"follow\": [3, 5, 6, 11, 12, 19], \"black\": [4, 11], \"flake8\": [4, 11], \"isort\": [4, 11], \"under\": [4, 12], \"command\": 4, \"Or\": 4, \"instal\": [4, 6, 10, 14, 16, 17], \"hook\": 4, \"each\": 4, \"do\": [4, 6, 8, 19], \"git\": [4, 6, 9, 12, 20], \"just\": 4, \"report\": [4, 7], \"reformat\": 4, \"repositori\": [4, 6, 11], \"likewis\": 4, \"get\": [4, 5, 10, 12, 16, 17], \"those\": 4, \"manual\": 4, \"json\": 4, \"formatt\": 4, \"well\": 4, \"save\": [4, 19], \"highlight\": [4, 8], \"editor\": 4, \"window\": 4, \"checklist\": 5, \"choos\": [5, 12], \"pep440\": 5, \"compliant\": 5, \"pep\": 5, \"python\": [5, 6, 9, 12], \"org\": 5, \"0440\": 5, \"go\": [5, 19], \"draft\": 5, \"click\": [5, 12], \"tag\": 5, \"suppli\": 5, \"chose\": 5, \"gener\": [5, 6, 9], \"note\": [5, 6, 17], \"review\": 5, \"edit\": 5, \"titl\": [5, 11], \"publish\": 5, \"push\": [5, 6, 19], \"main\": [5, 6, 16], \"branch\": [5, 6], \"ha\": [5, 9, 20], \"effect\": 5, \"except\": 5, \"option\": 5, \"In\": 6, \"write\": [6, 15], \"other\": [6, 14, 19], \"dl\": [6, 14, 19, 20], \"mai\": 6, \"come\": 6, \"realis\": 6, \"more\": [6, 9, 15, 17, 19], \"sens\": 6, \"dodal\": [6, 12, 16, 20], \"It\": [6, 7, 8, 20], \"good\": [6, 15], \"keep\": [6, 9], \"histori\": 6, \"devic\": [6, 14], \"diamondlightsourc\": [6, 9, 12, 14, 16, 20], \"artemi\": 6, \"exampl\": [6, 11], \"clone\": 6, \"codebas\": 6, \"com\": [6, 9, 12, 20], \"clone_for_histori\": 6, \"cd\": [6, 12], \"remov\": 6, \"remot\": 6, \"avoid\": 6, \"mistaken\": 6, \"rm\": 6, \"origin\": 6, \"filter\": 6, \"out\": 6, \"onli\": [6, 19], \"pip\": [6, 9, 12, 14, 20], \"path\": [6, 20], \"f\": 6, \"clean\": 6, \"everyth\": 6, \"reset\": 6, \"hard\": 6, \"gc\": 6, \"aggress\": 6, \"prune\": 6, \"fd\": 6, \"add\": 6, \"everi\": 6, \"commit\": [6, 10, 11, 12], \"messag\": [6, 19], \"mention\": 6, \"been\": [6, 20], \"msg\": 6, \"sed\": 6, \"came\": 6, \"issu\": [6, 8], \"refer\": [6, 15, 18], \"old\": 6, \"modifi\": 6, \"point\": 6, \"explicit\": 6, \"assum\": 6, \"123\": 6, \"notat\": 6, \"ever\": 6, \"own\": 6, \"0\": 6, \"9\": 6, \"g\": 6, \"prepar\": 6, \"correct\": 6, \"structur\": [6, 9], \"mkdir\": 6, \"p\": [6, 12], \"mv\": 6, \"At\": 6, \"log\": 6, \"ensur\": 6, \"look\": [6, 7], \"mostli\": 6, \"m\": [6, 12, 20], \"import\": [6, 11, 19], \"differ\": [6, 15], \"folder\": 6, \"now\": [6, 12, 19, 20], \"safe\": 6, \"checkout\": 6, \"b\": 6, \"add_code_from_artemi\": 6, \"old_repo\": 6, \"rebas\": [6, 9], \"allow\": 6, \"unrel\": 6, \"where\": [6, 8, 9], \"re\": 6, \"tidi\": 6, \"so\": [6, 12, 19, 20], \"case\": 6, \"had\": 6, \"some\": [6, 19], \"depend\": [6, 16, 20], \"done\": [7, 8], \"find\": 7, \"function\": [7, 11, 15, 19], \"like\": [7, 19], \"them\": [7, 8, 19], \"error\": 7, \"coverag\": 7, \"commandlin\": [7, 20], \"cov\": 7, \"xml\": 7, \"type\": [8, 11, 12, 20], \"definit\": 8, \"without\": 8, \"potenti\": 8, \"match\": 8, \"modul\": 9, \"merg\": 9, \"python3\": [9, 12, 20], \"skeleton\": 9, \"provid\": [9, 19], \"mean\": 9, \"techniqu\": 9, \"sync\": 9, \"between\": 9, \"multipl\": 9, \"latest\": 9, \"version\": [9, 16, 18], \"fals\": 9, \"conflict\": 9, \"indic\": 9, \"area\": 9, \"setup\": [9, 12], \"detail\": 9, \"split\": [10, 14, 17], \"four\": [10, 15, 17], \"categori\": [10, 17], \"access\": [10, 17, 19], \"side\": [10, 17], \"bar\": [10, 17], \"contribut\": [10, 14], \"move\": 10, \"anoth\": 10, \"repo\": 10, \"build\": [10, 11], \"doc\": [10, 11, 12], \"sphinx\": [10, 11, 12], \"pytest\": [10, 12], \"analysi\": [10, 11, 12], \"mypi\": [10, 11, 12], \"lint\": [10, 11, 12], \"pre\": [10, 11, 12, 16], \"updat\": 10, \"tool\": [10, 11], \"releas\": [10, 14, 16, 17, 20], \"practic\": [10, 17], \"step\": [10, 12, 17], \"dai\": 10, \"dev\": [10, 12], \"task\": 10, \"architectur\": 10, \"decis\": 10, \"record\": 10, \"why\": [10, 17], \"technic\": [10, 15, 17], \"materi\": [10, 17], \"defin\": 11, \"conform\": 11, \"format\": 11, \"style\": 11, \"order\": [11, 15], \"how\": [11, 15], \"guid\": [11, 14, 15], \"napoleon\": 11, \"extens\": 11, \"As\": 11, \"googl\": 11, \"consid\": 11, \"hint\": 11, \"signatur\": 11, \"For\": 11, \"def\": 11, \"func\": 11, \"arg1\": 11, \"str\": [11, 18], \"arg2\": 11, \"int\": 11, \"bool\": 11, \"summari\": 11, \"line\": 11, \"extend\": 11, \"descript\": 11, \"arg\": 11, \"return\": 11, \"valu\": 11, \"true\": 11, \"extract\": 11, \"underlin\": 11, \"convent\": 11, \"headl\": 11, \"head\": 11, \"2\": [11, 14], \"3\": [11, 12, 20], \"These\": 12, \"instruct\": 12, \"take\": 12, \"minim\": 12, \"requir\": [12, 15, 20], \"first\": 12, \"either\": 12, \"host\": 12, \"machin\": 12, \"venv\": [12, 20], \"8\": [12, 20], \"later\": [12, 20], \"vscode\": 12, \"virtualenv\": 12, \"bin\": [12, 20], \"activ\": [12, 20], \"devcontain\": 12, \"reopen\": 12, \"prompt\": 12, \"termin\": [12, 20], \"graph\": 12, \"packag\": 12, \"tree\": 12, \"pipdeptre\": 12, \"parallel\": 12, \"ophyd\": [14, 19], \"util\": 14, \"could\": 14, \"across\": [14, 19], \"beamlin\": [14, 19], \"pypi\": 14, \"io\": [14, 16], \"section\": 14, \"user\": 14, \"develop\": 14, \"back\": 14, \"grand\": 15, \"unifi\": 15, \"theori\": 15, \"david\": 15, \"la\": 15, \"There\": 15, \"secret\": 15, \"understood\": 15, \"softwar\": [15, 20], \"isn\": 15, \"thing\": 15, \"call\": 15, \"thei\": 15, \"tutori\": 15, \"explan\": 15, \"repres\": 15, \"purpos\": 15, \"approach\": 15, \"creation\": 15, \"understand\": 15, \"implic\": 15, \"help\": [15, 19], \"often\": 15, \"immens\": 15, \"topic\": 15, \"its\": [16, 20], \"alreadi\": 16, \"avail\": 16, \"registri\": 16, \"docker\": 16, \"ghcr\": 16, \"start\": 17, \"typic\": 17, \"usag\": 17, \"here\": 17, \"experienc\": 17, \"about\": 17, \"work\": [17, 19], \"wai\": 17, \"intern\": 18, \"__version__\": 18, \"calcul\": 18, \"pypa\": 18, \"setuptools_scm\": 18, \"blueski\": 19, \"plan\": 19, \"commonli\": 19, \"mani\": 19, \"think\": 19, \"would\": 19, \"cover\": 19, \"anyth\": 19, \"hardwar\": 19, \"i03\": 19, \"dcm\": 19, \"workstat\": 19, \"give\": 19, \"immedi\": 19, \"real\": 19, \"default\": 19, \"connect\": 19, \"simul\": 19, \"instrument\": 19, \"helper\": 19, \"set_up_logging_handl\": 19, \"logger\": 19, \"occur\": 19, \"increas\": 19, \"amount\": 19, \"debug\": 19, \"explicitli\": 19, \"info\": 19, \"am\": 19, \"dls_sw\": 19, \"graylog\": 19, \"next\": 19, \"instanc\": 19, \"exlus\": 19, \"recommend\": 20, \"interfer\": 20, \"featur\": 20, \"interfac\": 20\x7d, \"objects\": \x7b\"\": [[18, 0, 0, \"-\", \"dodal\"]], \"dodal.dodal\": [[18, 1, 1, \"\", \"__version__\"]]\x7d, \"objtypes\": \x7b\"0\": \"py:module\", \"1\": \"py:data\"\x7d, \"objnames\": \x7b\"0\": [\"py\", \"module\", \"Python module\"], \"1\": [\"py\", \"data\", \"Python data\"]\x7d, \"titleterms\": \x7b\"architectur\": [0, 1], \"decis\": [0, 1], \"record\": [0, 1], \"1\": 1, \"statu\": 1, \"context\": 1, \"consequ\": 1, \"build\": [2, 12], \"doc\": 2, \"us\": [2, 4, 7, 8, 19], \"sphinx\": 2, \"autobuild\": 2, \"contribut\": 3, \"project\": 3, \"issu\": [3, 4], \"discuss\": 3, \"code\": [3, 6, 11], \"coverag\": 3, \"develop\": [3, 10, 12], \"guid\": [3, 10, 17], \"run\": [4, 7, 8, 16], \"lint\": 4, \"pre\": 4, \"commit\": 4, \"fix\": 4, \"vscode\": 4, \"support\": 4, \"make\": 5, \"releas\": 5, \"move\": 6, \"from\": 6, \"anoth\": 6, \"repo\": 6, \"test\": [7, 12], \"pytest\": 7, \"static\": 8, \"analysi\": 8, \"mypi\": 8, \"updat\": 9, \"tool\": 9, \"tutori\": [10, 17], \"how\": [10, 14, 17], \"explan\": [10, 17], \"refer\": [10, 17], \"standard\": 11, \"document\": [11, 14, 15], \"instal\": [12, 20], \"clone\": 12, \"repositori\": 12, \"depend\": 12, \"see\": 12, \"what\": 12, \"wa\": 12, \"api\": [13, 18], \"index\": 13, \"dodal\": [14, 18, 19], \"i\": 14, \"structur\": 14, \"about\": 15, \"contain\": 16, \"start\": [16, 19], \"user\": 17, \"get\": 19, \"The\": 19, \"purpos\": 19, \"devic\": 19, \"ad\": 19, \"log\": 19, \"check\": 20, \"your\": 20, \"version\": 20, \"python\": 20, \"creat\": 20, \"virtual\": 20, \"environ\": 20, \"librari\": 20\x7d, \"envversion\": \x7b\"sphinx.domains.c\": 3, \"sphinx.domains.changeset\": 1, \"sphinx.domains.citation\": 1, \"sphinx.domains.cpp\": 9, \"sphinx.domains.index\": 1, \"sphinx.domains.javascript\": 3, \"sphinx.domains.math\": 2, \"sphinx.domains.python\": 4, \"sphinx.domains.rst\": 2, \"sphinx.domains.std\": 2, \"sphinx.ext.intersphinx\": 1, \"sphinx.ext.viewcode\": 1, \"sphinx\": 58\x7d, \"alltitles\": \x7b\"Architectural Decision Records\": [[0, \"architectural-decision-records\"]], \"1. Record architecture decisions\": [[1, \"record-architecture-decisions\"]], \"Status\": [[1, \"status\"]], \"Context\": [[1, \"context\"]], \"Decision\": [[1, \"decision\"]], \"Consequences\": [[1, \"consequences\"]], \"Build the docs using sphinx\": [[2, \"build-the-docs-using-sphinx\"]], \"Autobuild\": [[2, \"autobuild\"]], \"Contributing to the project\": [[3, \"contributing-to-the-project\"]], \"Issue or Discussion?\": [[3, \"issue-or-discussion\"]], \"Code coverage\": [[3, \"code-coverage\"]], \"Developer guide\": [[3, \"developer-guide\"]], \"Run linting using pre-commit\": [[4, \"run-linting-using-pre-commit\"]], \"Running pre-commit\": [[4, \"running-pre-commit\"]], \"Fixing issues\": [[4, \"fixing-issues\"]], \"VSCode support\": [[4, \"vscode-support\"]], \"Make a release\": [[5, \"make-a-release\"]], \"Moving code from another repo\": [[6, \"moving-code-from-another-repo\"]], \"Run the tests using pytest\": [[7, \"run-the-tests-using-pytest\"]], \"Run static analysis using mypy\": [[8, \"run-static-analysis-using-mypy\"]], \"Update the tools\": [[9, \"update-the-tools\"]], \"Developer Guide\": [[10, \"developer-guide\"]], \"Tutorials\": [[10, null], [17, null]], \"How-to Guides\": [[10, null], [17, null]], \"Explanations\": [[10, null], [17, null]], \"Reference\": [[10, null], [17, null]], \"Standards\": [[11, \"standards\"]], \"Code Standards\": [[11, \"code-standards\"]], \"Documentation Standards\": [[11, \"documentation-standards\"]], \"Developer install\": [[12, \"developer-install\"]], \"Clone the repository\": [[12, \"clone-the-repository\"]], \"Install dependencies\": [[12, \"install-dependencies\"]], \"See what was installed\": [[12, \"see-what-was-installed\"]], \"Build and test\": [[12, \"build-and-test\"]], \"API Index\": [[13, \"api-index\"]], \"dodal\": [[14, \"dodal\"], [18, \"dodal\"]], \"How the documentation is structured\": [[14, \"how-the-documentation-is-structured\"]], \"About the documentation\": [[15, \"about-the-documentation\"]], \"Run in a container\": [[16, \"run-in-a-container\"]], \"Starting the container\": [[16, \"starting-the-container\"]], \"User Guide\": [[17, \"user-guide\"]], \"API\": [[18, \"module-dodal\"]], \"Getting Started\": [[19, \"getting-started\"]], \"The Purpose of Dodal\": [[19, \"the-purpose-of-dodal\"]], \"Using Devices\": [[19, \"using-devices\"]], \"Adding Logging\": [[19, \"adding-logging\"]], \"Installation\": [[20, \"installation\"]], \"Check your version of python\": [[20, \"check-your-version-of-python\"]], \"Create a virtual environment\": [[20, \"create-a-virtual-environment\"]], \"Installing the library\": [[20, \"installing-the-library\"]]\x7d, \"indexentries\": \x7b\"dodal\": [[18, \"module-dodal\"]], \"dodal.__version__ (in module dodal)\": [[18, \"dodal.dodal.__version__\"]], \"module\": [[18, \"module-dodal\"]]\x7d\x7d)"


/-- The four files of the repository, in the order of their directory names. -/
def sources : List String :=
  [src_1_29_4, src_341_new_j20_setup, src_483_make_device_factory, src_fix_wrong_return_type]

/-! ## The payloads

The object literal of each file, written as a `Json` value in the order of the file.  The
lemmas `parse_*` below show that reading the file gives exactly this value. -/

/-- The object passed to `Search.setIndex` in `1.29.4/searchindex.js`. -/
def idx_1_29_4 : Json :=
  obj [("alltitles", obj [("1. Record architecture decisions", arr [arr [num 1, null]]),
  ("2. Adopt python3-pip-skeleton for project structure", arr [arr [num 2, null]]),
  ("API", arr [arr [num 22, null]]), ("API Index", arr [arr [num 18, null]]),
  ("About the documentation", arr [arr [num 20, null]]), ("Adding Logging", arr [arr [num 33,
  str "adding-logging"]]), ("Additional Notes", arr [arr [num 7, str "additional-notes"]]),
  ("Architectural Decision Records", arr [arr [num 0, null]]), ("Autobuild", arr [arr [num 3,
  str "autobuild"]]), ("Beamline Modules", arr [arr [num 5, str "beamline-modules"]]),
  ("Beamline Prefix", arr [arr [num 15, str "beamline-prefix"]]),
  ("Build and test", arr [arr [num 17, str "build-and-test"]]),
  ("Build the docs using sphinx", arr [arr [num 3, null]]),
  ("Check your version of python", arr [arr [num 34, str "check-your-version-of-python"]]),
  ("Clone the repository", arr [arr [num 17, str "clone-the-repository"]]),
  ("Code Standards", arr [arr [num 16, str "code-standards"]]), ("Code coverage", arr [arr [num 4,
  str "code-coverage"]]), ("Consequences", arr [arr [num 1, str "consequences"], arr [num 2,
  str "consequences"]]), ("Context", arr [arr [num 1, str "context"], arr [num 2, str "context"]]),
  ("Contributing to the project", arr [arr [num 4, null]]),
  ("Create a virtual environment", arr [arr [num 34, str "create-a-virtual-environment"]]),
  ("Creating a new beamline", arr [arr [num 5, null]]),
  ("Deciding release numbers", arr [arr [num 8, str "deciding-release-numbers"]]),
  ("Decision", arr [arr [num 1, str "decision"], arr [num 2, str "decision"]]),
  ("Decision Flowchart for Creating a New ophyd_async Device", arr [arr [num 7, null]]),
  ("Developer Guide", arr [arr [num 14, null]]), ("Developer guide", arr [arr [num 4,
  str "developer-guide"]]), ("Developer install", arr [arr [num 17, null]]),
  ("Device Standards", arr [arr [num 15, null]]), ("Documentation Standards", arr [arr [num 16,
  str "id1"]]), ("Explanations", arr [arr [num 14, null], arr [num 21, null]]),
  ("Fixing issues", arr [arr [num 6, str "fixing-issues"]]),
  ("General Coding Standards", arr [arr [num 16, null]]), ("Getting Started", arr [arr [num 33,
  null]]), ("High-Level Development Flowchart", arr [arr [num 7,
  str "high-level-development-flowchart"]]),
  ("How the documentation is structured", arr [arr [num 19,
  str "how-the-documentation-is-structured"]]), ("How-to Guides", arr [arr [num 14, null]]),
  ("Install dependencies", arr [arr [num 17, str "install-dependencies"]]),
  ("Installation", arr [arr [num 34, null]]), ("Installing the library", arr [arr [num 34,
  str "installing-the-library"]]), ("Interface Selection Flowchart", arr [arr [num 7,
  str "interface-selection-flowchart"]]), ("Issue or Discussion?", arr [arr [num 4,
  str "issue-or-discussion"]]), ("Make a release", arr [arr [num 8, null]]),
  ("Moving code from another repo", arr [arr [num 9, null]]),
  ("Ophyd Devices best practices", arr [arr [num 15, str "ophyd-devices-best-practices"]]),
  ("Ophyd vs Ophyd-async", arr [arr [num 15, str "ophyd-vs-ophyd-async"]]),
  ("PV Suffixes", arr [arr [num 15, str "pv-suffixes"]]), ("Reference", arr [arr [num 14, null],
  arr [num 21, null]]), ("Run linting using pre-commit", arr [arr [num 6, null]]),
  ("Run static analysis using mypy", arr [arr [num 11, null]]),
  ("Run the tests using pytest", arr [arr [num 10, null]]), ("Running pre-commit", arr [arr [num 6,
  str "running-pre-commit"]]), ("See what was installed", arr [arr [num 17,
  str "see-what-was-installed"]]), ("Status", arr [arr [num 1, str "status"], arr [num 2,
  str "status"]]), ("Supported Python Versions", arr [arr [num 16,
  str "supported-python-versions"]]), ("Testing Connectivity", arr [arr [num 19,
  str "testing-connectivity"]]), ("Testing Flowchart", arr [arr [num 7, str "testing-flowchart"]]),
  ("The Purpose of Dodal", arr [arr [num 33, str "the-purpose-of-dodal"]]),
  ("Tutorials", arr [arr [num 14, null], arr [num 21, null]]),
  ("Update the tools", arr [arr [num 12, null]]), ("Use of signals", arr [arr [num 15,
  str "use-of-signals"]]), ("User Guide", arr [arr [num 21, null]]),
  ("Using Devices", arr [arr [num 33, str "using-devices"]]), ("VSCode support", arr [arr [num 6,
  str "vscode-support"]]), ("Where to put devices", arr [arr [num 15, str "where-to-put-devices"]]),
  ("Zocalo Interaction", arr [arr [num 13, null]]), ("dodal", arr [arr [num 19, null], arr [num 22,
  str "dodal"]]), ("dodal.beamlines", arr [arr [num 23, null]]), ("dodal.common", arr [arr [num 24,
  null]]), ("dodal.devices", arr [arr [num 25, null]]), ("dodal.plans", arr [arr [num 26, null]]),
  ("types", arr [arr [num 27, null]]), ("types.DynamicClassAttribute", arr [arr [num 28, null]]),
  ("types.GenericAlias", arr [arr [num 29, null]]), ("types.SimpleNamespace", arr [arr [num 30,
  null]]), ("types.UnionType", arr [arr [num 31, null]]), ("zocalo", arr [arr [num 32, null]])]),
  ("docnames", arr [str "developer/explanations/decisions",
  str "developer/explanations/decisions/0001-record-architecture-decisions",
  str "developer/explanations/decisions/0002-switched-to-pip-skeleton",
  str "developer/how-to/build-docs", str "developer/how-to/contribute",
  str "developer/how-to/create-beamline", str "developer/how-to/lint",
  str "developer/how-to/make-new-ophyd-async-device", str "developer/how-to/make-release",
  str "developer/how-to/move-code", str "developer/how-to/run-tests",
  str "developer/how-to/static-analysis", str "developer/how-to/update-tools",
  str "developer/how-to/zocalo", str "developer/index", str "developer/reference/device-standards",
  str "developer/reference/standards", str "developer/tutorials/dev-install", str "genindex",
  str "index", str "user/explanations/docs-structure", str "user/index", str "user/reference/api",
  str "user/reference/generated/dodal.beamlines", str "user/reference/generated/dodal.common",
  str "user/reference/generated/dodal.devices", str "user/reference/generated/dodal.plans",
  str "user/reference/generated/types", str "user/reference/generated/types.DynamicClassAttribute",
  str "user/reference/generated/types.GenericAlias",
  str "user/reference/generated/types.SimpleNamespace",
  str "user/reference/generated/types.UnionType", str "user/reference/generated/zocalo",
  str "user/tutorials/get_started", str "user/tutorials/installation"]),
  ("envversion", obj [("sphinx", num 62), ("sphinx.domains.c", num 3),
  ("sphinx.domains.changeset", num 1), ("sphinx.domains.citation", num 1),
  ("sphinx.domains.cpp", num 9), ("sphinx.domains.index", num 1),
  ("sphinx.domains.javascript", num 3), ("sphinx.domains.math", num 2),
  ("sphinx.domains.python", num 4), ("sphinx.domains.rst", num 2), ("sphinx.domains.std", num 2),
  ("sphinx.ext.intersphinx", num 1), ("sphinx.ext.viewcode", num 1)]),
  ("filenames", arr [str "developer/explanations/decisions.rst",
  str "developer/explanations/decisions/0001-record-architecture-decisions.rst",
  str "developer/explanations/decisions/0002-switched-to-pip-skeleton.rst",
  str "developer/how-to/build-docs.rst", str "developer/how-to/contribute.rst",
  str "developer/how-to/create-beamline.rst", str "developer/how-to/lint.rst",
  str "developer/how-to/make-new-ophyd-async-device.rst", str "developer/how-to/make-release.rst",
  str "developer/how-to/move-code.rst", str "developer/how-to/run-tests.rst",
  str "developer/how-to/static-analysis.rst", str "developer/how-to/update-tools.rst",
  str "developer/how-to/zocalo.rst", str "developer/index.rst",
  str "developer/reference/device-standards.rst", str "developer/reference/standards.rst",
  str "developer/tutorials/dev-install.rst", str "genindex.rst", str "index.rst",
  str "user/explanations/docs-structure.rst", str "user/index.rst", str "user/reference/api.rst",
  str "user/reference/generated/dodal.beamlines.rst",
  str "user/reference/generated/dodal.common.rst", str "user/reference/generated/dodal.devices.rst",
  str "user/reference/generated/dodal.plans.rst", str "user/reference/generated/types.rst",
  str "user/reference/generated/types.DynamicClassAttribute.rst",
  str "user/reference/generated/types.GenericAlias.rst",
  str "user/reference/generated/types.SimpleNamespace.rst",
  str "user/reference/generated/types.UnionType.rst", str "user/reference/generated/zocalo.rst",
  str "user/tutorials/get_started.rst", str "user/tutorials/installation.rst"]),
  ("indexentries", obj [("all_beamline_modules() (in module dodal.beamlines)", arr [arr [num 23,
  str "dodal.beamlines.all_beamline_modules", bool false]]),
  ("all_beamline_names() (in module dodal.beamlines)", arr [arr [num 23,
  str "dodal.beamlines.all_beamline_names", bool false]]),
  ("coroutine() (in module types)", arr [arr [num 27, str "types.coroutine", bool false]]),
  ("dodal", arr [arr [num 22, str "module-dodal", bool false]]),
  ("dodal.__version__ (in module dodal)", arr [arr [num 22, str "dodal.dodal.__version__",
  bool false]]), ("dodal.beamlines", arr [arr [num 23, str "module-dodal.beamlines", bool false]]),
  ("dodal.common", arr [arr [num 24, str "module-dodal.common", bool false]]),
  ("dodal.devices", arr [arr [num 25, str "module-dodal.devices", bool false]]),
  ("dodal.plans", arr [arr [num 26, str "module-dodal.plans", bool false]]),
  ("dynamicclassattribute (class in types)", arr [arr [num 28, str "types.DynamicClassAttribute",
  bool false]]), ("genericalias (class in types)", arr [arr [num 29, str "types.GenericAlias",
  bool false]]), ("group_uuid() (in module dodal.common)", arr [arr [num 24,
  str "dodal.common.group_uuid", bool false]]),
  ("in_micros() (in module dodal.common)", arr [arr [num 24, str "dodal.common.in_micros",
  bool false]]), ("inject() (in module dodal.common)", arr [arr [num 24, str "dodal.common.inject",
  bool false]]), ("module", arr [arr [num 22, str "module-dodal", bool false], arr [num 23,
  str "module-dodal.beamlines", bool false], arr [num 24, str "module-dodal.common", bool false],
  arr [num 25, str "module-dodal.devices", bool false], arr [num 26, str "module-dodal.plans",
  bool false], arr [num 27, str "module-types", bool false], arr [num 32, str "module-zocalo",
  bool false]]), ("module_name_for_beamline() (in module dodal.beamlines)", arr [arr [num 23,
  str "dodal.beamlines.module_name_for_beamline", bool false]]),
  ("new_class() (in module types)", arr [arr [num 27, str "types.new_class", bool false]]),
  ("prepare_class() (in module types)", arr [arr [num 27, str "types.prepare_class", bool false]]),
  ("resolve_bases() (in module types)", arr [arr [num 27, str "types.resolve_bases", bool false]]),
  ("simplenamespace (class in types)", arr [arr [num 30, str "types.SimpleNamespace", bool false]]),
  ("step_to_num() (in module dodal.common)", arr [arr [num 24, str "dodal.common.step_to_num",
  bool false]]), ("types", arr [arr [num 27, str "module-types", bool false]]),
  ("uniontype (class in types)", arr [arr [num 31, str "types.UnionType", bool false]]),
  ("zocalo", arr [arr [num 32, str "module-zocalo", bool false]])]),
  ("objects", obj [("", arr [arr [num 22, num 0, num 0, str "-", str "dodal"], arr [num 27, num 0,
  num 0, str "-", str "types"], arr [num 32, num 0, num 0, str "-", str "zocalo"]]),
  ("dodal", arr [arr [num 23, num 0, num 0, str "-", str "beamlines"], arr [num 24, num 0, num 0,
  str "-", str "common"], arr [num 25, num 0, num 0, str "-", str "devices"], arr [num 26, num 0,
  num 0, str "-", str "plans"]]), ("dodal.beamlines", arr [arr [num 23, num 1, num 1, str "",
  str "all_beamline_modules"], arr [num 23, num 1, num 1, str "", str "all_beamline_names"],
  arr [num 23, num 1, num 1, str "", str "module_name_for_beamline"]]),
  ("dodal.common", arr [arr [num 24, num 1, num 1, str "", str "group_uuid"], arr [num 24, num 1,
  num 1, str "", str "in_micros"], arr [num 24, num 1, num 1, str "", str "inject"], arr [num 24,
  num 1, num 1, str "", str "step_to_num"]]), ("dodal.dodal", arr [arr [num 22, num 2, num 1,
  str "", str "__version__"]]), ("types", arr [arr [num 28, num 3, num 1, str "",
  str "DynamicClassAttribute"], arr [num 29, num 3, num 1, str "", str "GenericAlias"], arr [num 30,
  num 3, num 1, str "", str "SimpleNamespace"], arr [num 31, num 3, num 1, str "", str "UnionType"],
  arr [num 27, num 1, num 1, str "", str "coroutine"], arr [num 27, num 1, num 1, str "",
  str "new_class"], arr [num 27, num 1, num 1, str "", str "prepare_class"], arr [num 27, num 1,
  num 1, str "", str "resolve_bases"]])]), ("objnames", obj [("0", arr [str "py", str "module",
  str "Python module"]), ("1", arr [str "py", str "function", str "Python function"]),
  ("2", arr [str "py", str "data", str "Python data"]), ("3", arr [str "py", str "class",
  str "Python class"])]), ("objtypes", obj [("0", str "py:module"), ("1", str "py:function"),
  ("2", str "py:data"), ("3", str "py:class")]), ("terms", obj [("", arr [num 1, num 5, num 7,
  num 9, num 19, num 28, num 33]), ("0", arr [num 9, num 24]), ("0029", num 16), ("01", arr [num 5,
  num 15]), ("02", arr [num 1, num 2, num 15]), ("0440", num 8), ("1", arr [num 0, num 16, num 23,
  num 24]), ("10", arr [num 16, num 28]), ("100", num 4), ("11", num 16), ("123", num 9),
  ("18", arr [num 1, num 2]), ("2", arr [num 0, num 16, num 19]), ("2022", arr [num 1, num 2]),
  ("3", arr [num 16, num 17, num 27, num 28, num 34]), ("4", num 28), ("560", num 27),
  ("585", num 29), ("604", num 31), ("8", arr [num 17, num 34]), ("8000", num 3), ("9", arr [num 9,
  num 28]), ("A", arr [num 5, num 15, num 24, num 30]), ("As", arr [num 2, num 16]), ("At", num 9),
  ("For", arr [num 5, num 16, num 19, num 24]), ("If", arr [num 3, num 4, num 5, num 6, num 7,
  num 9, num 15, num 24, num 27, num 33, num 34]), ("In", arr [num 9, num 15]), ("It", arr [num 6,
  num 9, num 10, num 11, num 13, num 34]), ("On", num 19), ("Or", num 6), ("That", num 7),
  ("The", arr [num 2, num 3, num 4, num 5, num 6, num 7, num 8, num 16, num 19, num 20, num 23,
  num 34]), ("Then", num 7), ("There", arr [num 7, num 15, num 20]), ("These", arr [num 7, num 13,
  num 17]), ("To", arr [num 1, num 8, num 12, num 17, num 33]), ("__args__", num 29),
  ("__getattr__", num 28), ("__init__", num 15), ("__origin__", num 29), ("__prepare__", num 27),
  ("__version__", num 22), ("abl", num 6), ("about", arr [num 15, num 21]), ("abov", arr [num 1,
  num 6]), ("abstract", num 7), ("accept", arr [num 1, num 2]), ("access", arr [num 14, num 21,
  num 27, num 28, num 33]), ("across", arr [num 15, num 19, num 33]), ("act", num 28),
  ("activ", arr [num 17, num 28, num 34]), ("ad", num 5), ("adaravi", num 5),
  ("adaravisdetector", num 5), ("add", arr [num 7, num 9]), ("add_children_as_read", num 7),
  ("add_code_from_hyperion", num 9), ("adjusted_stop", num 24), ("adopt", num 0),
  ("adr", arr [num 0, num 1]), ("advic", num 7), ("advis", num 7), ("after", arr [num 5, num 8]),
  ("against", num 7), ("aggress", num 9), ("all", arr [num 4, num 6, num 8, num 9, num 15, num 23]),
  ("all_beamlin", num 5), ("all_beamline_modul", num 23), ("all_beamline_nam", num 23),
  ("allow", arr [num 9, num 28]), ("alon", num 7), ("along", num 24), ("alreadi", arr [num 5,
  num 7]), ("also", arr [num 3, num 4, num 5, num 6, num 10, num 14, num 21, num 33, num 34]),
  ("alwai", num 5), ("am", num 33), ("amount", num 33), ("an", arr [num 3, num 5, num 6, num 7,
  num 9, num 12, num 15, num 24, num 27, num 28]), ("analysi", arr [num 14, num 16, num 17]),
  ("ani", arr [num 3, num 4, num 5, num 9, num 12, num 13, num 15, num 19, num 24, num 27, num 33,
  num 34]), ("anoth", arr [num 14, num 24]), ("anyth", arr [num 7, num 8, num 15, num 33]),
  ("api", arr [num 3, num 16, num 21]), ("append", num 24), ("approach", num 20),
  ("appropri", arr [num 7, num 27]), ("ar", arr [num 3, num 4, num 5, num 8, num 9, num 13, num 15,
  num 16, num 19, num 20, num 33]), ("architectur", num 14), ("area", num 12),
  ("areadetector", num 5), ("aren", num 27), ("arg", num 16), ("arg1", num 16), ("arg2", num 16),
  ("argument", arr [num 5, num 24, num 27]), ("arithmat", num 24), ("articl", num 1),
  ("ask", num 4), ("assist", num 24), ("assum", arr [num 7, num 9, num 15, num 24]),
  ("assumpt", num 7), ("async", num 7), ("attach", num 15), ("attribut", arr [num 28, num 30]),
  ("attributeerror", num 28), ("automat", arr [num 6, num 8, num 15]), ("avail", num 24),
  ("avoid", arr [num 9, num 15]), ("ax", num 5), ("axi", num 24), ("b", num 9), ("back", num 19),
  ("backward", num 24), ("bar", arr [num 14, num 21]), ("base", arr [num 3, num 13, num 27,
  num 30]), ("beamlin", arr [num 7, num 14, num 19, num 33]), ("beamline_util", num 5),
  ("been", arr [num 8, num 9, num 15, num 34]), ("befor", arr [num 4, num 7]), ("being", arr [num 5,
  num 6]), ("below", arr [num 0, num 5]), ("between", arr [num 12, num 24, num 28]), ("big", num 4),
  ("bin", arr [num 17, num 34]), ("bl", num 5), ("bl03i", num 15), ("bl_prefix", arr [num 5,
  num 15]), ("blah", num 15), ("blixx", num 5), ("blueski", arr [num 5, num 8, num 13, num 15,
  num 33]), ("bool", arr [num 5, num 16]), ("bp", num 15), ("bragg", num 15), ("branch", arr [num 8,
  num 9]), ("break", arr [num 7, num 8]), ("browser", num 3), ("bug", arr [num 4, num 8]),
  ("build", arr [num 14, num 16]), ("built", arr [num 3, num 27]), ("builtin", num 27),
  ("bypass", num 24), ("calcul", num 22), ("call", arr [num 5, num 15, num 20, num 24, num 27]),
  ("callback", num 13), ("came", num 9), ("can", arr [num 2, num 3, num 4, num 5, num 6, num 7,
  num 9, num 10, num 11, num 13, num 15, num 17, num 19, num 33, num 34]), ("capabl", num 5),
  ("case", arr [num 6, num 9, num 15, num 17]), ("categori", arr [num 14, num 21]),
  ("caught", num 4), ("cd", arr [num 2, num 9, num 17]), ("centr", num 13), ("chang", arr [num 2,
  num 3, num 4, num 6, num 7, num 8, num 9, num 12, num 19]), ("channel", arr [num 8, num 13]),
  ("chart", num 7), ("check", arr [num 4, num 5, num 6, num 9, num 10, num 11, num 12, num 16,
  num 17, num 24]), ("checklist", num 8), ("checkout", num 9), ("child", num 7),
  ("choos", arr [num 8, num 17]), ("chose", num 8), ("ci", num 2), ("class", arr [num 5, num 7,
  num 13, num 15, num 27, num 28, num 29, num 30, num 31]), ("clean", num 9), ("cleanli", num 24),
  ("cli", num 7), ("click", arr [num 8, num 17]), ("clone", arr [num 5, num 6, num 9]),
  ("clone_for_histori", num 9), ("close", arr [num 4, num 12]), ("code", arr [num 3, num 5, num 6,
  num 14, num 17, num 19, num 33]), ("codebas", num 9), ("coerc", num 24), ("coexist", num 7),
  ("collect", num 5), ("colloqui", num 5), ("com", arr [num 9, num 12, num 17, num 34]),
  ("come", num 9), ("command", num 6), ("commandlin", arr [num 10, num 34]), ("commerci", num 15),
  ("commit", arr [num 9, num 14, num 16, num 17]), ("common", num 5), ("commonli", num 33),
  ("complet", num 5), ("complex", arr [num 15, num 17]), ("compliant", num 8),
  ("compon", arr [num 5, num 7]), ("concurr", num 5), ("condition", num 5), ("confid", num 7),
  ("configur", num 5), ("confirm", num 8), ("conflict", num 12), ("conform", arr [num 5, num 16]),
  ("connect", arr [num 5, num 15, num 33]), ("consid", arr [num 15, num 16]), ("consist", num 2),
  ("constructor", num 5), ("consult", num 7), ("contain", arr [num 4, num 7, num 15, num 16, num 17,
  num 19, num 33]), ("context", arr [num 7, num 24]), ("contribut", arr [num 14, num 19]),
  ("control", num 7), ("convent", arr [num 5, num 16]), ("convers", num 15),
  ("convert", arr [num 24, num 27]), ("copi", arr [num 1, num 5, num 7, num 9, num 27]),
  ("coroutin", num 27), ("correct", num 9), ("could", arr [num 2, num 5, num 15, num 19, num 24]),
  ("cov", num 10), ("cover", num 33), ("coverag", num 10), ("creat", arr [num 1, num 8, num 9,
  num 14, num 15, num 27]), ("create_soft_sign", num 15), ("creation", num 20),
  ("current", arr [num 0, num 12, num 13, num 16, num 34]), ("d11", num 5), ("dai", num 14),
  ("data", num 13), ("date", arr [num 1, num 2]), ("david", num 20), ("dcam", num 5),
  ("dcid", num 13), ("dcm", arr [num 15, num 33]), ("debug", arr [num 24, num 33]),
  ("decis", arr [num 13, num 14, num 15]), ("def", arr [num 5, num 15, num 16, num 24]),
  ("default", arr [num 5, num 24, num 33]), ("defin", arr [num 5, num 16, num 27, num 28]),
  ("definit", num 11), ("depend", arr [num 5, num 9, num 34]), ("deprec", num 16),
  ("deprecation_polici", num 16), ("describ", arr [num 0, num 1]), ("descript", num 16),
  ("descriptor", num 28), ("design", num 7), ("detail", num 12), ("determin", num 7),
  ("dev", arr [num 14, num 17]), ("devcontain", num 17), ("develop", arr [num 2, num 8, num 19]),
  ("devic", arr [num 5, num 9, num 13, num 14, num 19, num 24]), ("device_instanti", arr [num 5,
  num 15]), ("di", num 5), ("diamond", num 7), ("diamondlightsourc", arr [num 9, num 12, num 17,
  num 19, num 34]), ("dict", num 27), ("differ", arr [num 2, num 7, num 9, num 20, num 23, num 28]),
  ("digit", num 5), ("dimension", num 24), ("direct", num 24), ("directli", arr [num 24, num 27]),
  ("directori", arr [num 3, num 9, num 15, num 16, num 33]), ("discourag", num 5),
  ("divid", num 24), ("dl", arr [num 9, num 19, num 33, num 34]), ("dls_sw", num 33),
  ("do", arr [num 5, num 6, num 7, num 8, num 9, num 11, num 15, num 33]), ("doc", arr [num 14,
  num 16, num 17]), ("docstr", arr [num 3, num 16]), ("document", arr [num 4, num 7, num 14, num 17,
  num 21]), ("dodal", arr [num 5, num 7, num 9, num 15, num 17, num 34]), ("doe", arr [num 4,
  num 15, num 24]), ("don", num 4), ("done", arr [num 7, num 10, num 11, num 28]),
  ("doodal", num 5), ("draft", arr [num 7, num 8]), ("duplic", num 15), ("dynam", num 27),
  ("e", arr [num 3, num 5, num 6, num 7, num 9, num 10, num 11, num 15, num 17, num 23, num 24,
  num 29, num 31]), ("each", arr [num 5, num 6]), ("earli", num 7), ("easili", arr [num 4, num 15]),
  ("edit", num 8), ("editor", num 6), ("effect", arr [num 8, num 15]), ("effort", num 15),
  ("either", num 17), ("els", arr [num 5, num 24]), ("empti", num 27), ("enabl", num 6),
  ("end", arr [num 4, num 24]), ("ensur", arr [num 2, num 7, num 9, num 15]), ("entri", num 27),
  ("enum", num 28), ("environ", arr [num 2, num 4, num 17, num 23]), ("epic", arr [num 15, num 17]),
  ("epicsmotor", num 15), ("equival", num 24), ("error", arr [num 10, num 24]), ("even", num 15),
  ("ever", num 9), ("everi", arr [num 6, num 9]), ("everyth", num 9), ("exampl", arr [num 5, num 9,
  num 16]), ("except", arr [num 8, num 32]), ("exclud", num 5), ("exec_bodi", num 27),
  ("exist", arr [num 1, num 4, num 5, num 7, num 34]), ("exlus", num 33), ("expect", num 15),
  ("experi", num 5), ("experienc", num 21), ("explan", num 20), ("explicit", num 9),
  ("explicitli", num 33), ("extend", arr [num 16, num 24]), ("extens", num 16),
  ("extern", arr [num 15, num 24]), ("extract", num 16), ("f", arr [num 5, num 9]),
  ("facil", num 15), ("factori", num 5), ("fake", num 5), ("fake_with_ophyd_sim", num 5),
  ("fals", arr [num 5, num 12, num 15]), ("fast", num 7), ("fd", num 9), ("featur", arr [num 8,
  num 34]), ("feedback", num 7), ("fetch", num 24), ("fictiti", num 5), ("file", arr [num 4, num 5,
  num 6, num 9, num 11, num 15, num 33]), ("filter", num 9), ("final", num 24), ("find", arr [num 7,
  num 10]), ("firefox", num 3), ("first", arr [num 13, num 17]), ("fit", arr [num 4, num 9,
  num 24]), ("fix", arr [num 2, num 8]), ("fixtur", num 7), ("float", num 24),
  ("flowchart", arr [num 14, num 15]), ("folder", arr [num 5, num 9, num 15]),
  ("follow", arr [num 2, num 4, num 5, num 8, num 9, num 15, num 16, num 17, num 33]),
  ("forc", num 24), ("form", num 24), ("format", arr [num 2, num 6, num 16]), ("four", arr [num 14,
  num 20, num 21]), ("framework", num 7), ("free", num 4), ("from", arr [num 1, num 2, num 3, num 5,
  num 6, num 7, num 13, num 14, num 15, num 16, num 21, num 23, num 24, num 28, num 33, num 34]),
  ("func", arr [num 16, num 27]), ("function", arr [num 5, num 7, num 10, num 16, num 20, num 23,
  num 24, num 27, num 33]), ("g", arr [num 5, num 7, num 9, num 15, num 23, num 24, num 29,
  num 31]), ("gc", num 9), ("gener", arr [num 7, num 8, num 9, num 12, num 14, num 15, num 23,
  num 27, num 29]), ("get", arr [num 7, num 8, num 14, num 17, num 21, num 23]),
  ("get_beamline_nam", num 5), ("git", arr [num 6, num 9, num 12, num 17, num 34]),
  ("github", arr [num 4, num 8, num 9, num 12, num 17, num 19, num 34]), ("give", arr [num 24,
  num 33]), ("given", arr [num 13, num 15]), ("go", arr [num 5, num 8, num 15, num 33]),
  ("good", arr [num 9, num 20]), ("googl", num 16), ("grand", num 20), ("graph", num 17),
  ("graylog", num 33), ("great", num 4), ("group", arr [num 5, num 24]), ("group_uuid", num 24),
  ("guid", arr [num 7, num 8, num 16, num 19, num 20]), ("ha", arr [num 5, num 7, num 8, num 12,
  num 15, num 34]), ("had", num 9), ("handl", arr [num 4, num 6, num 13, num 24]), ("hard", num 9),
  ("hardwar", arr [num 7, num 33]), ("have", arr [num 2, num 4, num 5, num 6, num 8, num 9, num 15,
  num 17, num 28, num 33]), ("head", num 16), ("headl", num 16), ("help", arr [num 7, num 19,
  num 20, num 33]), ("helper", num 33), ("here", num 21), ("higher", num 8),
  ("highlight", arr [num 6, num 11]), ("hint", num 16), ("histor", num 15), ("histori", num 9),
  ("hook", num 6), ("host", num 17), ("how", arr [num 7, num 16, num 20, num 21]),
  ("howev", num 15), ("html", arr [num 3, num 16]), ("http", arr [num 3, num 8, num 9, num 12,
  num 16, num 19, num 34]), ("human", num 24), ("hutch", num 5), ("hyperion", num 9),
  ("i", arr [num 0, num 4, num 5, num 6, num 7, num 8, num 9, num 10, num 11, num 12, num 13,
  num 14, num 15, num 16, num 20, num 21, num 22, num 24, num 27, num 28, num 29, num 33, num 34]),
  ("i03", arr [num 5, num 33]), ("i04", num 23), ("i04_1", arr [num 5, num 23]),
  ("idea", arr [num 4, num 9]), ("immedi", num 33), ("immens", num 20), ("implement", arr [num 7,
  num 15]), ("implic", num 20), ("import", arr [num 5, num 8, num 9, num 23, num 33]),
  ("improv", arr [num 4, num 20]), ("in_micro", num 24), ("includ", arr [num 3, num 5, num 19,
  num 21, num 24]), ("inconsist", num 24), ("increas", num 33), ("index", arr [num 3, num 21,
  num 22]), ("indic", num 12), ("infer", num 13), ("info", num 33), ("inform", arr [num 4, num 20]),
  ("inherit", num 7), ("inject", num 24), ("inspect", num 28), ("instal", arr [num 6, num 9, num 14,
  num 19, num 21]), ("instanc", arr [num 5, num 15, num 28, num 33]), ("instanti", num 5),
  ("instead", arr [num 4, num 15, num 33]), ("instruct", num 17), ("instrument", num 33),
  ("int", arr [num 16, num 24, num 29, num 31]), ("integr", arr [num 7, num 17]),
  ("interact", num 14), ("interfac", arr [num 8, num 15, num 34]), ("interfer", num 34),
  ("intern", num 22), ("involv", num 4), ("io", num 19), ("ioc", num 15), ("isn", num 20),
  ("ispyb", num 13), ("issu", arr [num 7, num 9, num 11]), ("iter", arr [num 7, num 23]),
  ("its", arr [num 5, num 15, num 34]), ("ixx", num 15), ("job", num 13), ("json", num 6),
  ("just", arr [num 6, num 8]), ("keep", arr [num 9, num 12]), ("kind", num 13), ("know", num 7),
  ("kwarg", num 30), ("kwd", num 27), ("la", num 20), ("lambda", num 5), ("larg", num 15),
  ("later", arr [num 17, num 34]), ("latest", arr [num 2, num 8, num 12]), ("leav", num 24),
  ("length", num 24), ("level", arr [num 15, num 32]), ("librari", arr [num 4, num 7, num 21]),
  ("like", arr [num 8, num 10, num 15, num 33]), ("line", arr [num 16, num 24]),
  ("link", arr [num 1, num 14, num 21]), ("lint", arr [num 2, num 14, num 16, num 17]),
  ("list", arr [num 0, num 5, num 19, num 29]), ("live", num 5), ("local", arr [num 3, num 9,
  num 17, num 33]), ("localhost", num 3), ("log", arr [num 5, num 9]), ("logger", num 33),
  ("look", arr [num 8, num 9, num 10]), ("lost", num 15), ("m", arr [num 9, num 17, num 34]),
  ("machin", arr [num 5, num 17, num 19]), ("made", arr [num 1, num 7, num 13]), ("mai", arr [num 2,
  num 5, num 6, num 9, num 15, num 23]), ("main", arr [num 7, num 8, num 9]), ("major", arr [num 0,
  num 8]), ("make", arr [num 3, num 4, num 9, num 13, num 14, num 15]), ("manag", arr [num 2,
  num 7]), ("mani", num 33), ("manual", arr [num 6, num 8]), ("mark", num 24),
  ("match", arr [num 11, num 16]), ("materi", arr [num 14, num 21]), ("maxim", num 24),
  ("maximum", num 5), ("mean", num 12), ("mention", num 9), ("merg", arr [num 7, num 12]),
  ("messag", arr [num 9, num 15, num 33]), ("metaclass", num 27), ("method", arr [num 7, num 27,
  num 28]), ("metric", num 15), ("michael", arr [num 0, num 1]), ("microsecond", num 24),
  ("might", arr [num 4, num 7]), ("minim", num 17), ("minor", num 8), ("mistaken", num 9),
  ("mkdir", num 9), ("mo", num 15), ("modifi", num 9), ("modul", arr [num 2, num 12, num 22, num 23,
  num 24, num 25, num 26, num 28, num 32]), ("module_name_for_beamlin", num 23), ("monitor", num 5),
  ("more", arr [num 5, num 7, num 9, num 12, num 17, num 19, num 20, num 21, num 33]),
  ("most", arr [num 4, num 15, num 20]), ("mostli", num 9), ("motor", arr [num 5, num 15]),
  ("movabl", arr [num 7, num 24]), ("move", num 14), ("mro", num 27), ("msg", num 9),
  ("multipl", arr [num 5, num 12, num 15]), ("must", num 7), ("mv", arr [num 9, num 15]),
  ("my_devic", num 15), ("my_plan", num 15), ("mydevic", num 15), ("mypi", arr [num 14, num 16,
  num 17]), ("name", arr [num 5, num 7, num 15, num 23, num 24, num 27, num 28]),
  ("namespac", arr [num 27, num 30]), ("napoleon", num 16), ("nearest", num 24),
  ("necessari", num 13), ("need", arr [num 1, num 5, num 7, num 20, num 34]), ("neg", num 15),
  ("nep", num 16), ("new", arr [num 1, num 4, num 8, num 14, num 15, num 17, num 21]),
  ("new_class", num 27), ("new_valu", num 15), ("next", num 33), ("none", num 27),
  ("normal", num 28), ("notat", num 9), ("note", arr [num 8, num 9, num 21]), ("notifi", num 8),
  ("now", arr [num 6, num 9, num 17, num 33, num 34]), ("num", num 24), ("number", arr [num 4,
  num 22, num 24]), ("numpi", num 16), ("nygard", arr [num 0, num 1]), ("oav", num 15),
  ("object", arr [num 5, num 7, num 27]), ("obviou", num 4), ("obvious", num 8), ("occur", num 33),
  ("offer", num 4), ("often", num 20), ("old", arr [num 9, num 15]), ("old_repo", num 9),
  ("omit", num 8), ("onc", num 5), ("one", arr [num 4, num 5, num 7, num 20, num 28]),
  ("ones", num 1), ("onli", arr [num 5, num 7, num 9, num 13, num 15, num 33]), ("open", arr [num 3,
  num 4, num 17]), ("ophyd", arr [num 5, num 7, num 19, num 33]), ("ophyd_async", num 14),
  ("optic", num 5), ("optim", num 7), ("option", arr [num 5, num 8, num 19]), ("orchestr", num 24),
  ("order", arr [num 15, num 20]), ("org", arr [num 8, num 16]), ("origin", num 9),
  ("other", arr [num 7, num 9, num 19, num 33]), ("otherwis", num 8), ("our", arr [num 0, num 5]),
  ("out", num 9), ("outer", num 24), ("outlin", num 7), ("over", num 15), ("overrid", num 7),
  ("own", arr [num 5, num 9, num 15]), ("p", arr [num 9, num 17]), ("packag", arr [num 2, num 5,
  num 17, num 32]), ("page", arr [num 3, num 8, num 16]), ("parallel", num 17), ("param", num 15),
  ("paramet", arr [num 15, num 23, num 24]), ("particular", arr [num 5, num 15, num 23]),
  ("pass", arr [num 5, num 27]), ("past", num 1), ("patch", num 8), ("path", arr [num 9, num 34]),
  ("peopl", num 7), ("pep", arr [num 8, num 27, num 29, num 31]), ("pep440", num 8),
  ("per", num 23), ("perform", num 24), ("philosophi", num 15), ("pip", arr [num 0, num 9, num 12,
  num 17, num 19, num 34]), ("pipdeptre", num 17), ("place", arr [num 4, num 15]),
  ("plan", arr [num 8, num 13, num 15, num 24, num 33]), ("pleas", arr [num 4, num 8, num 16,
  num 33]), ("podman", num 17), ("point", arr [num 5, num 9, num 24]), ("polici", num 16),
  ("posit", num 24), ("possibl", arr [num 6, num 7, num 15]), ("post", num 8),
  ("potenti", arr [num 8, num 11, num 15]), ("pr", num 7), ("practic", arr [num 14, num 21]),
  ("pre", arr [num 14, num 16, num 17]), ("prefer", num 15), ("prefix", num 5),
  ("prepar", arr [num 9, num 27]), ("prepare_class", num 27), ("prepend", num 15),
  ("prevent", num 24), ("previou", num 8), ("procedur", num 7), ("process", arr [num 3, num 7,
  num 9, num 13, num 16]), ("product", num 15), ("project", arr [num 0, num 1, num 3, num 10,
  num 12, num 14]), ("prompt", num 17), ("properli", num 28), ("properti", arr [num 7, num 28]),
  ("protocol", num 5), ("provid", arr [num 7, num 12, num 33]), ("prune", num 9),
  ("publish", num 8), ("pull", arr [num 2, num 3, num 4, num 9, num 12]), ("purpos", num 20),
  ("push", arr [num 8, num 9, num 33]), ("pv", arr [num 7, num 19]), ("py", num 5),
  ("pypa", num 22), ("pypi", arr [num 8, num 19]), ("pytest", arr [num 14, num 17]),
  ("python", arr [num 3, num 8, num 12, num 17, num 28]), ("python3", arr [num 0, num 12, num 17,
  num 34]), ("question", num 4), ("quit", num 15), ("rabbitmq", num 13), ("rai", num 13),
  ("rais", arr [num 4, num 24, num 28]), ("re", arr [num 8, num 9, num 15]), ("read", arr [num 5,
  num 13]), ("readabl", arr [num 7, num 24]), ("readable_uid", num 24), ("real", num 33),
  ("realis", num 9), ("reason", num 15), ("rebas", arr [num 9, num 12]), ("rebuild", num 3),
  ("receiv", num 13), ("recommend", num 34), ("reconcil", num 7), ("record", num 14),
  ("reduc", num 4), ("ref", num 22), ("refer", arr [num 9, num 20, num 22, num 24]),
  ("referenc", num 24), ("reformat", num 6), ("regular", num 27), ("releas", arr [num 14, num 19,
  num 21, num 34]), ("reload", num 3), ("remain", arr [num 4, num 28]), ("remot", num 9),
  ("remov", arr [num 9, num 27]), ("reopen", num 17), ("repo", arr [num 6, num 14]),
  ("report", arr [num 6, num 10]), ("repositori", arr [num 6, num 9, num 16]),
  ("repres", arr [num 20, num 29, num 31]), ("request", arr [num 4, num 12]),
  ("requir", arr [num 17, num 20, num 34]), ("reset", num 9), ("resolv", num 27),
  ("resolve_bas", num 27), ("result", arr [num 6, num 13]), ("return", arr [num 5, num 16, num 23,
  num 24, num 27]), ("review", num 8), ("rm", num 9), ("round", num 24), ("rout", num 28),
  ("ruff", arr [num 6, num 16]), ("run", arr [num 3, num 4, num 5, num 8, num 12, num 14, num 16,
  num 17]), ("runengin", num 13), ("s41", num 5), ("safe", num 9), ("sai", num 15),
  ("same", arr [num 4, num 5, num 8, num 24, num 28]), ("save", arr [num 6, num 33]),
  ("scan", num 24), ("scope", num 4), ("second", num 24), ("secret", num 20), ("section", num 19),
  ("sed", num 9), ("see", arr [num 1, num 3, num 7, num 8]), ("seek", num 7), ("seem", num 7),
  ("self", arr [num 7, num 15]), ("sens", arr [num 8, num 9]), ("set", arr [num 2, num 4, num 5,
  num 6, num 15, num 16, num 33]), ("set_beamlin", num 5), ("set_log_beamlin", num 5),
  ("set_up_logging_handl", num 33), ("set_utils_beamlin", num 5), ("setup", arr [num 2, num 12,
  num 17]), ("setuptools_scm", num 22), ("shape", num 24), ("share", num 4), ("should", arr [num 2,
  num 4, num 5, num 7, num 8, num 15, num 16, num 19, num 34]), ("side", arr [num 14, num 15,
  num 21]), ("signatur", num 16), ("significantli", num 4), ("similar", arr [num 5, num 7]),
  ("simpl", num 30), ("simplifi", num 15), ("simul", arr [num 5, num 15, num 33]), ("sinc", num 28),
  ("skeleton", arr [num 0, num 12]), ("skip_devic", num 5), ("slack", num 8), ("so", arr [num 7,
  num 9, num 13, num 15, num 17, num 33, num 34]), ("soft", num 15), ("softwar", arr [num 20,
  num 34]), ("some", arr [num 5, num 7, num 9, num 15, num 33]), ("someon", num 7),
  ("someth", arr [num 4, num 12]), ("somewher", num 5), ("sourc", arr [num 3, num 9, num 11, num 17,
  num 19, num 23, num 24, num 27, num 28, num 34]), ("specif", num 15), ("specifi", arr [num 15,
  num 27]), ("spend", num 4), ("sphinx", arr [num 14, num 16, num 17]), ("split", arr [num 14,
  num 19, num 21]), ("src", arr [num 3, num 9]), ("stage_x", num 24), ("standard", arr [num 4,
  num 7, num 14, num 24]), ("start", arr [num 7, num 21, num 24]), ("state", num 7),
  ("static", arr [num 3, num 14, num 16, num 17]), ("statu", num 5), ("step", arr [num 14, num 17,
  num 21, num 24]), ("step_to_num", num 24), ("still", arr [num 15, num 28]), ("stop", num 24),
  ("store", num 24), ("str", arr [num 5, num 15, num 16, num 22, num 23, num 24, num 31]),
  ("string", num 24), ("structur", arr [num 0, num 9, num 12]), ("style", num 16),
  ("subclass", num 28), ("subscrib", num 13), ("suffic", num 19), ("suit", num 7),
  ("summari", num 16), ("super", num 15), ("suppli", num 8), ("support", arr [num 3, num 23]),
  ("sure", num 4), ("switch", num 2), ("sync", num 12), ("synchrotron", num 5), ("system", num 7),
  ("t", arr [num 4, num 20, num 24, num 27, num 29]), ("tag", num 8), ("take", num 17),
  ("task", arr [num 7, num 14]), ("technic", arr [num 14, num 20, num 21]), ("techniqu", arr [num 2,
  num 12]), ("tell", arr [num 3, num 6]), ("termin", arr [num 17, num 34]), ("test", arr [num 4,
  num 5, num 8, num 9, num 14]), ("test_device_instanti", num 5), ("than", num 8),
  ("thei", arr [num 5, num 7, num 8, num 13, num 20]), ("them", arr [num 10, num 11, num 15,
  num 33]), ("theori", num 20), ("therefor", num 24), ("thi", arr [num 1, num 2, num 3, num 5,
  num 6, num 7, num 8, num 9, num 12, num 15, num 16, num 17, num 19, num 20, num 22, num 27,
  num 28, num 33, num 34]), ("thing", arr [num 15, num 20]), ("think", arr [num 15, num 33]),
  ("those", arr [num 6, num 7]), ("through", arr [num 4, num 7, num 8, num 17, num 28]),
  ("ticket", num 4), ("tidi", num 9), ("time", arr [num 4, num 6, num 13, num 24]),
  ("titl", arr [num 8, num 16]), ("togeth", num 5), ("too", num 3), ("took", num 5),
  ("tool", arr [num 2, num 5, num 14, num 16]), ("top", arr [num 15, num 32]), ("topic", num 20),
  ("tox", arr [num 3, num 6, num 10, num 11, num 17]), ("track", num 15), ("transit", num 7),
  ("treat", num 28), ("tree", arr [num 15, num 17]), ("trigger", num 13), ("true", arr [num 5,
  num 16]), ("truncat", num 24), ("tupl", arr [num 24, num 27]), ("tutori", num 20),
  ("twin", num 5), ("two", num 7), ("type", arr [num 5, num 11, num 16, num 17, num 19, num 23,
  num 24, num 34]), ("typic", num 21), ("unchang", num 24), ("under", arr [num 6, num 17]),
  ("undergo", num 15), ("underlin", num 16), ("understand", num 20), ("understood", num 20),
  ("unifi", num 20), ("union", num 31), ("uniqu", num 24), ("unrel", num 9), ("unsur", num 8),
  ("up", arr [num 4, num 9, num 14, num 24, num 33]), ("updat", arr [num 2, num 8, num 14, num 27]),
  ("urgent", num 7), ("us", arr [num 1, num 2, num 5, num 7, num 9, num 13, num 14, num 16, num 17,
  num 19, num 27, num 28, num 34]), ("usag", num 21), ("user", arr [num 6, num 8, num 19]),
  ("usual", num 24), ("util", arr [num 5, num 19]), ("valid", arr [num 5, num 19, num 24]),
  ("valu", arr [num 7, num 16]), ("valueerror", num 24), ("variabl", num 23), ("venv", arr [num 2,
  num 17, num 34]), ("veri", num 15), ("verifi", num 7), ("version", arr [num 3, num 8, num 12,
  num 22, num 28]), ("view", num 3), ("virtual", num 28), ("virtualenv", num 17),
  ("visibl", num 19), ("vmxi", num 5), ("vscode", num 17), ("w41", num 5), ("wai", num 21),
  ("wait", num 5), ("wait_for_connect", num 5), ("want", arr [num 4, num 9]), ("watch", num 3),
  ("we", arr [num 0, num 1, num 2, num 4, num 9, num 16]), ("web", num 3), ("welcom", num 4),
  ("well", num 6), ("were", num 7), ("what", arr [num 4, num 8, num 15, num 33]),
  ("when", arr [num 4, num 5, num 15, num 17, num 28, num 33]), ("whenev", num 3),
  ("where", arr [num 7, num 9, num 11, num 12]), ("which", arr [num 3, num 5, num 12, num 17,
  num 24]), ("while", num 4), ("whilst", num 15), ("whole", num 24), ("why", arr [num 14, num 21]),
  ("window", num 6), ("within", num 24), ("without", arr [num 7, num 11, num 24]),
  ("work", arr [num 7, num 21, num 33]), ("workstat", arr [num 19, num 33]), ("would", arr [num 5,
  num 15, num 33]), ("write", arr [num 7, num 9, num 15, num 20]), ("written", num 15),
  ("wrong", num 7), ("x", arr [num 13, num 24]), ("xml", num 10), ("yield", num 15),
  ("you", arr [num 3, num 4, num 6, num 7, num 8, num 9, num 10, num 11, num 15, num 17, num 19,
  num 33, num 34]), ("your", arr [num 3, num 4, num 6, num 7, num 19, num 33]), ("zocalo", num 14),
  ("zocaloresult", num 13), ("zocalotrigg", num 13)]),
  ("titles", arr [str "Architectural Decision Records", str "1. Record architecture decisions",
  str "2. Adopt python3-pip-skeleton for project structure", str "Build the docs using sphinx",
  str "Contributing to the project", str "Creating a new beamline",
  str "Run linting using pre-commit",
  str "Decision Flowchart for Creating a New ophyd_async Device", str "Make a release",
  str "Moving code from another repo", str "Run the tests using pytest",
  str "Run static analysis using mypy", str "Update the tools", str "Zocalo Interaction",
  str "Developer Guide", str "Device Standards", str "General Coding Standards",
  str "Developer install", str "API Index", str "dodal", str "About the documentation",
  str "User Guide", str "API", str "dodal.beamlines", str "dodal.common", str "dodal.devices",
  str "dodal.plans", str "types", str "types.DynamicClassAttribute", str "types.GenericAlias",
  str "types.SimpleNamespace", str "types.UnionType", str "zocalo", str "Getting Started",
  str "Installation"]), ("titleterms", obj [("1", num 1), ("2", num 2), ("The", num 33),
  ("about", num 20), ("ad", num 33), ("addit", num 7), ("adopt", num 2), ("analysi", num 11),
  ("anoth", num 9), ("api", arr [num 18, num 22]), ("architectur", arr [num 0, num 1]),
  ("async", num 15), ("autobuild", num 3), ("beamlin", arr [num 5, num 15, num 23]),
  ("best", num 15), ("build", arr [num 3, num 17]), ("check", num 34), ("clone", num 17),
  ("code", arr [num 4, num 9, num 16]), ("commit", num 6), ("common", num 24), ("connect", num 19),
  ("consequ", arr [num 1, num 2]), ("context", arr [num 1, num 2]), ("contribut", num 4),
  ("coverag", num 4), ("creat", arr [num 5, num 7, num 34]), ("decid", num 8), ("decis", arr [num 0,
  num 1, num 2, num 7]), ("depend", num 17), ("develop", arr [num 4, num 7, num 14, num 17]),
  ("devic", arr [num 7, num 15, num 25, num 33]), ("discuss", num 4), ("doc", num 3),
  ("document", arr [num 16, num 19, num 20]), ("dodal", arr [num 19, num 22, num 23, num 24, num 25,
  num 26, num 33]), ("dynamicclassattribut", num 28), ("environ", num 34), ("explan", arr [num 14,
  num 21]), ("fix", num 6), ("flowchart", num 7), ("from", num 9), ("gener", num 16),
  ("genericalia", num 29), ("get", num 33), ("guid", arr [num 4, num 14, num 21]), ("high", num 7),
  ("how", arr [num 14, num 19]), ("i", num 19), ("index", num 18), ("instal", arr [num 17, num 34]),
  ("interact", num 13), ("interfac", num 7), ("issu", arr [num 4, num 6]), ("level", num 7),
  ("librari", num 34), ("lint", num 6), ("log", num 33), ("make", num 8), ("modul", num 5),
  ("move", num 9), ("mypi", num 11), ("new", arr [num 5, num 7]), ("note", num 7),
  ("number", num 8), ("ophyd", num 15), ("ophyd_async", num 7), ("pip", num 2), ("plan", num 26),
  ("practic", num 15), ("pre", num 6), ("prefix", num 15), ("project", arr [num 2, num 4]),
  ("purpos", num 33), ("put", num 15), ("pv", num 15), ("pytest", num 10), ("python", arr [num 16,
  num 34]), ("python3", num 2), ("record", arr [num 0, num 1]), ("refer", arr [num 14, num 21]),
  ("releas", num 8), ("repo", num 9), ("repositori", num 17), ("run", arr [num 6, num 10, num 11]),
  ("see", num 17), ("select", num 7), ("signal", num 15), ("simplenamespac", num 30),
  ("skeleton", num 2), ("sphinx", num 3), ("standard", arr [num 15, num 16]), ("start", num 33),
  ("static", num 11), ("statu", arr [num 1, num 2]), ("structur", arr [num 2, num 19]),
  ("suffix", num 15), ("support", arr [num 6, num 16]), ("test", arr [num 7, num 10, num 17,
  num 19]), ("tool", num 12), ("tutori", arr [num 14, num 21]), ("type", arr [num 27, num 28,
  num 29, num 30, num 31]), ("uniontyp", num 31), ("updat", num 12), ("us", arr [num 3, num 6,
  num 10, num 11, num 15, num 33]), ("user", num 21), ("v", num 15), ("version", arr [num 16,
  num 34]), ("virtual", num 34), ("vscode", num 6), ("wa", num 17), ("what", num 17),
  ("where", num 15), ("your", num 34), ("zocalo", arr [num 13, num 32])])]

/-- The object passed to `Search.setIndex` in `341-new-j20-setup/searchindex.js`. -/
def idx_341_new_j20_setup : Json :=
  obj [("alltitles", obj [("1. Record architecture decisions", arr [arr [num 1,
  str "record-architecture-decisions"]]),
  ("2. Adopt python3-pip-skeleton for project structure", arr [arr [num 2,
  str "adopt-python3-pip-skeleton-for-project-structure"]]), ("API", arr [arr [num 19,
  str "module-dodal"]]), ("API Index", arr [arr [num 14, str "api-index"]]),
  ("About the documentation", arr [arr [num 16, str "about-the-documentation"]]),
  ("Adding Logging", arr [arr [num 20, str "adding-logging"]]),
  ("Architectural Decision Records", arr [arr [num 0, str "architectural-decision-records"]]),
  ("Autobuild", arr [arr [num 3, str "autobuild"]]), ("Build and test", arr [arr [num 13,
  str "build-and-test"]]), ("Build the docs using sphinx", arr [arr [num 3,
  str "build-the-docs-using-sphinx"]]), ("Check your version of python", arr [arr [num 21,
  str "check-your-version-of-python"]]), ("Clone the repository", arr [arr [num 13,
  str "clone-the-repository"]]), ("Code Standards", arr [arr [num 12, str "code-standards"]]),
  ("Code coverage", arr [arr [num 4, str "code-coverage"]]), ("Consequences", arr [arr [num 1,
  str "consequences"], arr [num 2, str "consequences"]]), ("Context", arr [arr [num 1,
  str "context"], arr [num 2, str "context"]]), ("Contributing to the project", arr [arr [num 4,
  str "contributing-to-the-project"]]), ("Create a virtual environment", arr [arr [num 21,
  str "create-a-virtual-environment"]]), ("Creating a new beamline", arr [arr [num 17,
  str "creating-a-new-beamline"]]), ("Decision", arr [arr [num 1, str "decision"], arr [num 2,
  str "decision"]]), ("Developer Guide", arr [arr [num 11, str "developer-guide"]]),
  ("Developer guide", arr [arr [num 4, str "developer-guide"]]),
  ("Developer install", arr [arr [num 13, str "developer-install"]]),
  ("Documentation Standards", arr [arr [num 12, str "documentation-standards"]]),
  ("Explanations", arr [arr [num 11, null], arr [num 18, null]]), ("Fixing issues", arr [arr [num 5,
  str "fixing-issues"]]), ("Getting Started", arr [arr [num 20, str "getting-started"]]),
  ("How the documentation is structured", arr [arr [num 15,
  str "how-the-documentation-is-structured"]]), ("How-to Guides", arr [arr [num 11, null],
  arr [num 18, null]]), ("Install dependencies", arr [arr [num 13, str "install-dependencies"]]),
  ("Installation", arr [arr [num 21, str "installation"]]),
  ("Installing the library", arr [arr [num 21, str "installing-the-library"]]),
  ("Issue or Discussion?", arr [arr [num 4, str "issue-or-discussion"]]),
  ("Make a release", arr [arr [num 6, str "make-a-release"]]),
  ("Moving code from another repo", arr [arr [num 7, str "moving-code-from-another-repo"]]),
  ("Reference", arr [arr [num 11, null], arr [num 18, null]]),
  ("Run linting using pre-commit", arr [arr [num 5, str "run-linting-using-pre-commit"]]),
  ("Run static analysis using mypy", arr [arr [num 9, str "run-static-analysis-using-mypy"]]),
  ("Run the tests using pytest", arr [arr [num 8, str "run-the-tests-using-pytest"]]),
  ("Running pre-commit", arr [arr [num 5, str "running-pre-commit"]]),
  ("See what was installed", arr [arr [num 13, str "see-what-was-installed"]]),
  ("Standards", arr [arr [num 12, str "standards"]]), ("Status", arr [arr [num 1, str "status"],
  arr [num 2, str "status"]]), ("The Purpose of Dodal", arr [arr [num 20,
  str "the-purpose-of-dodal"]]), ("Tutorials", arr [arr [num 11, null], arr [num 18, null]]),
  ("Update the tools", arr [arr [num 10, str "update-the-tools"]]), ("User Guide", arr [arr [num 18,
  str "user-guide"]]), ("Using Devices", arr [arr [num 20, str "using-devices"]]),
  ("VSCode support", arr [arr [num 5, str "vscode-support"]]), ("dodal", arr [arr [num 15,
  str "dodal"], arr [num 19, str "dodal"]])]),
  ("docnames", arr [str "developer/explanations/decisions",
  str "developer/explanations/decisions/0001-record-architecture-decisions",
  str "developer/explanations/decisions/0002-switched-to-pip-skeleton",
  str "developer/how-to/build-docs", str "developer/how-to/contribute", str "developer/how-to/lint",
  str "developer/how-to/make-release", str "developer/how-to/move-code",
  str "developer/how-to/run-tests", str "developer/how-to/static-analysis",
  str "developer/how-to/update-tools", str "developer/index", str "developer/reference/standards",
  str "developer/tutorials/dev-install", str "genindex", str "index",
  str "user/explanations/docs-structure", str "user/how-to/create-beamline", str "user/index",
  str "user/reference/api", str "user/tutorials/get_started", str "user/tutorials/installation"]),
  ("envversion", obj [("sphinx", num 61), ("sphinx.domains.c", num 3),
  ("sphinx.domains.changeset", num 1), ("sphinx.domains.citation", num 1),
  ("sphinx.domains.cpp", num 9), ("sphinx.domains.index", num 1),
  ("sphinx.domains.javascript", num 3), ("sphinx.domains.math", num 2),
  ("sphinx.domains.python", num 4), ("sphinx.domains.rst", num 2), ("sphinx.domains.std", num 2),
  ("sphinx.ext.intersphinx", num 1), ("sphinx.ext.viewcode", num 1)]),
  ("filenames", arr [str "developer/explanations/decisions.rst",
  str "developer/explanations/decisions/0001-record-architecture-decisions.rst",
  str "developer/explanations/decisions/0002-switched-to-pip-skeleton.rst",
  str "developer/how-to/build-docs.rst", str "developer/how-to/contribute.rst",
  str "developer/how-to/lint.rst", str "developer/how-to/make-release.rst",
  str "developer/how-to/move-code.rst", str "developer/how-to/run-tests.rst",
  str "developer/how-to/static-analysis.rst", str "developer/how-to/update-tools.rst",
  str "developer/index.rst", str "developer/reference/standards.rst",
  str "developer/tutorials/dev-install.rst", str "genindex.rst", str "index.rst",
  str "user/explanations/docs-structure.rst", str "user/how-to/create-beamline.rst",
  str "user/index.rst", str "user/reference/api.rst", str "user/tutorials/get_started.rst",
  str "user/tutorials/installation.rst"]), ("indexentries", obj [("dodal", arr [arr [num 19,
  str "module-dodal", bool false]]), ("dodal.__version__ (in module dodal)", arr [arr [num 19,
  str "dodal.dodal.__version__", bool false]]), ("module", arr [arr [num 19, str "module-dodal",
  bool false]])]), ("objects", obj [("", arr [arr [num 19, num 0, num 0, str "-", str "dodal"]]),
  ("dodal.dodal", arr [arr [num 19, num 1, num 1, str "", str "__version__"]])]),
  ("objnames", obj [("0", arr [str "py", str "module", str "Python module"]), ("1", arr [str "py",
  str "data", str "Python data"])]), ("objtypes", obj [("0", str "py:module"),
  ("1", str "py:data")]), ("terms", obj [("", arr [num 1, num 7, num 17, num 20]), ("0", num 7),
  ("01", num 17), ("02", arr [num 1, num 2]), ("0440", num 6), ("1", arr [num 0, num 12]),
  ("100", num 4), ("123", num 7), ("18", arr [num 1, num 2]), ("2", arr [num 0, num 12, num 15]),
  ("2022", arr [num 1, num 2]), ("3", arr [num 12, num 13, num 21]), ("8", arr [num 13, num 21]),
  ("8000", num 3), ("9", num 7), ("A", num 17), ("As", arr [num 2, num 12]), ("At", num 7),
  ("For", num 12), ("If", arr [num 3, num 4, num 5, num 7, num 17, num 20, num 21]), ("In", num 7),
  ("It", arr [num 5, num 7, num 8, num 9, num 21]), ("Or", num 5), ("The", arr [num 2, num 3, num 4,
  num 5, num 12, num 15, num 16, num 17, num 21]), ("There", num 16), ("These", num 13),
  ("To", arr [num 1, num 6, num 10, num 13, num 20]), ("__version__", num 19), ("abl", num 5),
  ("about", num 18), ("abov", arr [num 1, num 5]), ("accept", arr [num 1, num 2]),
  ("access", arr [num 11, num 18, num 20]), ("across", arr [num 15, num 20]), ("activ", arr [num 13,
  num 21]), ("ad", num 17), ("adaravi", num 17), ("adaravisdetector", num 17), ("add", num 7),
  ("add_code_from_hyperion", num 7), ("adopt", num 0), ("adr", arr [num 0, num 1]),
  ("aggress", num 7), ("all", arr [num 4, num 5, num 7]), ("all_beamlin", num 17), ("allow", num 7),
  ("alreadi", num 17), ("also", arr [num 3, num 4, num 5, num 8, num 11, num 17, num 18, num 20,
  num 21]), ("alwai", num 17), ("am", num 20), ("amount", num 20), ("an", arr [num 3, num 5, num 7,
  num 10, num 17]), ("analysi", arr [num 11, num 12, num 13]), ("ani", arr [num 3, num 4, num 7,
  num 10, num 17, num 20, num 21]), ("anoth", num 11), ("anyth", num 20), ("api", arr [num 3,
  num 12, num 18]), ("approach", num 16), ("ar", arr [num 3, num 4, num 7, num 12, num 16, num 17,
  num 20]), ("architectur", num 11), ("area", num 10), ("areadetector", num 17), ("arg", num 12),
  ("arg1", num 12), ("arg2", num 12), ("argument", num 17), ("articl", num 1), ("ask", num 4),
  ("assum", num 7), ("automat", num 5), ("avoid", num 7), ("ax", num 17), ("b", num 7),
  ("back", num 15), ("bar", arr [num 11, num 18]), ("base", num 3), ("beamlin", arr [num 15, num 18,
  num 20]), ("beamline_util", num 17), ("been", arr [num 7, num 21]), ("befor", num 4),
  ("being", arr [num 5, num 17]), ("below", arr [num 0, num 17]), ("between", num 10),
  ("big", num 4), ("bin", arr [num 13, num 21]), ("bl", num 17), ("bl_prefix", num 17),
  ("black", arr [num 5, num 12]), ("blixx", num 17), ("blueski", arr [num 17, num 20]),
  ("bool", arr [num 12, num 17]), ("branch", arr [num 6, num 7]), ("browser", num 3),
  ("bug", num 4), ("build", arr [num 11, num 12]), ("built", num 3), ("calcul", num 19),
  ("call", arr [num 16, num 17]), ("came", num 7), ("can", arr [num 2, num 3, num 4, num 5, num 7,
  num 8, num 9, num 13, num 17, num 20, num 21]), ("capabl", num 17), ("case", arr [num 5, num 7,
  num 13]), ("categori", arr [num 11, num 18]), ("caught", num 4), ("cd", arr [num 2, num 7,
  num 13]), ("chang", arr [num 2, num 3, num 4, num 5, num 7, num 10, num 15]),
  ("check", arr [num 4, num 5, num 7, num 8, num 9, num 10, num 12, num 13, num 17]),
  ("checklist", num 6), ("checkout", num 7), ("choos", arr [num 6, num 13]), ("chose", num 6),
  ("ci", num 2), ("class", num 17), ("clean", num 7), ("click", arr [num 6, num 13]),
  ("clone", arr [num 5, num 7, num 17]), ("clone_for_histori", num 7), ("close", arr [num 4,
  num 10]), ("code", arr [num 3, num 5, num 11, num 13, num 15, num 20]), ("codebas", num 7),
  ("collect", num 17), ("com", arr [num 7, num 10, num 13, num 21]), ("come", num 7),
  ("command", num 5), ("commandlin", arr [num 8, num 21]), ("commit", arr [num 7, num 11, num 12,
  num 13]), ("commonli", num 20), ("complet", num 17), ("complex", num 13), ("compliant", num 6),
  ("compon", num 17), ("concurr", num 17), ("condition", num 17), ("configur", num 17),
  ("conflict", num 10), ("conform", arr [num 12, num 17]), ("connect", arr [num 17, num 20]),
  ("consid", num 12), ("consist", num 2), ("constructor", num 17), ("contain", arr [num 4, num 12,
  num 13, num 15, num 20]), ("contribut", arr [num 11, num 15]), ("convent", num 12),
  ("copi", arr [num 1, num 7, num 17]), ("correct", num 7), ("could", arr [num 2, num 15, num 17]),
  ("cov", num 8), ("cover", num 20), ("coverag", num 8), ("creat", arr [num 1, num 6, num 7,
  num 18]), ("creation", num 16), ("current", arr [num 0, num 10, num 21]), ("d11", num 17),
  ("dai", num 11), ("date", arr [num 1, num 2]), ("david", num 16), ("dcam", num 17),
  ("dcm", num 20), ("debug", num 20), ("decis", num 11), ("def", arr [num 12, num 17]),
  ("default", arr [num 17, num 20]), ("defin", arr [num 12, num 17]), ("definit", num 9),
  ("depend", arr [num 7, num 21]), ("describ", arr [num 0, num 1]), ("descript", num 12),
  ("detail", num 10), ("dev", arr [num 11, num 13]), ("devcontain", num 13), ("develop", arr [num 2,
  num 15]), ("devic", arr [num 7, num 15, num 17]), ("device_instanti", num 17), ("di", num 17),
  ("diamondlightsourc", arr [num 7, num 10, num 13, num 15, num 21]), ("differ", arr [num 2, num 7,
  num 16]), ("directori", arr [num 3, num 7, num 12, num 20]), ("discourag", num 17),
  ("dl", arr [num 7, num 15, num 20, num 21]), ("dls_sw", num 20), ("do", arr [num 5, num 7, num 9,
  num 17, num 20]), ("doc", arr [num 11, num 12, num 13]), ("docstr", arr [num 3, num 12]),
  ("document", arr [num 3, num 4, num 11, num 13, num 18]), ("dodal", arr [num 7, num 13, num 17,
  num 21]), ("doe", num 4), ("don", num 4), ("done", arr [num 8, num 9]), ("draft", num 6),
  ("e", arr [num 3, num 5, num 7, num 8, num 9, num 13]), ("each", num 5), ("easili", num 4),
  ("edit", num 6), ("editor", num 5), ("effect", num 6), ("either", num 13), ("enabl", num 5),
  ("end", num 4), ("ensur", arr [num 2, num 7]), ("environ", arr [num 2, num 4, num 13]),
  ("epic", num 13), ("error", num 8), ("ever", num 7), ("everi", arr [num 5, num 7]),
  ("everyth", num 7), ("exampl", arr [num 7, num 12, num 17]), ("except", num 6),
  ("exclud", num 17), ("exist", arr [num 1, num 4, num 17, num 21]), ("exlus", num 20),
  ("experi", num 17), ("experienc", num 18), ("explan", num 16), ("explicit", num 7),
  ("explicitli", num 20), ("extend", num 12), ("extens", num 12), ("extract", num 12),
  ("f", arr [num 7, num 17]), ("factori", num 17), ("fake", num 17),
  ("fake_with_ophyd_sim", num 17), ("fals", arr [num 10, num 17]), ("fd", num 7),
  ("featur", num 21), ("fictiti", num 17), ("file", arr [num 4, num 5, num 7, num 9, num 20]),
  ("filter", num 7), ("find", num 8), ("firefox", num 3), ("first", num 13), ("fit", arr [num 4,
  num 7]), ("fix", num 2), ("folder", num 7), ("follow", arr [num 2, num 4, num 6, num 7, num 12,
  num 13, num 17, num 20]), ("format", arr [num 2, num 5, num 12]), ("four", arr [num 11, num 16,
  num 18]), ("free", num 4), ("from", arr [num 1, num 2, num 3, num 5, num 11, num 12, num 17,
  num 18, num 20, num 21]), ("func", num 12), ("function", arr [num 8, num 12, num 16, num 17,
  num 20]), ("g", num 7), ("gc", num 7), ("gener", arr [num 6, num 7, num 10]), ("get", arr [num 6,
  num 11, num 13, num 18]), ("get_beamline_nam", num 17), ("git", arr [num 5, num 7, num 10, num 13,
  num 21]), ("github", arr [num 4, num 6, num 7, num 10, num 13, num 15, num 21]), ("give", num 20),
  ("go", arr [num 6, num 20]), ("good", arr [num 7, num 16]), ("googl", num 12), ("grand", num 16),
  ("graph", num 13), ("graylog", num 20), ("great", num 4), ("guid", arr [num 12, num 15, num 16]),
  ("ha", arr [num 6, num 10, num 17, num 21]), ("had", num 7), ("handl", arr [num 4, num 5]),
  ("hard", num 7), ("hardwar", num 20), ("have", arr [num 2, num 4, num 5, num 7, num 13, num 20]),
  ("head", num 12), ("headl", num 12), ("help", arr [num 16, num 20]), ("helper", num 20),
  ("here", num 18), ("highlight", arr [num 5, num 9]), ("hint", num 12), ("histori", num 7),
  ("hook", num 5), ("host", num 13), ("how", arr [num 12, num 16]), ("html", num 3),
  ("http", arr [num 3, num 6, num 7, num 10, num 15, num 21]), ("hutch", num 17),
  ("hyperion", num 7), ("i", arr [num 0, num 4, num 5, num 7, num 8, num 9, num 10, num 11, num 12,
  num 16, num 17, num 18, num 19, num 20, num 21]), ("i03", num 20), ("idea", arr [num 4, num 7]),
  ("immedi", num 20), ("immens", num 16), ("implic", num 16), ("import", arr [num 7, num 17,
  num 20]), ("improv", arr [num 4, num 16]), ("includ", arr [num 3, num 17, num 18]),
  ("increas", num 20), ("index", arr [num 3, num 18]), ("indic", num 10), ("info", num 20),
  ("inform", arr [num 4, num 16]), ("instal", arr [num 5, num 7, num 11, num 15, num 18]),
  ("instanc", arr [num 17, num 20]), ("instanti", num 17), ("instead", arr [num 4, num 20]),
  ("instruct", num 13), ("instrument", num 20), ("int", num 12), ("integr", num 13),
  ("interfac", num 21), ("interfer", num 21), ("intern", num 19), ("involv", num 4), ("io", num 15),
  ("isn", num 16), ("issu", arr [num 7, num 9]), ("its", num 21), ("json", num 5), ("just", num 5),
  ("keep", arr [num 7, num 10]), ("la", num 16), ("lambda", num 17), ("later", arr [num 13,
  num 21]), ("latest", arr [num 2, num 10]), ("librari", arr [num 4, num 18]), ("like", arr [num 8,
  num 20]), ("likewis", num 5), ("line", num 12), ("link", arr [num 1, num 11, num 18]),
  ("lint", arr [num 2, num 11, num 12, num 13]), ("list", arr [num 0, num 17]), ("live", num 17),
  ("local", arr [num 3, num 7, num 13, num 20]), ("localhost", num 3), ("log", arr [num 7, num 17]),
  ("logger", num 20), ("look", arr [num 7, num 8]), ("m", arr [num 7, num 13, num 21]),
  ("machin", arr [num 13, num 17]), ("made", num 1), ("mai", arr [num 2, num 5, num 7, num 17]),
  ("main", arr [num 6, num 7]), ("major", num 0), ("make", arr [num 3, num 4, num 7, num 11]),
  ("manag", num 2), ("mani", num 20), ("manual", num 5), ("match", num 9), ("materi", arr [num 11,
  num 18]), ("maximum", num 17), ("mean", num 10), ("mention", num 7), ("merg", num 10),
  ("messag", arr [num 7, num 20]), ("michael", arr [num 0, num 1]), ("might", num 4),
  ("minim", num 13), ("mistaken", num 7), ("mkdir", num 7), ("modifi", num 7), ("modul", arr [num 2,
  num 10]), ("monitor", num 17), ("more", arr [num 7, num 10, num 13, num 16, num 17, num 18,
  num 20]), ("most", arr [num 4, num 16]), ("mostli", num 7), ("motor", num 17), ("move", num 11),
  ("msg", num 7), ("multipl", arr [num 10, num 17]), ("mv", num 7), ("mypi", arr [num 11, num 12,
  num 13]), ("name", num 17), ("napoleon", num 12), ("need", arr [num 1, num 16, num 17, num 21]),
  ("new", arr [num 1, num 4, num 6, num 13, num 18]), ("next", num 20), ("notat", num 7),
  ("note", arr [num 6, num 7, num 18]), ("now", arr [num 5, num 7, num 13, num 20, num 21]),
  ("number", arr [num 4, num 6, num 19]), ("nygard", arr [num 0, num 1]), ("object", num 17),
  ("obviou", num 4), ("occur", num 20), ("offer", num 4), ("often", num 16), ("old", num 7),
  ("old_repo", num 7), ("onc", num 17), ("one", arr [num 4, num 16, num 17]), ("ones", num 1),
  ("onli", arr [num 7, num 17, num 20]), ("open", arr [num 3, num 4, num 13]),
  ("ophyd", arr [num 15, num 17, num 20]), ("optic", num 17), ("option", arr [num 6, num 17]),
  ("order", num 16), ("org", num 6), ("origin", num 7), ("other", arr [num 7, num 15, num 20]),
  ("our", num 0), ("out", num 7), ("own", num 7), ("p", arr [num 7, num 13]), ("packag", arr [num 2,
  num 13]), ("page", arr [num 3, num 6, num 12]), ("parallel", num 13), ("pass", num 17),
  ("past", num 1), ("path", arr [num 7, num 21]), ("pep", num 6), ("pep440", num 6),
  ("pip", arr [num 0, num 7, num 10, num 13, num 15, num 21]), ("pipdeptre", num 13),
  ("place", num 4), ("plan", num 20), ("pleas", arr [num 4, num 6, num 12, num 20]),
  ("podman", num 13), ("point", arr [num 7, num 17]), ("possibl", num 5), ("potenti", num 9),
  ("practic", arr [num 11, num 18]), ("pre", arr [num 11, num 12, num 13]), ("prefix", num 17),
  ("prepar", num 7), ("process", arr [num 3, num 7, num 12]), ("project", arr [num 0, num 1, num 3,
  num 8, num 10, num 11]), ("prompt", num 13), ("protocol", num 17), ("provid", arr [num 10,
  num 20]), ("prune", num 7), ("publish", num 6), ("pull", arr [num 2, num 3, num 4, num 7,
  num 10]), ("purpos", num 16), ("push", arr [num 6, num 7, num 20]), ("pypa", num 19),
  ("pypi", num 15), ("pytest", arr [num 11, num 13]), ("python", arr [num 6, num 10, num 13]),
  ("python3", arr [num 0, num 10, num 13, num 21]), ("question", num 4), ("rais", num 4),
  ("re", num 7), ("read", num 17), ("real", num 20), ("realis", num 7), ("rebas", arr [num 7,
  num 10]), ("rebuild", num 3), ("recommend", num 21), ("record", num 11), ("reduc", num 4),
  ("refer", arr [num 7, num 16, num 19]), ("reformat", num 5), ("releas", arr [num 11, num 15,
  num 18, num 21]), ("reload", num 3), ("remain", num 4), ("remot", num 7), ("remov", num 7),
  ("reopen", num 13), ("repo", arr [num 5, num 11]), ("report", arr [num 5, num 8]),
  ("repositori", arr [num 5, num 7, num 12]), ("repres", num 16), ("request", arr [num 4, num 10]),
  ("requir", arr [num 13, num 16, num 21]), ("reset", num 7), ("result", num 5),
  ("return", arr [num 12, num 17]), ("review", num 6), ("rm", num 7), ("ruff", arr [num 5, num 12]),
  ("run", arr [num 3, num 4, num 10, num 11, num 12, num 13, num 17]), ("s41", num 17),
  ("safe", num 7), ("same", arr [num 4, num 6, num 17]), ("save", arr [num 5, num 20]),
  ("scope", num 4), ("secret", num 16), ("section", num 15), ("sed", num 7), ("see", arr [num 1,
  num 3, num 6]), ("sens", num 7), ("set", arr [num 2, num 4, num 5, num 12, num 17, num 20]),
  ("set_beamlin", num 17), ("set_log_beamlin", num 17), ("set_up_logging_handl", num 20),
  ("set_utils_beamlin", num 17), ("setup", arr [num 2, num 10, num 13]), ("setuptools_scm", num 19),
  ("share", num 4), ("should", arr [num 2, num 4, num 17, num 21]), ("side", arr [num 11, num 18]),
  ("signatur", num 12), ("significantli", num 4), ("simul", arr [num 17, num 20]),
  ("skeleton", arr [num 0, num 10]), ("skip_devic", num 17), ("so", arr [num 7, num 13, num 20,
  num 21]), ("softwar", arr [num 16, num 21]), ("some", arr [num 7, num 20]), ("someth", arr [num 4,
  num 10]), ("sourc", arr [num 3, num 7, num 9, num 13, num 15, num 21]), ("spend", num 4),
  ("sphinx", arr [num 11, num 12, num 13]), ("split", arr [num 11, num 15, num 18]),
  ("src", arr [num 3, num 7]), ("standard", arr [num 3, num 4, num 11]), ("start", num 18),
  ("static", arr [num 3, num 11, num 12, num 13]), ("statu", num 17), ("step", arr [num 11, num 13,
  num 18]), ("str", arr [num 12, num 17, num 19]), ("structur", arr [num 0, num 7, num 10]),
  ("style", num 12), ("summari", num 12), ("suppli", num 6), ("sure", num 4), ("switch", num 2),
  ("sync", num 10), ("synchrotron", num 17), ("t", arr [num 4, num 16]), ("tag", num 6),
  ("take", num 13), ("task", num 11), ("technic", arr [num 11, num 16, num 18]),
  ("techniqu", arr [num 2, num 10]), ("tell", arr [num 3, num 5]), ("termin", arr [num 13, num 21]),
  ("test", arr [num 4, num 7, num 11, num 17]), ("test_device_instanti", num 17),
  ("thei", arr [num 16, num 17]), ("them", arr [num 8, num 9, num 20]), ("theori", num 16),
  ("thi", arr [num 1, num 2, num 3, num 5, num 6, num 7, num 10, num 12, num 13, num 16, num 17,
  num 19, num 20, num 21]), ("thing", num 16), ("think", num 20), ("those", num 5),
  ("through", arr [num 4, num 13]), ("ticket", num 4), ("tidi", num 7), ("time", arr [num 4,
  num 5]), ("titl", arr [num 6, num 12]), ("togeth", num 17), ("too", num 3), ("took", num 17),
  ("tool", arr [num 2, num 11, num 12]), ("topic", num 16), ("tox", arr [num 3, num 5, num 8, num 9,
  num 13]), ("tree", num 13), ("true", arr [num 12, num 17]), ("tutori", num 16), ("twin", num 17),
  ("type", arr [num 9, num 12, num 13, num 17, num 21]), ("typic", num 18), ("under", arr [num 5,
  num 13]), ("underlin", num 12), ("understand", num 16), ("understood", num 16), ("unifi", num 16),
  ("unrel", num 7), ("up", arr [num 4, num 7, num 11, num 20]), ("updat", arr [num 2, num 11]),
  ("us", arr [num 1, num 2, num 7, num 11, num 12, num 13, num 15, num 17, num 21]),
  ("usag", num 18), ("user", arr [num 5, num 15]), ("util", arr [num 15, num 17]),
  ("valid", num 17), ("valu", num 12), ("venv", arr [num 2, num 13, num 21]),
  ("version", arr [num 10, num 19]), ("view", num 3), ("virtualenv", num 13), ("vscode", num 13),
  ("w41", num 17), ("wai", num 18), ("wait", num 17), ("wait_for_connect", num 17),
  ("want", arr [num 4, num 7]), ("watch", num 3), ("we", arr [num 0, num 1, num 2, num 4, num 7]),
  ("web", num 3), ("welcom", num 4), ("well", num 5), ("what", arr [num 4, num 20]),
  ("when", arr [num 4, num 13, num 17, num 20]), ("whenev", num 3), ("where", arr [num 7, num 9,
  num 10]), ("which", arr [num 3, num 10, num 13, num 17]), ("while", num 4), ("why", arr [num 11,
  num 18]), ("window", num 5), ("without", num 9), ("work", arr [num 18, num 20]),
  ("workstat", num 20), ("would", arr [num 17, num 20]), ("write", arr [num 7, num 16]),
  ("xml", num 8), ("you", arr [num 3, num 4, num 5, num 6, num 7, num 8, num 9, num 13, num 20,
  num 21]), ("your", arr [num 3, num 4, num 5, num 20])]),
  ("titles", arr [str "Architectural Decision Records", str "1. Record architecture decisions",
  str "2. Adopt python3-pip-skeleton for project structure", str "Build the docs using sphinx",
  str "Contributing to the project", str "Run linting using pre-commit", str "Make a release",
  str "Moving code from another repo", str "Run the tests using pytest",
  str "Run static analysis using mypy", str "Update the tools", str "Developer Guide",
  str "Standards", str "Developer install", str "API Index", str "dodal",
  str "About the documentation", str "Creating a new beamline", str "User Guide", str "API",
  str "Getting Started", str "Installation"]), ("titleterms", obj [("1", num 1), ("2", num 2),
  ("The", num 20), ("about", num 16), ("ad", num 20), ("adopt", num 2), ("analysi", num 9),
  ("anoth", num 7), ("api", arr [num 14, num 19]), ("architectur", arr [num 0, num 1]),
  ("autobuild", num 3), ("beamlin", num 17), ("build", arr [num 3, num 13]), ("check", num 21),
  ("clone", num 13), ("code", arr [num 4, num 7, num 12]), ("commit", num 5),
  ("consequ", arr [num 1, num 2]), ("context", arr [num 1, num 2]), ("contribut", num 4),
  ("coverag", num 4), ("creat", arr [num 17, num 21]), ("decis", arr [num 0, num 1, num 2]),
  ("depend", num 13), ("develop", arr [num 4, num 11, num 13]), ("devic", num 20),
  ("discuss", num 4), ("doc", num 3), ("document", arr [num 12, num 15, num 16]),
  ("dodal", arr [num 15, num 19, num 20]), ("environ", num 21), ("explan", arr [num 11, num 18]),
  ("fix", num 5), ("from", num 7), ("get", num 20), ("guid", arr [num 4, num 11, num 18]),
  ("how", arr [num 11, num 15, num 18]), ("i", num 15), ("index", num 14), ("instal", arr [num 13,
  num 21]), ("issu", arr [num 4, num 5]), ("librari", num 21), ("lint", num 5), ("log", num 20),
  ("make", num 6), ("move", num 7), ("mypi", num 9), ("new", num 17), ("pip", num 2),
  ("pre", num 5), ("project", arr [num 2, num 4]), ("purpos", num 20), ("pytest", num 8),
  ("python", num 21), ("python3", num 2), ("record", arr [num 0, num 1]), ("refer", arr [num 11,
  num 18]), ("releas", num 6), ("repo", num 7), ("repositori", num 13), ("run", arr [num 5, num 8,
  num 9]), ("see", num 13), ("skeleton", num 2), ("sphinx", num 3), ("standard", num 12),
  ("start", num 20), ("static", num 9), ("statu", arr [num 1, num 2]), ("structur", arr [num 2,
  num 15]), ("support", num 5), ("test", arr [num 8, num 13]), ("tool", num 10),
  ("tutori", arr [num 11, num 18]), ("updat", num 10), ("us", arr [num 3, num 5, num 8, num 9,
  num 20]), ("user", num 18), ("version", num 21), ("virtual", num 21), ("vscode", num 5),
  ("wa", num 13), ("what", num 13), ("your", num 21)])]

/-- The object passed to `Search.setIndex` in `483-make-device_factory-decorator-to-ease-making-and-connecting-ophyd-async-devices/searchindex.js`. -/
def idx_483_make_device_factory : Json :=
  obj [("alltitles", obj [("1. Record architecture decisions", arr [arr [num 1,
  str "record-architecture-decisions"]]),
  ("2. Adopt python3-pip-skeleton for project structure", arr [arr [num 2,
  str "adopt-python3-pip-skeleton-for-project-structure"]]),
  ("3. Add device factory decorator with lazy connect support", arr [arr [num 3,
  str "add-device-factory-decorator-with-lazy-connect-support"]]), ("API", arr [arr [num 20,
  str "module-dodal"]]), ("API Index", arr [arr [num 15, str "api-index"]]),
  ("About the documentation", arr [arr [num 17, str "about-the-documentation"]]),
  ("Adding Logging", arr [arr [num 21, str "adding-logging"]]),
  ("Architectural Decision Records", arr [arr [num 0, str "architectural-decision-records"]]),
  ("Autobuild", arr [arr [num 4, str "autobuild"]]), ("Build and test", arr [arr [num 14,
  str "build-and-test"]]), ("Build the docs using sphinx", arr [arr [num 4,
  str "build-the-docs-using-sphinx"]]), ("Check your version of python", arr [arr [num 22,
  str "check-your-version-of-python"]]), ("Clone the repository", arr [arr [num 14,
  str "clone-the-repository"]]), ("Code Standards", arr [arr [num 13, str "code-standards"]]),
  ("Code coverage", arr [arr [num 5, str "code-coverage"]]), ("Consequences", arr [arr [num 1,
  str "consequences"], arr [num 2, str "consequences"], arr [num 3, str "consequences"]]),
  ("Context", arr [arr [num 1, str "context"], arr [num 2, str "context"], arr [num 3,
  str "context"]]), ("Contributing to the project", arr [arr [num 5,
  str "contributing-to-the-project"]]), ("Create a virtual environment", arr [arr [num 22,
  str "create-a-virtual-environment"]]), ("Creating a new beamline", arr [arr [num 18,
  str "creating-a-new-beamline"]]), ("Decision", arr [arr [num 1, str "decision"], arr [num 2,
  str "decision"], arr [num 3, str "decision"]]), ("Developer Guide", arr [arr [num 12,
  str "developer-guide"]]), ("Developer guide", arr [arr [num 5, str "developer-guide"]]),
  ("Developer install", arr [arr [num 14, str "developer-install"]]),
  ("Documentation Standards", arr [arr [num 13, str "documentation-standards"]]),
  ("Explanations", arr [arr [num 12, null], arr [num 19, null]]), ("Fixing issues", arr [arr [num 6,
  str "fixing-issues"]]), ("Getting Started", arr [arr [num 21, str "getting-started"]]),
  ("How the documentation is structured", arr [arr [num 16,
  str "how-the-documentation-is-structured"]]), ("How-to Guides", arr [arr [num 12, null],
  arr [num 19, null]]), ("Install dependencies", arr [arr [num 14, str "install-dependencies"]]),
  ("Installation", arr [arr [num 22, str "installation"]]),
  ("Installing the library", arr [arr [num 22, str "installing-the-library"]]),
  ("Issue or Discussion?", arr [arr [num 5, str "issue-or-discussion"]]),
  ("Make a release", arr [arr [num 7, str "make-a-release"]]),
  ("Moving code from another repo", arr [arr [num 8, str "moving-code-from-another-repo"]]),
  ("Reference", arr [arr [num 12, null], arr [num 19, null]]),
  ("Run linting using pre-commit", arr [arr [num 6, str "run-linting-using-pre-commit"]]),
  ("Run static analysis using mypy", arr [arr [num 10, str "run-static-analysis-using-mypy"]]),
  ("Run the tests using pytest", arr [arr [num 9, str "run-the-tests-using-pytest"]]),
  ("Running pre-commit", arr [arr [num 6, str "running-pre-commit"]]),
  ("See what was installed", arr [arr [num 14, str "see-what-was-installed"]]),
  ("Standards", arr [arr [num 13, str "standards"]]), ("Status", arr [arr [num 1, str "status"],
  arr [num 2, str "status"], arr [num 3, str "status"]]), ("Testing Connectivity", arr [arr [num 16,
  str "testing-connectivity"]]), ("The Purpose of Dodal", arr [arr [num 21,
  str "the-purpose-of-dodal"]]), ("Tutorials", arr [arr [num 12, null], arr [num 19, null]]),
  ("Update the tools", arr [arr [num 11, str "update-the-tools"]]), ("User Guide", arr [arr [num 19,
  str "user-guide"]]), ("Using Devices", arr [arr [num 21, str "using-devices"]]),
  ("VSCode support", arr [arr [num 6, str "vscode-support"]]), ("dodal", arr [arr [num 16,
  str "dodal"], arr [num 20, str "dodal"]])]),
  ("docnames", arr [str "developer/explanations/decisions",
  str "developer/explanations/decisions/0001-record-architecture-decisions",
  str "developer/explanations/decisions/0002-switched-to-pip-skeleton",
  str "developer/explanations/decisions/0003-added-make-devices-decorator",
  str "developer/how-to/build-docs", str "developer/how-to/contribute", str "developer/how-to/lint",
  str "developer/how-to/make-release", str "developer/how-to/move-code",
  str "developer/how-to/run-tests", str "developer/how-to/static-analysis",
  str "developer/how-to/update-tools", str "developer/index", str "developer/reference/standards",
  str "developer/tutorials/dev-install", str "genindex", str "index",
  str "user/explanations/docs-structure", str "user/how-to/create-beamline", str "user/index",
  str "user/reference/api", str "user/tutorials/get_started", str "user/tutorials/installation"]),
  ("envversion", obj [("sphinx", num 61), ("sphinx.domains.c", num 3),
  ("sphinx.domains.changeset", num 1), ("sphinx.domains.citation", num 1),
  ("sphinx.domains.cpp", num 9), ("sphinx.domains.index", num 1),
  ("sphinx.domains.javascript", num 3), ("sphinx.domains.math", num 2),
  ("sphinx.domains.python", num 4), ("sphinx.domains.rst", num 2), ("sphinx.domains.std", num 2),
  ("sphinx.ext.intersphinx", num 1), ("sphinx.ext.viewcode", num 1)]),
  ("filenames", arr [str "developer/explanations/decisions.rst",
  str "developer/explanations/decisions/0001-record-architecture-decisions.rst",
  str "developer/explanations/decisions/0002-switched-to-pip-skeleton.rst",
  str "developer/explanations/decisions/0003-added-make-devices-decorator.rst",
  str "developer/how-to/build-docs.rst", str "developer/how-to/contribute.rst",
  str "developer/how-to/lint.rst", str "developer/how-to/make-release.rst",
  str "developer/how-to/move-code.rst", str "developer/how-to/run-tests.rst",
  str "developer/how-to/static-analysis.rst", str "developer/how-to/update-tools.rst",
  str "developer/index.rst", str "developer/reference/standards.rst",
  str "developer/tutorials/dev-install.rst", str "genindex.rst", str "index.rst",
  str "user/explanations/docs-structure.rst", str "user/how-to/create-beamline.rst",
  str "user/index.rst", str "user/reference/api.rst", str "user/tutorials/get_started.rst",
  str "user/tutorials/installation.rst"]), ("indexentries", obj [("dodal", arr [arr [num 20,
  str "module-dodal", bool false]]), ("dodal.__version__ (in module dodal)", arr [arr [num 20,
  str "dodal.dodal.__version__", bool false]]), ("module", arr [arr [num 20, str "module-dodal",
  bool false]])]), ("objects", obj [("", arr [arr [num 20, num 0, num 0, str "-", str "dodal"]]),
  ("dodal.dodal", arr [arr [num 20, num 1, num 1, str "", str "__version__"]])]),
  ("objnames", obj [("0", arr [str "py", str "module", str "Python module"]), ("1", arr [str "py",
  str "data", str "Python data"])]), ("objtypes", obj [("0", str "py:module"),
  ("1", str "py:data")]), ("terms", obj [("", arr [num 1, num 8, num 16, num 18, num 21]),
  ("0", num 8), ("01", num 18), ("02", arr [num 1, num 2]), ("04", num 3), ("0440", num 7),
  ("1", arr [num 0, num 13]), ("100", num 5), ("123", num 8), ("18", arr [num 1, num 2]),
  ("2", arr [num 0, num 13, num 16]), ("2022", arr [num 1, num 2]), ("2024", num 3), ("26", num 3),
  ("3", arr [num 0, num 13, num 14, num 22]), ("8", arr [num 14, num 22]), ("8000", num 4),
  ("9", num 8), ("A", num 18), ("As", arr [num 2, num 13]), ("At", num 8), ("For", arr [num 13,
  num 16]), ("If", arr [num 4, num 5, num 6, num 8, num 18, num 21, num 22]), ("In", num 8),
  ("It", arr [num 6, num 8, num 9, num 10, num 22]), ("On", num 16), ("Or", num 6),
  ("The", arr [num 2, num 3, num 4, num 5, num 6, num 13, num 16, num 17, num 18, num 22]),
  ("There", num 17), ("These", num 14), ("To", arr [num 1, num 7, num 11, num 14, num 21]),
  ("__version__", num 20), ("abl", num 6), ("about", num 19), ("abov", arr [num 1, num 3, num 6]),
  ("accept", arr [num 1, num 2, num 3]), ("access", arr [num 12, num 19, num 21]),
  ("across", arr [num 16, num 21]), ("activ", arr [num 14, num 22]), ("ad", num 18),
  ("adaravi", num 18), ("adaravisdetector", num 18), ("add", arr [num 0, num 8]),
  ("add_code_from_hyperion", num 8), ("adopt", num 0), ("adr", arr [num 0, num 1]),
  ("aggress", num 8), ("all", arr [num 3, num 5, num 6, num 8]), ("all_beamlin", num 18),
  ("allow", num 8), ("alreadi", num 18), ("also", arr [num 3, num 4, num 5, num 6, num 9, num 12,
  num 18, num 19, num 21, num 22]), ("alwai", num 18), ("am", num 21), ("amount", num 21),
  ("an", arr [num 4, num 6, num 8, num 11, num 18]), ("analysi", arr [num 12, num 13, num 14]),
  ("ani", arr [num 4, num 5, num 8, num 11, num 16, num 18, num 21, num 22]), ("anoth", num 12),
  ("anyth", num 21), ("api", arr [num 4, num 13, num 19]), ("approach", num 17), ("ar", arr [num 3,
  num 4, num 5, num 8, num 13, num 16, num 17, num 18, num 21]), ("architectur", num 12),
  ("area", num 11), ("areadetector", num 18), ("arg", arr [num 3, num 13]), ("arg1", num 13),
  ("arg2", num 13), ("argument", num 18), ("articl", num 1), ("ask", num 5), ("assum", num 8),
  ("async", num 3), ("automat", num 6), ("avoid", num 8), ("ax", num 18), ("b", num 8),
  ("back", num 16), ("bar", arr [num 12, num 19]), ("base", num 4), ("beamlin", arr [num 16, num 19,
  num 21]), ("beamline_util", num 18), ("been", arr [num 8, num 22]), ("befor", num 5),
  ("being", arr [num 6, num 18]), ("below", arr [num 0, num 18]), ("between", num 11),
  ("big", num 5), ("bin", arr [num 14, num 22]), ("bl", num 18), ("bl_prefix", num 18),
  ("blixx", num 18), ("blueapi", num 3), ("blueski", arr [num 18, num 21]), ("bool", arr [num 13,
  num 18]), ("branch", arr [num 7, num 8]), ("broadcast", num 3), ("browser", num 4),
  ("bug", num 5), ("build", arr [num 12, num 13]), ("built", num 4), ("cach", num 3),
  ("calcul", num 20), ("call", arr [num 3, num 17, num 18]), ("came", num 8), ("can", arr [num 2,
  num 3, num 4, num 5, num 6, num 8, num 9, num 10, num 14, num 16, num 18, num 21, num 22]),
  ("capabl", num 18), ("case", arr [num 6, num 8, num 14]), ("categori", arr [num 12, num 19]),
  ("caught", num 5), ("caus", num 3), ("cd", arr [num 2, num 8, num 14]), ("chang", arr [num 2,
  num 3, num 4, num 5, num 6, num 8, num 11, num 16]), ("check", arr [num 5, num 6, num 8, num 9,
  num 10, num 11, num 13, num 14, num 18]), ("checklist", num 7), ("checkout", num 8),
  ("choos", arr [num 7, num 14]), ("chose", num 7), ("ci", num 2), ("class", num 18),
  ("clean", num 8), ("click", arr [num 7, num 14]), ("clone", arr [num 6, num 8, num 18]),
  ("clone_for_histori", num 8), ("close", arr [num 5, num 11]), ("code", arr [num 4, num 6, num 12,
  num 14, num 16, num 21]), ("codebas", num 8), ("collect", num 18), ("com", arr [num 8, num 11,
  num 14, num 22]), ("come", num 8), ("command", num 6), ("commandlin", arr [num 9, num 22]),
  ("commit", arr [num 8, num 12, num 13, num 14]), ("common", num 18), ("commonli", num 21),
  ("complet", num 18), ("complex", num 14), ("compliant", num 7), ("compon", num 18),
  ("concurr", num 18), ("condition", num 18), ("configur", num 18), ("conflict", num 11),
  ("conform", arr [num 13, num 18]), ("connect", arr [num 0, num 18, num 21]), ("consid", num 13),
  ("consist", num 2), ("constructor", num 18), ("contain", arr [num 5, num 13, num 14, num 16,
  num 21]), ("contribut", arr [num 12, num 16]), ("convent", num 13), ("copi", arr [num 1, num 8,
  num 18]), ("correct", num 8), ("could", arr [num 2, num 3, num 16, num 18]), ("cov", num 9),
  ("cover", num 21), ("coverag", num 9), ("creat", arr [num 1, num 7, num 8, num 19]),
  ("creation", num 17), ("current", arr [num 0, num 11, num 22]), ("d11", num 18), ("dai", num 12),
  ("daq", num 3), ("date", arr [num 1, num 2, num 3]), ("david", num 17), ("dcam", num 18),
  ("dcm", num 21), ("debug", num 21), ("decis", num 12), ("decor", num 0), ("def", arr [num 13,
  num 18]), ("default", arr [num 3, num 18, num 21]), ("defin", arr [num 13, num 18]),
  ("definit", num 10), ("depend", arr [num 8, num 22]), ("describ", arr [num 0, num 1]),
  ("descript", num 13), ("detail", num 11), ("dev", arr [num 12, num 14]), ("devcontain", num 14),
  ("develop", arr [num 2, num 16]), ("devic", arr [num 0, num 8, num 16, num 18]),
  ("device_factori", num 3), ("device_instanti", num 18), ("di", num 18),
  ("diamondlightsourc", arr [num 8, num 11, num 14, num 16, num 22]), ("differ", arr [num 2, num 8,
  num 17]), ("directori", arr [num 4, num 8, num 13, num 21]), ("discourag", num 18),
  ("dl", arr [num 8, num 16, num 21, num 22]), ("dls_sw", num 21), ("do", arr [num 6, num 8, num 10,
  num 18, num 21]), ("doc", arr [num 12, num 13, num 14]), ("docstr", arr [num 4, num 13]),
  ("document", arr [num 4, num 5, num 12, num 14, num 19]), ("dodal", arr [num 3, num 8, num 14,
  num 18, num 22]), ("doe", num 5), ("don", num 5), ("done", arr [num 9, num 10]), ("draft", num 7),
  ("e", arr [num 4, num 6, num 8, num 9, num 10, num 14]), ("each", num 6), ("easili", num 5),
  ("edit", num 7), ("editor", num 6), ("effect", num 7), ("either", num 14), ("enabl", num 6),
  ("end", num 5), ("ensur", arr [num 2, num 8]), ("ensure_connect", num 3), ("environ", arr [num 2,
  num 5, num 14]), ("epic", num 14), ("error", num 9), ("ever", num 8), ("everi", arr [num 6,
  num 8]), ("everyth", num 8), ("exampl", arr [num 8, num 13, num 18]), ("except", num 7),
  ("exclud", num 18), ("exist", arr [num 1, num 5, num 18, num 22]), ("exlus", num 21),
  ("experi", num 18), ("experienc", num 19), ("explan", num 17), ("explicit", num 8),
  ("explicitli", num 21), ("extend", num 13), ("extens", num 13), ("extract", num 13),
  ("f", arr [num 8, num 18]), ("factori", arr [num 0, num 18]), ("fail", num 3), ("fake", num 18),
  ("fake_with_ophyd_sim", num 18), ("fals", arr [num 3, num 11, num 18]), ("fd", num 8),
  ("featur", num 22), ("fictiti", num 18), ("file", arr [num 5, num 6, num 8, num 10, num 21]),
  ("filter", num 8), ("find", num 9), ("firefox", num 4), ("first", num 14), ("fit", arr [num 5,
  num 8]), ("fix", num 2), ("folder", num 8), ("follow", arr [num 2, num 5, num 7, num 8, num 13,
  num 14, num 18, num 21]), ("forc", num 3), ("format", arr [num 2, num 6, num 13]),
  ("four", arr [num 12, num 17, num 19]), ("free", num 5), ("from", arr [num 1, num 2, num 4, num 6,
  num 12, num 13, num 18, num 19, num 21, num 22]), ("func", num 13), ("function", arr [num 9,
  num 13, num 17, num 18, num 21]), ("futur", num 3), ("g", num 8), ("gc", num 8),
  ("gener", arr [num 7, num 8, num 11]), ("get", arr [num 7, num 12, num 14, num 19]),
  ("get_beamline_nam", num 18), ("get_device_factori", num 3), ("git", arr [num 6, num 8, num 11,
  num 14, num 22]), ("github", arr [num 5, num 7, num 8, num 11, num 14, num 16, num 22]),
  ("give", num 21), ("go", arr [num 7, num 21]), ("good", arr [num 8, num 17]), ("googl", num 13),
  ("grand", num 17), ("graph", num 14), ("graylog", num 21), ("great", num 5), ("guid", arr [num 13,
  num 16, num 17]), ("ha", arr [num 7, num 11, num 18, num 22]), ("had", num 8),
  ("handl", arr [num 5, num 6]), ("hard", num 8), ("hardwar", num 21), ("have", arr [num 2, num 5,
  num 6, num 8, num 14, num 21]), ("head", num 13), ("headl", num 13), ("heartbeat", num 3),
  ("help", arr [num 16, num 17, num 21]), ("helper", num 21), ("here", num 19),
  ("highlight", arr [num 6, num 10]), ("hint", num 13), ("histori", num 8), ("hook", num 6),
  ("host", num 14), ("how", arr [num 13, num 17]), ("html", num 4), ("http", arr [num 4, num 7,
  num 8, num 11, num 16, num 22]), ("hutch", num 18), ("hyperion", num 8), ("i", arr [num 0, num 3,
  num 5, num 6, num 8, num 9, num 10, num 11, num 12, num 13, num 17, num 18, num 19, num 20,
  num 21, num 22]), ("i03", num 21), ("idea", arr [num 5, num 8]), ("idempot", num 3),
  ("immedi", num 21), ("immens", num 17), ("implic", num 17), ("import", arr [num 8, num 18,
  num 21]), ("improv", arr [num 5, num 17]), ("includ", arr [num 4, num 16, num 18, num 19]),
  ("increas", num 21), ("index", arr [num 4, num 19]), ("indic", num 11), ("info", num 21),
  ("inform", arr [num 5, num 17]), ("instal", arr [num 6, num 8, num 12, num 16, num 19]),
  ("instanc", arr [num 18, num 21]), ("instanti", num 18), ("instead", arr [num 5, num 21]),
  ("instruct", num 14), ("instrument", num 21), ("int", num 13), ("integr", num 14),
  ("interfac", num 22), ("interfer", num 22), ("intern", num 20), ("involv", num 5), ("io", num 16),
  ("isn", num 17), ("issu", arr [num 8, num 10]), ("iter", num 3), ("its", num 22), ("json", num 6),
  ("just", num 6), ("keep", arr [num 8, num 11]), ("la", num 17), ("lambda", num 18),
  ("later", arr [num 14, num 22]), ("latest", arr [num 2, num 11]), ("lazi", num 0), ("led", num 3),
  ("librari", arr [num 5, num 19]), ("like", arr [num 9, num 21]), ("line", num 13),
  ("link", arr [num 1, num 12, num 19]), ("lint", arr [num 2, num 12, num 13, num 14]),
  ("list", arr [num 0, num 16, num 18]), ("live", num 18), ("local", arr [num 4, num 8, num 14,
  num 21]), ("localhost", num 4), ("log", arr [num 3, num 8, num 18]), ("logger", num 21),
  ("look", arr [num 8, num 9]), ("m", arr [num 8, num 14, num 22]), ("machin", arr [num 14, num 16,
  num 18]), ("made", num 1), ("mai", arr [num 2, num 6, num 8, num 18]), ("main", arr [num 7,
  num 8]), ("major", num 0), ("make", arr [num 3, num 4, num 5, num 8, num 12]), ("manag", num 2),
  ("mani", num 21), ("manual", num 6), ("match", num 10), ("materi", arr [num 12, num 19]),
  ("maximum", num 18), ("mean", num 11), ("member", num 3), ("mention", num 8), ("merg", num 11),
  ("messag", arr [num 8, num 21]), ("michael", arr [num 0, num 1]), ("might", num 5),
  ("minim", num 14), ("mistaken", num 8), ("mkdir", num 8), ("mock", num 3), ("modifi", num 8),
  ("modul", arr [num 2, num 11]), ("monitor", arr [num 3, num 18]), ("more", arr [num 8, num 11,
  num 14, num 16, num 17, num 18, num 19, num 21]), ("most", arr [num 5, num 17]),
  ("mostli", num 8), ("motor", num 18), ("move", num 12), ("msg", num 8), ("multipl", arr [num 11,
  num 18]), ("mv", num 8), ("mypi", arr [num 12, num 13, num 14]), ("name", arr [num 3, num 18]),
  ("napoleon", num 13), ("need", arr [num 1, num 17, num 18, num 22]), ("new", arr [num 1, num 5,
  num 7, num 14, num 19]), ("next", arr [num 3, num 21]), ("notat", num 8), ("note", arr [num 7,
  num 8, num 19]), ("now", arr [num 6, num 8, num 14, num 21, num 22]), ("number", arr [num 5,
  num 7, num 20]), ("nygard", arr [num 0, num 1]), ("object", num 18), ("obviou", num 5),
  ("occur", num 21), ("offer", num 5), ("often", num 17), ("old", num 8), ("old_repo", num 8),
  ("onc", num 18), ("one", arr [num 5, num 17, num 18]), ("ones", arr [num 1, num 3]),
  ("onli", arr [num 8, num 18, num 21]), ("open", arr [num 4, num 5, num 14]), ("ophyd", arr [num 3,
  num 16, num 18, num 21]), ("optic", num 18), ("option", arr [num 3, num 7, num 16, num 18]),
  ("order", num 17), ("org", num 7), ("origin", num 8), ("other", arr [num 8, num 16, num 21]),
  ("our", num 0), ("out", num 8), ("own", num 8), ("p", arr [num 8, num 14]), ("packag", arr [num 2,
  num 14]), ("page", arr [num 4, num 7, num 13]), ("parallel", arr [num 3, num 14]),
  ("pass", num 18), ("past", num 1), ("path", arr [num 8, num 22]), ("pep", num 7),
  ("pep440", num 7), ("per", num 3), ("pip", arr [num 0, num 8, num 11, num 14, num 16, num 22]),
  ("pipdeptre", num 14), ("place", num 5), ("plan", arr [num 3, num 21]), ("pleas", arr [num 5,
  num 7, num 13, num 21]), ("podman", num 14), ("point", arr [num 8, num 18]), ("possibl", num 6),
  ("potenti", num 10), ("practic", arr [num 12, num 19]), ("pre", arr [num 12, num 13, num 14]),
  ("prefix", num 18), ("prepar", num 8), ("process", arr [num 4, num 8, num 13]),
  ("project", arr [num 0, num 1, num 4, num 9, num 11, num 12]), ("prompt", num 14),
  ("propos", num 3), ("protocol", num 18), ("provid", arr [num 11, num 21]), ("prune", num 8),
  ("publish", num 7), ("pull", arr [num 2, num 4, num 5, num 8, num 11]), ("purpos", num 17),
  ("push", arr [num 7, num 8, num 21]), ("pv", arr [num 3, num 16]), ("pypa", num 20),
  ("pypi", num 16), ("pytest", arr [num 12, num 14]), ("python", arr [num 7, num 11, num 14]),
  ("python3", arr [num 0, num 11, num 14, num 22]), ("question", num 5), ("rais", num 5),
  ("re", num 8), ("read", num 18), ("real", num 21), ("realis", num 8), ("rebas", arr [num 8,
  num 11]), ("rebuild", num 4), ("recommend", num 22), ("reconnect", num 3), ("record", num 12),
  ("reduc", num 5), ("refer", arr [num 8, num 17, num 20]), ("reformat", num 6),
  ("releas", arr [num 12, num 16, num 19, num 22]), ("reload", num 4), ("remain", num 5),
  ("remot", num 8), ("remov", num 8), ("reopen", num 14), ("repo", arr [num 6, num 12]),
  ("report", arr [num 6, num 9]), ("repositori", arr [num 6, num 8, num 13]), ("repres", num 17),
  ("request", arr [num 5, num 11]), ("requir", arr [num 14, num 17, num 22]), ("reset", num 8),
  ("result", num 6), ("return", arr [num 3, num 13, num 18]), ("review", num 7), ("rm", num 8),
  ("ruff", arr [num 6, num 13]), ("run", arr [num 3, num 4, num 5, num 11, num 12, num 13, num 14,
  num 18]), ("s41", num 18), ("safe", num 8), ("same", arr [num 5, num 7, num 18]),
  ("save", arr [num 6, num 21]), ("scope", num 5), ("secret", num 17), ("section", num 16),
  ("sed", num 8), ("see", arr [num 1, num 4, num 7]), ("sens", num 8), ("set", arr [num 2, num 5,
  num 6, num 13, num 18, num 21]), ("set_beamlin", num 18), ("set_log_beamlin", num 18),
  ("set_up_logging_handl", num 21), ("set_utils_beamlin", num 18), ("setup", arr [num 2, num 11,
  num 14]), ("setuptools_scm", num 20), ("share", num 5), ("should", arr [num 2, num 3, num 5,
  num 16, num 18, num 22]), ("side", arr [num 12, num 19]), ("signatur", num 13),
  ("significantli", num 5), ("simul", arr [num 18, num 21]), ("skeleton", arr [num 0, num 11]),
  ("skip_devic", num 18), ("so", arr [num 3, num 8, num 14, num 21, num 22]),
  ("softwar", arr [num 17, num 22]), ("some", arr [num 8, num 21]), ("someth", arr [num 5, num 11]),
  ("sourc", arr [num 4, num 8, num 10, num 14, num 16, num 22]), ("spend", num 5),
  ("sphinx", arr [num 12, num 13, num 14]), ("split", arr [num 12, num 16, num 19]),
  ("src", arr [num 4, num 8]), ("standard", arr [num 4, num 5, num 12]), ("start", num 19),
  ("startup", num 3), ("startup_connect", num 3), ("static", arr [num 4, num 12, num 13, num 14]),
  ("statu", num 18), ("step", arr [num 12, num 14, num 19]), ("storm", num 3), ("str", arr [num 13,
  num 18, num 20]), ("structur", arr [num 0, num 8, num 11]), ("stub", num 3), ("style", num 13),
  ("suffic", num 16), ("summari", num 13), ("suppli", num 7), ("support", num 0), ("sure", num 5),
  ("switch", num 2), ("sync", num 11), ("synchrotron", num 18), ("t", arr [num 5, num 17]),
  ("tag", num 7), ("take", num 14), ("task", num 12), ("technic", arr [num 12, num 17, num 19]),
  ("techniqu", arr [num 2, num 11]), ("tell", arr [num 4, num 6]), ("termin", arr [num 14, num 22]),
  ("test", arr [num 5, num 8, num 12, num 18]), ("test_device_instanti", num 18),
  ("thei", arr [num 3, num 17, num 18]), ("them", arr [num 9, num 10, num 21]), ("theori", num 17),
  ("thi", arr [num 1, num 2, num 3, num 4, num 6, num 7, num 8, num 11, num 13, num 14, num 16,
  num 17, num 18, num 20, num 21, num 22]), ("thing", num 17), ("think", num 21),
  ("those", arr [num 3, num 6]), ("through", arr [num 5, num 14]), ("ticket", num 5),
  ("tidi", num 8), ("time", arr [num 3, num 5, num 6]), ("timeout", num 3), ("titl", arr [num 7,
  num 13]), ("togeth", num 18), ("too", num 4), ("took", num 18), ("tool", arr [num 2, num 12,
  num 13]), ("topic", num 17), ("tox", arr [num 4, num 6, num 9, num 10, num 14]), ("tree", num 14),
  ("true", arr [num 13, num 18]), ("tutori", num 17), ("twin", num 18), ("type", arr [num 10,
  num 13, num 14, num 16, num 18, num 22]), ("typic", num 19), ("u", num 3), ("under", arr [num 6,
  num 14]), ("underlin", num 13), ("understand", num 17), ("understood", num 17), ("unifi", num 17),
  ("unrel", num 8), ("up", arr [num 5, num 8, num 12, num 21]), ("updat", arr [num 2, num 12]),
  ("us", arr [num 1, num 2, num 8, num 12, num 13, num 14, num 16, num 18, num 22]),
  ("usag", num 19), ("user", arr [num 6, num 16]), ("util", arr [num 16, num 18]),
  ("valid", arr [num 16, num 18]), ("valu", num 13), ("venv", arr [num 2, num 14, num 22]),
  ("verfi", num 3), ("version", arr [num 11, num 20]), ("view", num 4), ("virtualenv", num 14),
  ("visibl", num 16), ("vscode", num 14), ("w41", num 18), ("wa", num 3), ("wai", num 19),
  ("wait", num 18), ("wait_for_connect", num 18), ("want", arr [num 5, num 8]), ("watch", num 4),
  ("we", arr [num 0, num 1, num 2, num 3, num 5, num 8]), ("web", num 4), ("welcom", num 5),
  ("well", num 6), ("what", arr [num 5, num 21]), ("when", arr [num 3, num 5, num 14, num 18,
  num 21]), ("whenev", num 4), ("where", arr [num 8, num 10, num 11]), ("whether", num 3),
  ("which", arr [num 4, num 11, num 14, num 18]), ("while", num 5), ("why", arr [num 12, num 19]),
  ("window", num 6), ("without", num 10), ("work", arr [num 19, num 21]), ("workstat", arr [num 16,
  num 21]), ("would", arr [num 3, num 18, num 21]), ("write", arr [num 8, num 17]), ("xml", num 9),
  ("you", arr [num 4, num 5, num 6, num 7, num 8, num 9, num 10, num 14, num 16, num 21, num 22]),
  ("your", arr [num 4, num 5, num 6, num 16, num 21])]),
  ("titles", arr [str "Architectural Decision Records", str "1. Record architecture decisions",
  str "2. Adopt python3-pip-skeleton for project structure",
  str "3. Add device factory decorator with lazy connect support",
  str "Build the docs using sphinx", str "Contributing to the project",
  str "Run linting using pre-commit", str "Make a release", str "Moving code from another repo",
  str "Run the tests using pytest", str "Run static analysis using mypy", str "Update the tools",
  str "Developer Guide", str "Standards", str "Developer install", str "API Index", str "dodal",
  str "About the documentation", str "Creating a new beamline", str "User Guide", str "API",
  str "Getting Started", str "Installation"]), ("titleterms", obj [("1", num 1), ("2", num 2),
  ("3", num 3), ("The", num 21), ("about", num 17), ("ad", num 21), ("add", num 3),
  ("adopt", num 2), ("analysi", num 10), ("anoth", num 8), ("api", arr [num 15, num 20]),
  ("architectur", arr [num 0, num 1]), ("autobuild", num 4), ("beamlin", num 18),
  ("build", arr [num 4, num 14]), ("check", num 22), ("clone", num 14), ("code", arr [num 5, num 8,
  num 13]), ("commit", num 6), ("connect", arr [num 3, num 16]), ("consequ", arr [num 1, num 2,
  num 3]), ("context", arr [num 1, num 2, num 3]), ("contribut", num 5), ("coverag", num 5),
  ("creat", arr [num 18, num 22]), ("decis", arr [num 0, num 1, num 2, num 3]), ("decor", num 3),
  ("depend", num 14), ("develop", arr [num 5, num 12, num 14]), ("devic", arr [num 3, num 21]),
  ("discuss", num 5), ("doc", num 4), ("document", arr [num 13, num 16, num 17]),
  ("dodal", arr [num 16, num 20, num 21]), ("environ", num 22), ("explan", arr [num 12, num 19]),
  ("factori", num 3), ("fix", num 6), ("from", num 8), ("get", num 21), ("guid", arr [num 5, num 12,
  num 19]), ("how", arr [num 12, num 16, num 19]), ("i", num 16), ("index", num 15),
  ("instal", arr [num 14, num 22]), ("issu", arr [num 5, num 6]), ("lazi", num 3),
  ("librari", num 22), ("lint", num 6), ("log", num 21), ("make", num 7), ("move", num 8),
  ("mypi", num 10), ("new", num 18), ("pip", num 2), ("pre", num 6), ("project", arr [num 2,
  num 5]), ("purpos", num 21), ("pytest", num 9), ("python", num 22), ("python3", num 2),
  ("record", arr [num 0, num 1]), ("refer", arr [num 12, num 19]), ("releas", num 7),
  ("repo", num 8), ("repositori", num 14), ("run", arr [num 6, num 9, num 10]), ("see", num 14),
  ("skeleton", num 2), ("sphinx", num 4), ("standard", num 13), ("start", num 21),
  ("static", num 10), ("statu", arr [num 1, num 2, num 3]), ("structur", arr [num 2, num 16]),
  ("support", arr [num 3, num 6]), ("test", arr [num 9, num 14, num 16]), ("tool", num 11),
  ("tutori", arr [num 12, num 19]), ("updat", num 11), ("us", arr [num 4, num 6, num 9, num 10,
  num 21]), ("user", num 19), ("version", num 22), ("virtual", num 22), ("vscode", num 6),
  ("wa", num 14), ("what", num 14), ("your", num 22)])]

/-- The object passed to `Search.setIndex` in `fix_wrong_return_type/searchindex.js`. -/
def idx_fix_wrong_return_type : Json :=
  obj [("docnames", arr [str "developer/explanations/decisions",
  str "developer/explanations/decisions/0001-record-architecture-decisions",
  str "developer/how-to/build-docs", str "developer/how-to/contribute", str "developer/how-to/lint",
  str "developer/how-to/make-release", str "developer/how-to/move-code",
  str "developer/how-to/run-tests", str "developer/how-to/static-analysis",
  str "developer/how-to/update-tools", str "developer/index", str "developer/reference/standards",
  str "developer/tutorials/dev-install", str "genindex", str "index",
  str "user/explanations/docs-structure", str "user/how-to/run-container", str "user/index",
  str "user/reference/api", str "user/tutorials/get_started", str "user/tutorials/installation"]),
  ("filenames", arr [str "developer/explanations/decisions.rst",
  str "developer/explanations/decisions/0001-record-architecture-decisions.rst",
  str "developer/how-to/build-docs.rst", str "developer/how-to/contribute.rst",
  str "developer/how-to/lint.rst", str "developer/how-to/make-release.rst",
  str "developer/how-to/move-code.rst", str "developer/how-to/run-tests.rst",
  str "developer/how-to/static-analysis.rst", str "developer/how-to/update-tools.rst",
  str "developer/index.rst", str "developer/reference/standards.rst",
  str "developer/tutorials/dev-install.rst", str "genindex.rst", str "index.rst",
  str "user/explanations/docs-structure.rst", str "user/how-to/run-container.rst",
  str "user/index.rst", str "user/reference/api.rst", str "user/tutorials/get_started.rst",
  str "user/tutorials/installation.rst"]), ("titles", arr [str "Architectural Decision Records",
  str "1. Record architecture decisions", str "Build the docs using sphinx",
  str "Contributing to the project", str "Run linting using pre-commit", str "Make a release",
  str "Moving code from another repo", str "Run the tests using pytest",
  str "Run static analysis using mypy", str "Update the tools", str "Developer Guide",
  str "Standards", str "Developer install", str "API Index", str "dodal",
  str "About the documentation", str "Run in a container", str "User Guide", str "API",
  str "Getting Started", str "Installation"]), ("terms", obj [("we", arr [num 0, num 1, num 3,
  num 6]), ("major", num 0), ("adr", arr [num 0, num 1]), ("describ", arr [num 0, num 1]),
  ("michael", arr [num 0, num 1]), ("nygard", arr [num 0, num 1]), ("below", num 0),
  ("i", arr [num 0, num 3, num 4, num 6, num 7, num 8, num 9, num 10, num 11, num 15, num 17,
  num 18, num 19, num 20]), ("list", num 0), ("our", num 0), ("current", arr [num 0, num 9,
  num 20]), ("1", arr [num 0, num 11]), ("date", num 1), ("2022", num 1), ("02", num 1),
  ("18", num 1), ("accept", num 1), ("need", arr [num 1, num 15, num 20]), ("made", num 1),
  ("thi", arr [num 1, num 2, num 4, num 5, num 6, num 9, num 11, num 12, num 15, num 18, num 19,
  num 20]), ("project", arr [num 1, num 2, num 7, num 9, num 10]), ("us", arr [num 1, num 6, num 10,
  num 11, num 12, num 14, num 16, num 20]), ("see", arr [num 1, num 2, num 5]), ("", arr [num 1,
  num 6, num 19]), ("articl", num 1), ("link", arr [num 1, num 10, num 17]), ("abov", arr [num 1,
  num 4]), ("To", arr [num 1, num 5, num 9, num 12, num 16, num 19]), ("creat", arr [num 1, num 5,
  num 6]), ("new", arr [num 1, num 3, num 5, num 12, num 17]), ("copi", arr [num 1, num 6]),
  ("past", num 1), ("from", arr [num 1, num 2, num 10, num 11, num 16, num 17, num 19, num 20]),
  ("exist", arr [num 1, num 3, num 20]), ("ones", num 1), ("you", arr [num 2, num 3, num 4, num 5,
  num 6, num 7, num 8, num 12, num 19, num 20]), ("can", arr [num 2, num 3, num 4, num 6, num 7,
  num 8, num 12, num 19, num 20]), ("base", num 2), ("directori", arr [num 2, num 6, num 11,
  num 19]), ("run", arr [num 2, num 3, num 9, num 10, num 11, num 12, num 17]), ("tox", arr [num 2,
  num 4, num 7, num 8, num 12]), ("e", arr [num 2, num 4, num 6, num 7, num 8, num 12]),
  ("static", arr [num 2, num 10, num 11, num 12]), ("which", arr [num 2, num 9, num 12]),
  ("includ", arr [num 2, num 17]), ("api", arr [num 2, num 11, num 17]), ("pull", arr [num 2, num 3,
  num 6, num 9, num 16]), ("docstr", arr [num 2, num 11]), ("code", arr [num 2, num 4, num 10,
  num 14, num 19]), ("document", arr [num 2, num 3, num 10, num 17]), ("standard", arr [num 2,
  num 3, num 10]), ("The", arr [num 2, num 3, num 4, num 11, num 14, num 15, num 20]),
  ("built", arr [num 2, num 16]), ("html", num 2), ("open", arr [num 2, num 3, num 12]),
  ("local", arr [num 2, num 6, num 12, num 19]), ("web", num 2), ("brows", num 2),
  ("firefox", num 2), ("index", arr [num 2, num 17]), ("also", arr [num 2, num 3, num 7, num 10,
  num 17, num 19, num 20]), ("an", arr [num 2, num 4, num 6, num 9]), ("process", arr [num 2, num 6,
  num 11]), ("watch", num 2), ("your", arr [num 2, num 3, num 19]), ("chang", arr [num 2, num 3,
  num 4, num 6, num 9, num 14]), ("rebuild", num 2), ("whenev", num 2), ("reload", num 2),
  ("ani", arr [num 2, num 3, num 4, num 6, num 9, num 19, num 20]), ("browser", num 2),
  ("page", arr [num 2, num 5, num 11]), ("view", num 2), ("localhost", num 2), ("http", arr [num 2,
  num 5, num 6, num 9, num 14, num 20]), ("8000", num 2), ("If", arr [num 2, num 3, num 4, num 6,
  num 19, num 20]), ("ar", arr [num 2, num 3, num 6, num 11, num 15, num 16, num 19]),
  ("make", arr [num 2, num 3, num 6, num 10]), ("sourc", arr [num 2, num 6, num 8, num 12, num 14,
  num 20]), ("too", num 2), ("tell", arr [num 2, num 4]), ("src", arr [num 2, num 6]),
  ("most", arr [num 3, num 15]), ("welcom", num 3), ("all", arr [num 3, num 4, num 6]),
  ("request", arr [num 3, num 9]), ("handl", arr [num 3, num 4]), ("through", arr [num 3, num 12]),
  ("github", arr [num 3, num 5, num 6, num 9, num 12, num 14, num 16, num 20]),
  ("pleas", arr [num 3, num 5, num 11, num 19]), ("check", arr [num 3, num 4, num 6, num 7, num 8,
  num 9, num 11, num 12]), ("befor", num 3), ("file", arr [num 3, num 4, num 6, num 8, num 19]),
  ("one", arr [num 3, num 15]), ("have", arr [num 3, num 4, num 6, num 12, num 19]),
  ("great", num 3), ("idea", arr [num 3, num 6]), ("involv", num 3), ("big", num 3),
  ("ticket", num 3), ("want", arr [num 3, num 6]), ("sure", num 3), ("don", num 3),
  ("t", arr [num 3, num 15]), ("spend", num 3), ("time", arr [num 3, num 4]), ("someth", arr [num 3,
  num 9]), ("might", num 3), ("fit", arr [num 3, num 6]), ("scope", num 3), ("offer", num 3),
  ("place", num 3), ("ask", num 3), ("question", num 3), ("share", num 3), ("end", num 3),
  ("obviou", num 3), ("when", arr [num 3, num 12, num 19]), ("close", arr [num 3, num 9]),
  ("rais", num 3), ("instead", arr [num 3, num 16, num 19]), ("while", num 3), ("100", num 3),
  ("doe", num 3), ("librari", arr [num 3, num 17]), ("bug", num 3), ("free", num 3),
  ("significantli", num 3), ("reduc", num 3), ("number", arr [num 3, num 5, num 16, num 18]),
  ("easili", num 3), ("caught", num 3), ("remain", num 3), ("same", arr [num 3, num 5]),
  ("improv", arr [num 3, num 15]), ("contain", arr [num 3, num 11, num 12, num 14, num 17, num 19]),
  ("inform", arr [num 3, num 15]), ("set", arr [num 3, num 4, num 11, num 19]), ("up", arr [num 3,
  num 6, num 10, num 19]), ("environ", arr [num 3, num 12]), ("test", arr [num 3, num 6, num 10]),
  ("what", arr [num 3, num 19]), ("should", arr [num 3, num 20]), ("follow", arr [num 3, num 5,
  num 6, num 11, num 12, num 19]), ("black", arr [num 4, num 11]), ("flake8", arr [num 4, num 11]),
  ("isort", arr [num 4, num 11]), ("under", arr [num 4, num 12]), ("command", num 4), ("Or", num 4),
  ("instal", arr [num 4, num 6, num 10, num 14, num 16, num 17]), ("hook", num 4), ("each", num 4),
  ("do", arr [num 4, num 6, num 8, num 19]), ("git", arr [num 4, num 6, num 9, num 12, num 20]),
  ("just", num 4), ("report", arr [num 4, num 7]), ("reformat", num 4), ("repositori", arr [num 4,
  num 6, num 11]), ("likewis", num 4), ("get", arr [num 4, num 5, num 10, num 12, num 16, num 17]),
  ("those", num 4), ("manual", num 4), ("json", num 4), ("formatt", num 4), ("well", num 4),
  ("save", arr [num 4, num 19]), ("highlight", arr [num 4, num 8]), ("editor", num 4),
  ("window", num 4), ("checklist", num 5), ("choos", arr [num 5, num 12]), ("pep440", num 5),
  ("compliant", num 5), ("pep", num 5), ("python", arr [num 5, num 6, num 9, num 12]),
  ("org", num 5), ("0440", num 5), ("go", arr [num 5, num 19]), ("draft", num 5),
  ("click", arr [num 5, num 12]), ("tag", num 5), ("suppli", num 5), ("chose", num 5),
  ("gener", arr [num 5, num 6, num 9]), ("note", arr [num 5, num 6, num 17]), ("review", num 5),
  ("edit", num 5), ("titl", arr [num 5, num 11]), ("publish", num 5), ("push", arr [num 5, num 6,
  num 19]), ("main", arr [num 5, num 6, num 16]), ("branch", arr [num 5, num 6]), ("ha", arr [num 5,
  num 9, num 20]), ("effect", num 5), ("except", num 5), ("option", num 5), ("In", num 6),
  ("write", arr [num 6, num 15]), ("other", arr [num 6, num 14, num 19]), ("dl", arr [num 6, num 14,
  num 19, num 20]), ("mai", num 6), ("come", num 6), ("realis", num 6), ("more", arr [num 6, num 9,
  num 15, num 17, num 19]), ("sens", num 6), ("dodal", arr [num 6, num 12, num 16, num 20]),
  ("It", arr [num 6, num 7, num 8, num 20]), ("good", arr [num 6, num 15]), ("keep", arr [num 6,
  num 9]), ("histori", num 6), ("devic", arr [num 6, num 14]), ("diamondlightsourc", arr [num 6,
  num 9, num 12, num 14, num 16, num 20]), ("artemi", num 6), ("exampl", arr [num 6, num 11]),
  ("clone", num 6), ("codebas", num 6), ("com", arr [num 6, num 9, num 12, num 20]),
  ("clone_for_histori", num 6), ("cd", arr [num 6, num 12]), ("remov", num 6), ("remot", num 6),
  ("avoid", num 6), ("mistaken", num 6), ("rm", num 6), ("origin", num 6), ("filter", num 6),
  ("out", num 6), ("onli", arr [num 6, num 19]), ("pip", arr [num 6, num 9, num 12, num 14,
  num 20]), ("path", arr [num 6, num 20]), ("f", num 6), ("clean", num 6), ("everyth", num 6),
  ("reset", num 6), ("hard", num 6), ("gc", num 6), ("aggress", num 6), ("prune", num 6),
  ("fd", num 6), ("add", num 6), ("everi", num 6), ("commit", arr [num 6, num 10, num 11, num 12]),
  ("messag", arr [num 6, num 19]), ("mention", num 6), ("been", arr [num 6, num 20]),
  ("msg", num 6), ("sed", num 6), ("came", num 6), ("issu", arr [num 6, num 8]),
  ("refer", arr [num 6, num 15, num 18]), ("old", num 6), ("modifi", num 6), ("point", num 6),
  ("explicit", num 6), ("assum", num 6), ("123", num 6), ("notat", num 6), ("ever", num 6),
  ("own", num 6), ("0", num 6), ("9", num 6), ("g", num 6), ("prepar", num 6), ("correct", num 6),
  ("structur", arr [num 6, num 9]), ("mkdir", num 6), ("p", arr [num 6, num 12]), ("mv", num 6),
  ("At", num 6), ("log", num 6), ("ensur", num 6), ("look", arr [num 6, num 7]), ("mostli", num 6),
  ("m", arr [num 6, num 12, num 20]), ("import", arr [num 6, num 11, num 19]),
  ("differ", arr [num 6, num 15]), ("folder", num 6), ("now", arr [num 6, num 12, num 19, num 20]),
  ("safe", num 6), ("checkout", num 6), ("b", num 6), ("add_code_from_artemi", num 6),
  ("old_repo", num 6), ("rebas", arr [num 6, num 9]), ("allow", num 6), ("unrel", num 6),
  ("where", arr [num 6, num 8, num 9]), ("re", num 6), ("tidi", num 6), ("so", arr [num 6, num 12,
  num 19, num 20]), ("case", num 6), ("had", num 6), ("some", arr [num 6, num 19]),
  ("depend", arr [num 6, num 16, num 20]), ("done", arr [num 7, num 8]), ("find", num 7),
  ("function", arr [num 7, num 11, num 15, num 19]), ("like", arr [num 7, num 19]),
  ("them", arr [num 7, num 8, num 19]), ("error", num 7), ("coverag", num 7),
  ("commandlin", arr [num 7, num 20]), ("cov", num 7), ("xml", num 7), ("type", arr [num 8, num 11,
  num 12, num 20]), ("definit", num 8), ("without", num 8), ("potenti", num 8), ("match", num 8),
  ("modul", num 9), ("merg", num 9), ("python3", arr [num 9, num 12, num 20]), ("skeleton", num 9),
  ("provid", arr [num 9, num 19]), ("mean", num 9), ("techniqu", num 9), ("sync", num 9),
  ("between", num 9), ("multipl", num 9), ("latest", num 9), ("version", arr [num 9, num 16,
  num 18]), ("fals", num 9), ("conflict", num 9), ("indic", num 9), ("area", num 9),
  ("setup", arr [num 9, num 12]), ("detail", num 9), ("split", arr [num 10, num 14, num 17]),
  ("four", arr [num 10, num 15, num 17]), ("categori", arr [num 10, num 17]),
  ("access", arr [num 10, num 17, num 19]), ("side", arr [num 10, num 17]), ("bar", arr [num 10,
  num 17]), ("contribut", arr [num 10, num 14]), ("move", num 10), ("anoth", num 10),
  ("repo", num 10), ("build", arr [num 10, num 11]), ("doc", arr [num 10, num 11, num 12]),
  ("sphinx", arr [num 10, num 11, num 12]), ("pytest", arr [num 10, num 12]),
  ("analysi", arr [num 10, num 11, num 12]), ("mypi", arr [num 10, num 11, num 12]),
  ("lint", arr [num 10, num 11, num 12]), ("pre", arr [num 10, num 11, num 12, num 16]),
  ("updat", num 10), ("tool", arr [num 10, num 11]), ("releas", arr [num 10, num 14, num 16, num 17,
  num 20]), ("practic", arr [num 10, num 17]), ("step", arr [num 10, num 12, num 17]),
  ("dai", num 10), ("dev", arr [num 10, num 12]), ("task", num 10), ("architectur", num 10),
  ("decis", num 10), ("record", num 10), ("why", arr [num 10, num 17]), ("technic", arr [num 10,
  num 15, num 17]), ("materi", arr [num 10, num 17]), ("defin", num 11), ("conform", num 11),
  ("format", num 11), ("style", num 11), ("order", arr [num 11, num 15]), ("how", arr [num 11,
  num 15]), ("guid", arr [num 11, num 14, num 15]), ("napoleon", num 11), ("extens", num 11),
  ("As", num 11), ("googl", num 11), ("consid", num 11), ("hint", num 11), ("signatur", num 11),
  ("For", num 11), ("def", num 11), ("func", num 11), ("arg1", num 11), ("str", arr [num 11,
  num 18]), ("arg2", num 11), ("int", num 11), ("bool", num 11), ("summari", num 11),
  ("line", num 11), ("extend", num 11), ("descript", num 11), ("arg", num 11), ("return", num 11),
  ("valu", num 11), ("true", num 11), ("extract", num 11), ("underlin", num 11),
  ("convent", num 11), ("headl", num 11), ("head", num 11), ("2", arr [num 11, num 14]),
  ("3", arr [num 11, num 12, num 20]), ("These", num 12), ("instruct", num 12), ("take", num 12),
  ("minim", num 12), ("requir", arr [num 12, num 15, num 20]), ("first", num 12),
  ("either", num 12), ("host", num 12), ("machin", num 12), ("venv", arr [num 12, num 20]),
  ("8", arr [num 12, num 20]), ("later", arr [num 12, num 20]), ("vscode", num 12),
  ("virtualenv", num 12), ("bin", arr [num 12, num 20]), ("activ", arr [num 12, num 20]),
  ("devcontain", num 12), ("reopen", num 12), ("prompt", num 12), ("termin", arr [num 12, num 20]),
  ("graph", num 12), ("packag", num 12), ("tree", num 12), ("pipdeptre", num 12),
  ("parallel", num 12), ("ophyd", arr [num 14, num 19]), ("util", num 14), ("could", num 14),
  ("across", arr [num 14, num 19]), ("beamlin", arr [num 14, num 19]), ("pypi", num 14),
  ("io", arr [num 14, num 16]), ("section", num 14), ("user", num 14), ("develop", num 14),
  ("back", num 14), ("grand", num 15), ("unifi", num 15), ("theori", num 15), ("david", num 15),
  ("la", num 15), ("There", num 15), ("secret", num 15), ("understood", num 15),
  ("softwar", arr [num 15, num 20]), ("isn", num 15), ("thing", num 15), ("call", num 15),
  ("thei", num 15), ("tutori", num 15), ("explan", num 15), ("repres", num 15), ("purpos", num 15),
  ("approach", num 15), ("creation", num 15), ("understand", num 15), ("implic", num 15),
  ("help", arr [num 15, num 19]), ("often", num 15), ("immens", num 15), ("topic", num 15),
  ("its", arr [num 16, num 20]), ("alreadi", num 16), ("avail", num 16), ("registri", num 16),
  ("docker", num 16), ("ghcr", num 16), ("start", num 17), ("typic", num 17), ("usag", num 17),
  ("here", num 17), ("experienc", num 17), ("about", num 17), ("work", arr [num 17, num 19]),
  ("wai", num 17), ("intern", num 18), ("__version__", num 18), ("calcul", num 18),
  ("pypa", num 18), ("setuptools_scm", num 18), ("blueski", num 19), ("plan", num 19),
  ("commonli", num 19), ("mani", num 19), ("think", num 19), ("would", num 19), ("cover", num 19),
  ("anyth", num 19), ("hardwar", num 19), ("i03", num 19), ("dcm", num 19), ("workstat", num 19),
  ("give", num 19), ("immedi", num 19), ("real", num 19), ("default", num 19), ("connect", num 19),
  ("simul", num 19), ("instrument", num 19), ("helper", num 19), ("set_up_logging_handl", num 19),
  ("logger", num 19), ("occur", num 19), ("increas", num 19), ("amount", num 19), ("debug", num 19),
  ("explicitli", num 19), ("info", num 19), ("am", num 19), ("dls_sw", num 19), ("graylog", num 19),
  ("next", num 19), ("instanc", num 19), ("exlus", num 19), ("recommend", num 20),
  ("interfer", num 20), ("featur", num 20), ("interfac", num 20)]),
  ("objects", obj [("", arr [arr [num 18, num 0, num 0, str "-", str "dodal"]]),
  ("dodal.dodal", arr [arr [num 18, num 1, num 1, str "", str "__version__"]])]),
  ("objtypes", obj [("0", str "py:module"), ("1", str "py:data")]),
  ("objnames", obj [("0", arr [str "py", str "module", str "Python module"]), ("1", arr [str "py",
  str "data", str "Python data"])]), ("titleterms", obj [("architectur", arr [num 0, num 1]),
  ("decis", arr [num 0, num 1]), ("record", arr [num 0, num 1]), ("1", num 1), ("statu", num 1),
  ("context", num 1), ("consequ", num 1), ("build", arr [num 2, num 12]), ("doc", num 2),
  ("us", arr [num 2, num 4, num 7, num 8, num 19]), ("sphinx", num 2), ("autobuild", num 2),
  ("contribut", num 3), ("project", num 3), ("issu", arr [num 3, num 4]), ("discuss", num 3),
  ("code", arr [num 3, num 6, num 11]), ("coverag", num 3), ("develop", arr [num 3, num 10,
  num 12]), ("guid", arr [num 3, num 10, num 17]), ("run", arr [num 4, num 7, num 8, num 16]),
  ("lint", num 4), ("pre", num 4), ("commit", num 4), ("fix", num 4), ("vscode", num 4),
  ("support", num 4), ("make", num 5), ("releas", num 5), ("move", num 6), ("from", num 6),
  ("anoth", num 6), ("repo", num 6), ("test", arr [num 7, num 12]), ("pytest", num 7),
  ("static", num 8), ("analysi", num 8), ("mypi", num 8), ("updat", num 9), ("tool", num 9),
  ("tutori", arr [num 10, num 17]), ("how", arr [num 10, num 14, num 17]), ("explan", arr [num 10,
  num 17]), ("refer", arr [num 10, num 17]), ("standard", num 11), ("document", arr [num 11, num 14,
  num 15]), ("instal", arr [num 12, num 20]), ("clone", num 12), ("repositori", num 12),
  ("depend", num 12), ("see", num 12), ("what", num 12), ("wa", num 12), ("api", arr [num 13,
  num 18]), ("index", num 13), ("dodal", arr [num 14, num 18, num 19]), ("i", num 14),
  ("structur", num 14), ("about", num 15), ("contain", num 16), ("start", arr [num 16, num 19]),
  ("user", num 17), ("get", num 19), ("The", num 19), ("purpos", num 19), ("devic", num 19),
  ("ad", num 19), ("log", num 19), ("check", num 20), ("your", num 20), ("version", num 20),
  ("python", num 20), ("creat", num 20), ("virtual", num 20), ("environ", num 20),
  ("librari", num 20)]), ("envversion", obj [("sphinx.domains.c", num 3),
  ("sphinx.domains.changeset", num 1), ("sphinx.domains.citation", num 1),
  ("sphinx.domains.cpp", num 9), ("sphinx.domains.index", num 1),
  ("sphinx.domains.javascript", num 3), ("sphinx.domains.math", num 2),
  ("sphinx.domains.python", num 4), ("sphinx.domains.rst", num 2), ("sphinx.domains.std", num 2),
  ("sphinx.ext.intersphinx", num 1), ("sphinx.ext.viewcode", num 1), ("sphinx", num 58)]),
  ("alltitles", obj [("Architectural Decision Records", arr [arr [num 0,
  str "architectural-decision-records"]]), ("1. Record architecture decisions", arr [arr [num 1,
  str "record-architecture-decisions"]]), ("Status", arr [arr [num 1, str "status"]]),
  ("Context", arr [arr [num 1, str "context"]]), ("Decision", arr [arr [num 1, str "decision"]]),
  ("Consequences", arr [arr [num 1, str "consequences"]]),
  ("Build the docs using sphinx", arr [arr [num 2, str "build-the-docs-using-sphinx"]]),
  ("Autobuild", arr [arr [num 2, str "autobuild"]]),
  ("Contributing to the project", arr [arr [num 3, str "contributing-to-the-project"]]),
  ("Issue or Discussion?", arr [arr [num 3, str "issue-or-discussion"]]),
  ("Code coverage", arr [arr [num 3, str "code-coverage"]]), ("Developer guide", arr [arr [num 3,
  str "developer-guide"]]), ("Run linting using pre-commit", arr [arr [num 4,
  str "run-linting-using-pre-commit"]]), ("Running pre-commit", arr [arr [num 4,
  str "running-pre-commit"]]), ("Fixing issues", arr [arr [num 4, str "fixing-issues"]]),
  ("VSCode support", arr [arr [num 4, str "vscode-support"]]), ("Make a release", arr [arr [num 5,
  str "make-a-release"]]), ("Moving code from another repo", arr [arr [num 6,
  str "moving-code-from-another-repo"]]), ("Run the tests using pytest", arr [arr [num 7,
  str "run-the-tests-using-pytest"]]), ("Run static analysis using mypy", arr [arr [num 8,
  str "run-static-analysis-using-mypy"]]), ("Update the tools", arr [arr [num 9,
  str "update-the-tools"]]), ("Developer Guide", arr [arr [num 10, str "developer-guide"]]),
  ("Tutorials", arr [arr [num 10, null], arr [num 17, null]]), ("How-to Guides", arr [arr [num 10,
  null], arr [num 17, null]]), ("Explanations", arr [arr [num 10, null], arr [num 17, null]]),
  ("Reference", arr [arr [num 10, null], arr [num 17, null]]), ("Standards", arr [arr [num 11,
  str "standards"]]), ("Code Standards", arr [arr [num 11, str "code-standards"]]),
  ("Documentation Standards", arr [arr [num 11, str "documentation-standards"]]),
  ("Developer install", arr [arr [num 12, str "developer-install"]]),
  ("Clone the repository", arr [arr [num 12, str "clone-the-repository"]]),
  ("Install dependencies", arr [arr [num 12, str "install-dependencies"]]),
  ("See what was installed", arr [arr [num 12, str "see-what-was-installed"]]),
  ("Build and test", arr [arr [num 12, str "build-and-test"]]), ("API Index", arr [arr [num 13,
  str "api-index"]]), ("dodal", arr [arr [num 14, str "dodal"], arr [num 18, str "dodal"]]),
  ("How the documentation is structured", arr [arr [num 14,
  str "how-the-documentation-is-structured"]]), ("About the documentation", arr [arr [num 15,
  str "about-the-documentation"]]), ("Run in a container", arr [arr [num 16,
  str "run-in-a-container"]]), ("Starting the container", arr [arr [num 16,
  str "starting-the-container"]]), ("User Guide", arr [arr [num 17, str "user-guide"]]),
  ("API", arr [arr [num 18, str "module-dodal"]]), ("Getting Started", arr [arr [num 19,
  str "getting-started"]]), ("The Purpose of Dodal", arr [arr [num 19,
  str "the-purpose-of-dodal"]]), ("Using Devices", arr [arr [num 19, str "using-devices"]]),
  ("Adding Logging", arr [arr [num 19, str "adding-logging"]]), ("Installation", arr [arr [num 20,
  str "installation"]]), ("Check your version of python", arr [arr [num 20,
  str "check-your-version-of-python"]]), ("Create a virtual environment", arr [arr [num 20,
  str "create-a-virtual-environment"]]), ("Installing the library", arr [arr [num 20,
  str "installing-the-library"]])]), ("indexentries", obj [("dodal", arr [arr [num 18,
  str "module-dodal"]]), ("dodal.__version__ (in module dodal)", arr [arr [num 18,
  str "dodal.dodal.__version__"]]), ("module", arr [arr [num 18, str "module-dodal"]])])]


/-! ## Vocabulary of the properties -/

/-- The top-level keys the search front-end expects. -/
def requiredKeys : List String :=
  ["alltitles", "docnames", "filenames", "terms", "titleterms", "objects"]

/-- The top-level keys named by the data-model sentence of the specification. -/
def entityKeys : List String :=
  ["alltitles", "docnames", "filenames", "terms", "objects", "indexentries"]

/-- The top-level keys that occur in the four files. -/
def topLevelKeys : List String :=
  ["alltitles", "docnames", "envversion", "filenames", "indexentries", "objects", "objnames",
   "objtypes", "terms", "titles", "titleterms"]

/-- Every target listed under every key of `indexentries` has `n` fields. -/
def TargetsHaveArity (p : Json) (n : Nat) : Prop :=
  ∃ ms ∈ p.table "indexentries", ∀ kv ∈ ms, ∃ es ∈ kv.2.arr?, ∀ e ∈ es,
    ∃ fs ∈ e.arr?, fs.length = n

instance (p : Json) (n : Nat) : Decidable (TargetsHaveArity p n) :=
  inferInstanceAs (Decidable (∃ ms ∈ p.table "indexentries", ∀ kv ∈ ms, ∃ es ∈ kv.2.arr?,
    ∀ e ∈ es, ∃ fs ∈ e.arr?, fs.length = n))

/-- Some target listed under some key of `indexentries` has `n` fields. -/
def SomeTargetHasArity (p : Json) (n : Nat) : Prop :=
  ∃ ms ∈ p.table "indexentries", ∃ kv ∈ ms, ∃ es ∈ kv.2.arr?, ∃ e ∈ es,
    ∃ fs ∈ e.arr?, fs.length = n

instance (p : Json) (n : Nat) : Decidable (SomeTargetHasArity p n) :=
  inferInstanceAs (Decidable (∃ ms ∈ p.table "indexentries", ∃ kv ∈ ms, ∃ es ∈ kv.2.arr?,
    ∃ e ∈ es, ∃ fs ∈ e.arr?, fs.length = n))

/-- The number of fields of the targets of `indexentries` in each file. -/
def targetArities : List (String × Nat) :=
  [(src_1_29_4, 3), (src_341_new_j20_setup, 3), (src_483_make_device_factory, 3),
   (src_fix_wrong_return_type, 2)]

/-- All elements of a list as strings, when every one of them is a string. -/
def strs? : List Json → Option (List String)
  | [] => some []
  | .str s :: r => (strs? r).map fun ss => s :: ss
  | _ :: _ => none

/-- The entries of a table whose values are arrays (`alltitles`, `objects`, `indexentries`),
each with the key it is listed under, in the order written. -/
def tableEntries : List (String × Json) → Option (List (String × Json))
  | [] => some []
  | (k, .arr es) :: r => (tableEntries r).map fun t => es.map (fun e => (k, e)) ++ t
  | _ :: _ => none

/-- All values of a list of optional values, when none is missing. -/
def collect? {α : Type} : List (Option α) → Option (List α)
  | [] => some []
  | some a :: r => (collect? r).map fun as => a :: as
  | none :: _ => none

/-- The target of an object of the inventory, in the words of the specification: an entry
`[doc, type, priority, anchor, name]` listed under the prefix `pfx` has the full name `name`
when `pfx` is empty and `pfx ++ "." ++ name` otherwise; it resolves to
`(doc, "module-" ++ fullname)` when its anchor field is `"-"` and to `(doc, fullname)` when
its anchor field is `""`. -/
def objectTarget (pfx : String) : Json → Option (Nat × String)
  | .arr [.num d, _, _, .str a, .str name] =>
    let fullname := if pfx = "" then name else pfx ++ "." ++ name
    if a = "-" then some (d, "module-" ++ fullname)
    else if a = "" then some (d, fullname)
    else none
  | _ => none

/-- The `(document, anchor)` pair of a target of `indexentries`: its first two fields. -/
def entryTarget : Json → Option (Nat × String)
  | .arr (.num d :: .str a :: _) => some (d, a)
  | _ => none

/-- The targets that the objects of the inventory resolve to. -/
def objectTargets (p : Json) : Option (List (Nat × String)) :=
  ((p.table "objects").bind tableEntries).bind fun kes =>
    collect? (kes.map fun ke => objectTarget ke.1 ke.2)

/-- The `(document, anchor)` targets that occur in `indexentries`. -/
def indexTargets (p : Json) : Option (List (Nat × String)) :=
  ((p.table "indexentries").bind tableEntries).bind fun kes =>
    collect? (kes.map fun ke => entryTarget ke.2)

/-- The object-type field of an entry of `objects`: its second field. -/
def entryType : Json → Option Nat
  | .arr (_ :: .num t :: _) => some t
  | _ => none

/-- The `(document, anchor)` pairs of the entries `[doc, anchor]` of `alltitles` whose anchor
is a string; an entry `[doc, null]` has no anchor and gives no pair. -/
def anchorsOf : List (String × Json) → Option (List (Nat × String))
  | [] => some []
  | (_, .arr [.num _, .null]) :: r => anchorsOf r
  | (_, .arr [.num d, .str a]) :: r => (anchorsOf r).map fun t => (d, a) :: t
  | _ :: _ => none

/-- The `(document, anchor)` pairs of all entries of `alltitles`, one per entry with a
non-null anchor. -/
def titleAnchors (p : Json) : Option (List (Nat × String)) :=
  ((p.table "alltitles").bind tableEntries).bind anchorsOf

/-- Strict lexicographic order on lists of character codes: the first differing code
decides, and a proper initial segment comes first. -/
def codesLt : List Nat → List Nat → Bool
  | [], [] => false
  | [], _ :: _ => true
  | _ :: _, [] => false
  | a :: as, b :: bs => if a < b then true else if a = b then codesLt as bs else false

/-- Strict lexicographic order on strings by character code. -/
def strLt (s t : String) : Bool :=
  codesLt (s.data.map Char.toNat) (t.data.map Char.toNat)

/-- Two postings share no document. -/
def DisjointPostings (v w : Json) : Prop :=
  ∃ a ∈ postingDocs v, ∃ b ∈ postingDocs w, ∀ d ∈ a, d ∉ b

instance (v w : Json) : Decidable (DisjointPostings v w) :=
  inferInstanceAs (Decidable (∃ a ∈ postingDocs v, ∃ b ∈ postingDocs w, ∀ d ∈ a, d ∉ b))

/-- The string `t` is the first field of the name record `nm` (the domain), a colon, and its
second field (the object type), as in `py:module` for `["py", "module", "Python module"]`. -/
def IsDomainColonType (t : String) (nm : List Json) : Prop :=
  ∃ d ∈ (nm[0]?).bind Json.str?, ∃ ty ∈ (nm[1]?).bind Json.str?, t = d ++ ":" ++ ty

instance (t : String) (nm : List Json) : Decidable (IsDomainColonType t nm) :=
  inferInstanceAs (Decidable
    (∃ d ∈ (nm[0]?).bind Json.str?, ∃ ty ∈ (nm[1]?).bind Json.str?, t = d ++ ":" ++ ty))

/-- Two tables have the same keys. -/
def SameKeys (a b : List (String × Json)) : Prop :=
  (∀ k ∈ a.map Prod.fst, k ∈ b.map Prod.fst) ∧ (∀ k ∈ b.map Prod.fst, k ∈ a.map Prod.fst)

instance (a b : List (String × Json)) : Decidable (SameKeys a b) :=
  inferInstanceAs (Decidable
    ((∀ k ∈ a.map Prod.fst, k ∈ b.map Prod.fst) ∧ (∀ k ∈ b.map Prod.fst, k ∈ a.map Prod.fst)))

/-- The object-type field of every entry of the table `os` (the value of `objects`), written
in decimal, is a key of the table `ot`. -/
def TypesResolve (os ot : List (String × Json)) : Prop :=
  ∀ kv ∈ os, ∃ es ∈ kv.2.arr?, ∀ e ∈ es, ∃ ty ∈ entryType e, toString ty ∈ ot.map Prod.fst

instance (os ot : List (String × Json)) : Decidable (TypesResolve os ot) :=
  inferInstanceAs (Decidable
    (∀ kv ∈ os, ∃ es ∈ kv.2.arr?, ∀ e ∈ es, ∃ ty ∈ entryType e, toString ty ∈ ot.map Prod.fst))

/-! ## A fast test for the disjointness of body and title postings

Comparing every key of `terms` with every key of `titleterms` as strings is slow to
evaluate.  The test below compares numbers instead: every key is turned into a number once,
and a key of `terms` is compared with the keys of `titleterms` only when its slot is marked
in a bit mask of the slots of those keys.  `disjoint_of_check` shows that the test implies
the property stated on the keys themselves. -/

/-- A number computed from the characters of a key; equal keys have equal numbers. -/
def keyCode (s : String) : Nat :=
  s.data.foldl (fun n c => n * 1114112 + (c.toNat + 1)) 0

/-- The slot of a key in the bit mask. -/
def keySlot (s : String) : Nat := keyCode s % 4093

/-- The bit mask with the slot of every key of a table set. -/
def slotMask (tts : List (String × Json)) : Nat :=
  tts.foldl (fun m kw => m ||| (1 <<< keySlot kw.1)) 0

/-- The posting `v`, listed under a key with number `c`, shares no document with any
posting of `ct` listed under the same number. -/
def disjointAgainst (ct : List (Nat × Json)) (c : Nat) (v : Json) : Bool :=
  ct.all fun b => !(Nat.beq c b.1) || decide (DisjointPostings v b.2)

/-- The test on two tables: every posting of `ts` whose key may occur in `tts` is disjoint
from the postings of `tts` under a key with the same number. -/
def postingsDisjointCheck (ts tts : List (String × Json)) : Bool :=
  ts.all fun kv =>
    !(Nat.testBit (slotMask tts) (keySlot kv.1)) ||
      disjointAgainst (tts.map fun kw => (keyCode kw.1, kw.2)) (keyCode kv.1) kv.2

/-- The test on a payload, for its tables `terms` and `titleterms`. -/
def termsDisjointCheck (p : Json) : Bool :=
  match p.table "terms", p.table "titleterms" with
  | some ts, some tts => postingsDisjointCheck ts tts
  | _, _ => false

/-! ## Lemmas on equality and on reading -/

mutual
/-- The equality test on values is sound. -/
theorem Json.eq_of_beq : ∀ (a b : Json), Json.beq a b = true → a = b
  | .null, .null, _ => rfl
  | .bool a, .bool b, h => by simp [Json.beq] at h; rw [h]
  | .num a, .num b, h => by simp [Json.beq] at h; rw [h]
  | .str a, .str b, h => by simp [Json.beq] at h; rw [h]
  | .arr a, .arr b, h => by
      simp only [Json.beq] at h; rw [Json.eqList_of_beq a b h]
  | .obj a, .obj b, h => by
      simp only [Json.beq] at h; rw [Json.eqMembers_of_beq a b h]
  | .null, .bool _, h | .null, .num _, h | .null, .str _, h | .null, .arr _, h
  | .null, .obj _, h => by simp [Json.beq] at h
  | .bool _, .null, h | .bool _, .num _, h | .bool _, .str _, h | .bool _, .arr _, h
  | .bool _, .obj _, h => by simp [Json.beq] at h
  | .num _, .null, h | .num _, .bool _, h | .num _, .str _, h | .num _, .arr _, h
  | .num _, .obj _, h => by simp [Json.beq] at h
  | .str _, .null, h | .str _, .bool _, h | .str _, .num _, h | .str _, .arr _, h
  | .str _, .obj _, h => by simp [Json.beq] at h
  | .arr _, .null, h | .arr _, .bool _, h | .arr _, .num _, h | .arr _, .str _, h
  | .arr _, .obj _, h => by simp [Json.beq] at h
  | .obj _, .null, h | .obj _, .bool _, h | .obj _, .num _, h | .obj _, .str _, h
  | .obj _, .arr _, h => by simp [Json.beq] at h
/-- The equality test on lists of values is sound. -/
theorem Json.eqList_of_beq : ∀ (a b : List Json), Json.beqList a b = true → a = b
  | [], [], _ => rfl
  | x :: xs, y :: ys, h => by
      simp only [Json.beqList, Bool.and_eq_true] at h
      rw [Json.eq_of_beq x y h.1, Json.eqList_of_beq xs ys h.2]
  | [], _ :: _, h => by simp [Json.beqList] at h
  | _ :: _, [], h => by simp [Json.beqList] at h
/-- The equality test on member lists is sound. -/
theorem Json.eqMembers_of_beq :
    ∀ (a b : List (String × Json)), Json.beqMembers a b = true → a = b
  | [], [], _ => rfl
  | (k, x) :: xs, (l, y) :: ys, h => by
      simp only [Json.beqMembers, Bool.and_eq_true, beq_iff_eq] at h
      rw [h.1.1, Json.eq_of_beq x y h.1.2, Json.eqMembers_of_beq xs ys h.2]
  | [], _ :: _, h => by simp [Json.beqMembers] at h
  | _ :: _, [], h => by simp [Json.beqMembers] at h
end

/-- A read that passes the equality test against `b` returned `b`. -/
theorem Json.eq_some_of_optBeq {o : Option Json} {b : Json}
    (h : Json.optBeq o b = true) : o = some b := by
  cases o with
  | none => simp [Json.optBeq] at h
  | some a => rw [Json.eq_of_beq a b (by simpa [Json.optBeq] using h)]

/-- Reading `1.29.4/searchindex.js` gives `idx_1_29_4`. -/
theorem parse_1_29_4 : parseIndex src_1_29_4 = some idx_1_29_4 :=
  Json.eq_some_of_optBeq (by decide!)

/-- Reading `341-new-j20-setup/searchindex.js` gives `idx_341_new_j20_setup`. -/
theorem parse_341_new_j20_setup :
    parseIndex src_341_new_j20_setup = some idx_341_new_j20_setup :=
  Json.eq_some_of_optBeq (by decide!)

/-- Reading the `483-make-device_factory-...` file gives `idx_483_make_device_factory`. -/
theorem parse_483_make_device_factory :
    parseIndex src_483_make_device_factory = some idx_483_make_device_factory :=
  Json.eq_some_of_optBeq (by decide!)

/-- Reading `fix_wrong_return_type/searchindex.js` gives `idx_fix_wrong_return_type`. -/
theorem parse_fix_wrong_return_type :
    parseIndex src_fix_wrong_return_type = some idx_fix_wrong_return_type :=
  Json.eq_some_of_optBeq (by decide!)

/-- A property shown on the four payloads holds of what every file passes to
`Search.setIndex`. -/
theorem forall_sources {P : Json → Prop} (h1 : P idx_1_29_4) (h2 : P idx_341_new_j20_setup)
    (h3 : P idx_483_make_device_factory) (h4 : P idx_fix_wrong_return_type) :
    ∀ s ∈ sources, ∃ p ∈ parseIndex s, P p := by
  intro s hs
  simp only [sources, List.mem_cons, List.mem_singleton, List.not_mem_nil, or_false] at hs
  rcases hs with rfl | rfl | rfl | rfl
  · exact ⟨_, parse_1_29_4, h1⟩
  · exact ⟨_, parse_341_new_j20_setup, h2⟩
  · exact ⟨_, parse_483_make_device_factory, h3⟩
  · exact ⟨_, parse_fix_wrong_return_type, h4⟩

/-- A bit that is set stays set when further slots are marked. -/
theorem testBit_foldl_of_testBit (l : List (String × Json)) (m i : Nat)
    (h : m.testBit i = true) :
    (l.foldl (fun m kw => m ||| (1 <<< keySlot kw.1)) m).testBit i = true := by
  induction l generalizing m with
  | nil => simpa using h
  | cons a l ih =>
    simp only [List.foldl_cons]
    apply ih
    simp [Nat.testBit_or, h]

/-- The slot of every key of a table is marked in the mask built from the table. -/
theorem testBit_foldl_of_mem (l : List (String × Json)) (m : Nat) (kw : String × Json)
    (h : kw ∈ l) :
    (l.foldl (fun m kw => m ||| (1 <<< keySlot kw.1)) m).testBit (keySlot kw.1) = true := by
  induction l generalizing m with
  | nil => simp at h
  | cons a l ih =>
    simp only [List.foldl_cons]
    rcases List.mem_cons.1 h with rfl | h'
    · apply testBit_foldl_of_testBit
      simp [Nat.testBit_or, Nat.one_shiftLeft, Nat.testBit_two_pow_self]
    · exact ih _ h'

/-- The fast test implies the property on the keys: postings listed under the same key in
the two tables share no document. -/
theorem disjoint_of_check {ts tts : List (String × Json)}
    (h : postingsDisjointCheck ts tts = true) :
    ∀ kv ∈ ts, ∀ kw ∈ tts, kv.1 = kw.1 → DisjointPostings kv.2 kw.2 := by
  intro kv hkv kw hkw heq
  have h1 := List.all_eq_true.1 h kv hkv
  have hbit : Nat.testBit (slotMask tts) (keySlot kv.1) = true := by
    rw [heq]
    exact testBit_foldl_of_mem tts 0 kw hkw
  rw [hbit] at h1
  simp only [Bool.not_true, Bool.false_or] at h1
  have h2 := List.all_eq_true.1 h1 (keyCode kw.1, kw.2)
    (List.mem_map.2 ⟨kw, hkw, rfl⟩)
  have hc : Nat.beq (keyCode kv.1) (keyCode kw.1) = true := by
    rw [heq]
    exact Nat.beq_refl _
  simp only [hc, Bool.not_true, Bool.false_or, decide_eq_true_eq] at h2
  exact h2

/-- The fast test on a payload implies the property on its tables `terms` and
`titleterms`. -/
theorem disjoint_of_termsDisjointCheck {p : Json} (h : termsDisjointCheck p = true) :
    ∃ ts ∈ p.table "terms", ∃ tts ∈ p.table "titleterms",
      ∀ kv ∈ ts, ∀ kw ∈ tts, kv.1 = kw.1 → DisjointPostings kv.2 kw.2 := by
  unfold termsDisjointCheck at h
  split at h
  · rename_i ts tts hts htts
    exact ⟨ts, hts, tts, htts, disjoint_of_check h⟩
  · simp at h

/-- The keys of every payload are the eleven of `topLevelKeys`. -/
theorem keys_iff_topLevelKeys :
    ∀ s ∈ sources, ∃ p ∈ parseIndex s, ∀ k, k ∈ p.keys ↔ k ∈ topLevelKeys := by
  have key : ∀ p : Json, ((∀ k ∈ p.keys, k ∈ topLevelKeys) ∧ ∀ k ∈ topLevelKeys, k ∈ p.keys) →
      ∀ k, k ∈ p.keys ↔ k ∈ topLevelKeys := fun p h k => ⟨h.1 k, h.2 k⟩
  intro s hs
  obtain ⟨p, hp, h⟩ := forall_sources
    (P := fun p => (∀ k ∈ p.keys, k ∈ topLevelKeys) ∧ ∀ k ∈ topLevelKeys, k ∈ p.keys)
    (by decide!) (by decide!) (by decide!) (by decide!) s hs
  exact ⟨p, hp, key p h⟩

/-- What `parseIndex` accepts is a call whose argument is an object, closed by a parenthesis
and at most one line feed. -/
theorem readCall_of_parseIndex {s : String} {p : Json} (h : parseIndex s = some p) :
    ∃ kvs rest, readCall s = some (Json.obj kvs, rest) ∧ p = Json.obj kvs ∧
      (rest = [41] ∨ rest = [41, 10]) := by
  unfold parseIndex at h
  split at h
  · rename_i kvs rest heq
    split at h
    · rename_i hend
      refine ⟨kvs, rest, heq, ?_, ?_⟩
      · simpa using h.symm
      · simpa [isCallEnd] using hend
    · simp at h
  · simp at h

/-- When all targets have `n` fields and some target has `m` fields, `n = m`. -/
theorem arity_unique {p : Json} {n m : Nat} (hall : TargetsHaveArity p n)
    (hex : SomeTargetHasArity p m) : n = m := by
  obtain ⟨ms, hms, hall⟩ := hall
  obtain ⟨ms', hms', kv, hkv, es', hes', e, he, fs', hfs', hm⟩ := hex
  obtain rfl : ms = ms' := Option.mem_unique hms hms'
  obtain ⟨es, hes, h2⟩ := hall kv hkv
  obtain rfl : es = es' := Option.mem_unique hes hes'
  obtain ⟨fs, hfs, hn⟩ := h2 e he
  obtain rfl : fs = fs' := Option.mem_unique hfs hfs'
  exact hn.symm.trans hm

/-! ## The properties of the payloads -/

/-- C1: in each of the four files, the object passed to `Search.setIndex` has the six
top-level keys `alltitles`, `docnames`, `filenames`, `terms`, `titleterms` and `objects`. -/
theorem setIndex_has_required_keys :
    ∀ s ∈ sources, ∃ p ∈ parseIndex s, ∀ k ∈ requiredKeys, k ∈ p.keys :=
  forall_sources (by decide!) (by decide!) (by decide!) (by decide!)

/-- The preceding statement, at the file `1.29.4/searchindex.js`. -/
theorem setIndex_has_required_keys_witness :
    src_1_29_4 ∈ sources ∧ ∃ p ∈ parseIndex src_1_29_4, ∀ k ∈ requiredKeys, k ∈ p.keys :=
  ⟨by simp [sources], setIndex_has_required_keys src_1_29_4 (by simp [sources])⟩

/-- C2: each of the four files is the call `Search.setIndex(<argument>)`; its argument reads
as one JSON object, and nothing follows it but the closing parenthesis (code 41) and at most
one line feed (code 10). -/
theorem source_is_single_call :
    ∀ s ∈ sources, ∃ kvs rest, readCall s = some (Json.obj kvs, rest) ∧
      (rest = [41] ∨ rest = [41, 10]) := by
  intro s hs
  obtain ⟨p, hp, -⟩ := forall_sources (P := fun _ => True) trivial trivial trivial trivial s hs
  obtain ⟨kvs, rest, h, -, hrest⟩ := readCall_of_parseIndex hp
  exact ⟨kvs, rest, h, hrest⟩

/-- The preceding statement, at the file `fix_wrong_return_type/searchindex.js`. -/
theorem source_is_single_call_witness :
    src_fix_wrong_return_type ∈ sources ∧
      ∃ kvs rest, readCall src_fix_wrong_return_type = some (Json.obj kvs, rest) ∧
        (rest = [41] ∨ rest = [41, 10]) :=
  ⟨by simp [sources], source_is_single_call src_fix_wrong_return_type (by simp [sources])⟩

/-- C3: in each of the four payloads the lists `docnames`, `filenames` and `titles` have the
same length. -/
theorem doc_lists_same_length :
    ∀ s ∈ sources, ∃ p ∈ parseIndex s, ∃ n ∈ docCount p,
      (p.list "filenames").map List.length = some n ∧
      (p.list "titles").map List.length = some n :=
  forall_sources (by decide!) (by decide!) (by decide!) (by decide!)

/-- The preceding statement, at the file `341-new-j20-setup/searchindex.js`. -/
theorem doc_lists_same_length_witness :
    src_341_new_j20_setup ∈ sources ∧ ∃ p ∈ parseIndex src_341_new_j20_setup,
      ∃ n ∈ docCount p, (p.list "filenames").map List.length = some n ∧
        (p.list "titles").map List.length = some n :=
  ⟨by simp [sources], doc_lists_same_length src_341_new_j20_setup (by simp [sources])⟩

/-- C4: in each payload, every document index in a posting of `terms` or `titleterms` is
below the length of `docnames`, which is also the length of `filenames` and of `titles`, so
that looking it up in any of the three lists stays in range. -/
theorem posting_docs_in_range :
    ∀ s ∈ sources, ∃ p ∈ parseIndex s, ∃ n ∈ docCount p,
      ((p.list "filenames").map List.length = some n ∧
        (p.list "titles").map List.length = some n) ∧
      ∀ t ∈ ["terms", "titleterms"], ∃ ms ∈ p.table t,
        ∀ kv ∈ ms, ∃ ds ∈ postingDocs kv.2, ∀ d ∈ ds, d < n :=
  forall_sources (by decide!) (by decide!) (by decide!) (by decide!)

/-- The preceding statement, at the file `483-make-device_factory-.../searchindex.js`. -/
theorem posting_docs_in_range_witness :
    src_483_make_device_factory ∈ sources ∧
      ∃ p ∈ parseIndex src_483_make_device_factory, ∃ n ∈ docCount p,
        ((p.list "filenames").map List.length = some n ∧
          (p.list "titles").map List.length = some n) ∧
        ∀ t ∈ ["terms", "titleterms"], ∃ ms ∈ p.table t,
          ∀ kv ∈ ms, ∃ ds ∈ postingDocs kv.2, ∀ d ∈ ds, d < n :=
  ⟨by simp [sources],
    posting_docs_in_range src_483_make_device_factory (by simp [sources])⟩

/-- C5: in each payload, the document index that is the first field of every entry of
`alltitles`, of `objects` and of `indexentries` is below the length of `docnames`. -/
theorem entry_docs_in_range :
    ∀ s ∈ sources, ∃ p ∈ parseIndex s, ∃ n ∈ docCount p,
      ∀ t ∈ ["alltitles", "objects", "indexentries"], ∃ ms ∈ p.table t,
        ∀ kv ∈ ms, ∃ es ∈ kv.2.arr?, ∀ e ∈ es, ∃ d ∈ entryDoc e, d < n :=
  forall_sources (by decide!) (by decide!) (by decide!) (by decide!)

/-- The preceding statement, at the file `1.29.4/searchindex.js`. -/
theorem entry_docs_in_range_witness :
    src_1_29_4 ∈ sources ∧ ∃ p ∈ parseIndex src_1_29_4, ∃ n ∈ docCount p,
      ∀ t ∈ ["alltitles", "objects", "indexentries"], ∃ ms ∈ p.table t,
        ∀ kv ∈ ms, ∃ es ∈ kv.2.arr?, ∀ e ∈ es, ∃ d ∈ entryDoc e, d < n :=
  ⟨by simp [sources], entry_docs_in_range src_1_29_4 (by simp [sources])⟩

/-- C6: the set of top-level keys of the object passed to `Search.setIndex` is the same in
all four files. -/
theorem same_top_level_keys :
    ∀ s ∈ sources, ∀ t ∈ sources, ∃ p ∈ parseIndex s, ∃ q ∈ parseIndex t,
      ∀ k, k ∈ p.keys ↔ k ∈ q.keys := by
  intro s hs t ht
  obtain ⟨p, hp, h1⟩ := keys_iff_topLevelKeys s hs
  obtain ⟨q, hq, h2⟩ := keys_iff_topLevelKeys t ht
  exact ⟨p, hp, q, hq, fun k => (h1 k).trans (h2 k).symm⟩

/-- The preceding statement, at the files `1.29.4` and `fix_wrong_return_type`. -/
theorem same_top_level_keys_witness :
    (src_1_29_4 ∈ sources ∧ src_fix_wrong_return_type ∈ sources) ∧
      ∃ p ∈ parseIndex src_1_29_4, ∃ q ∈ parseIndex src_fix_wrong_return_type,
        ∀ k, k ∈ p.keys ↔ k ∈ q.keys :=
  ⟨⟨by simp [sources], by simp [sources]⟩,
    same_top_level_keys src_1_29_4 (by simp [sources])
      src_fix_wrong_return_type (by simp [sources])⟩

/-- C7, as stated, fails: no number `n` is the number of fields of every target of
`indexentries` in all four files, since the targets of `1.29.4` have three fields and those
of `fix_wrong_return_type` have two. -/
theorem indexentries_arity_not_uniform :
    ¬ ∃ n, ∀ s ∈ sources, ∃ p ∈ parseIndex s, TargetsHaveArity p n := by
  rintro ⟨n, h⟩
  obtain ⟨p, hp, h3⟩ := h src_1_29_4 (by simp [sources])
  obtain ⟨q, hq, h2⟩ := h src_fix_wrong_return_type (by simp [sources])
  obtain rfl : idx_1_29_4 = p := Option.mem_unique parse_1_29_4 hp
  obtain rfl : idx_fix_wrong_return_type = q := Option.mem_unique parse_fix_wrong_return_type hq
  have e3 : n = 3 := arity_unique h3 (by decide!)
  have e2 : n = 2 := arity_unique h2 (by decide!)
  omega

/-- C7, amended: within each payload all targets of `indexentries` have the same number of
fields, which is three in `1.29.4`, `341-new-j20-setup` and `483-make-device_factory-...`
and two in `fix_wrong_return_type`. -/
theorem indexentries_arity_per_file :
    ∀ sa ∈ targetArities, ∃ p ∈ parseIndex sa.1, TargetsHaveArity p sa.2 := by
  intro sa h
  simp only [targetArities, List.mem_cons, List.mem_singleton, List.not_mem_nil,
    or_false] at h
  rcases h with rfl | rfl | rfl | rfl
  · exact ⟨_, parse_1_29_4, by decide!⟩
  · exact ⟨_, parse_341_new_j20_setup, by decide!⟩
  · exact ⟨_, parse_483_make_device_factory, by decide!⟩
  · exact ⟨_, parse_fix_wrong_return_type, by decide!⟩

/-- The preceding statement, at the file `fix_wrong_return_type/searchindex.js`. -/
theorem indexentries_arity_per_file_witness :
    (src_fix_wrong_return_type, 2) ∈ targetArities ∧
      ∃ p ∈ parseIndex src_fix_wrong_return_type, TargetsHaveArity p 2 :=
  ⟨by simp [targetArities],
    indexentries_arity_per_file (src_fix_wrong_return_type, 2) (by simp [targetArities])⟩

/-- C8, as stated, fails: it is not the case that every top-level key of every payload is
one of `alltitles`, `docnames`, `filenames`, `terms`, `objects` and `indexentries`; the
payload of `1.29.4` has the key `titleterms`. -/
theorem top_level_keys_not_only_entities :
    ¬ ∀ s ∈ sources, ∃ p ∈ parseIndex s, ∀ k ∈ p.keys, k ∈ entityKeys := by
  intro h
  obtain ⟨p, hp, hk⟩ := h src_1_29_4 (by simp [sources])
  obtain rfl : idx_1_29_4 = p := Option.mem_unique parse_1_29_4 hp
  have h1 : "titleterms" ∈ idx_1_29_4.keys := by decide!
  have h2 : "titleterms" ∉ entityKeys := by decide
  exact h2 (hk _ h1)

/-- C8, amended: the top-level entries of each payload are exactly `alltitles`, `docnames`,
`envversion`, `filenames`, `indexentries`, `objects`, `objnames`, `objtypes`, `terms`,
`titles` and `titleterms`. -/
theorem top_level_keys_exact :
    ∀ s ∈ sources, ∃ p ∈ parseIndex s, ∀ k, k ∈ p.keys ↔ k ∈ topLevelKeys := by
  intro s hs
  obtain ⟨p, hp, h⟩ := forall_sources
    (P := fun p => (∀ k ∈ p.keys, k ∈ topLevelKeys) ∧ ∀ k ∈ topLevelKeys, k ∈ p.keys)
    (by decide!) (by decide!) (by decide!) (by decide!) s hs
  exact ⟨p, hp, fun k => ⟨h.1 k, h.2 k⟩⟩

/-- The preceding statement, at the file `341-new-j20-setup/searchindex.js`. -/
theorem top_level_keys_exact_witness :
    src_341_new_j20_setup ∈ sources ∧
      ∃ p ∈ parseIndex src_341_new_j20_setup, ∀ k, k ∈ p.keys ↔ k ∈ topLevelKeys :=
  ⟨by simp [sources], top_level_keys_exact src_341_new_j20_setup (by simp [sources])⟩

/-- C9: in each payload every value of `terms` and of `titleterms` is a single document
index or a list of at least two document indices in strictly increasing order. -/
theorem postings_well_formed :
    ∀ s ∈ sources, ∃ p ∈ parseIndex s, ∀ t ∈ ["terms", "titleterms"], ∃ ms ∈ p.table t,
      ∀ kv ∈ ms, IsPosting kv.2 :=
  forall_sources (by decide!) (by decide!) (by decide!) (by decide!)

/-- The preceding statement, at the file `483-make-device_factory-.../searchindex.js`. -/
theorem postings_well_formed_witness :
    src_483_make_device_factory ∈ sources ∧
      ∃ p ∈ parseIndex src_483_make_device_factory, ∀ t ∈ ["terms", "titleterms"],
        ∃ ms ∈ p.table t, ∀ kv ∈ ms, IsPosting kv.2 :=
  ⟨by simp [sources], postings_well_formed src_483_make_device_factory (by simp [sources])⟩

/-- C10: in each payload and for every index `i` below the number of documents,
`filenames[i]` is `docnames[i]` followed by `.rst`. -/
theorem filename_is_docname_rst :
    ∀ s ∈ sources, ∃ p ∈ parseIndex s, ∃ ds ∈ p.list "docnames", ∃ fs ∈ p.list "filenames",
      ∀ i < ds.length, ∃ d ∈ (ds[i]?).bind Json.str?, ∃ f ∈ (fs[i]?).bind Json.str?,
        f = d ++ ".rst" :=
  forall_sources (by decide!) (by decide!) (by decide!) (by decide!)

/-- The preceding statement, at the file `fix_wrong_return_type/searchindex.js`. -/
theorem filename_is_docname_rst_witness :
    src_fix_wrong_return_type ∈ sources ∧ ∃ p ∈ parseIndex src_fix_wrong_return_type,
      ∃ ds ∈ p.list "docnames", ∃ fs ∈ p.list "filenames",
        ∀ i < ds.length, ∃ d ∈ (ds[i]?).bind Json.str?, ∃ f ∈ (fs[i]?).bind Json.str?,
          f = d ++ ".rst" :=
  ⟨by simp [sources],
    filename_is_docname_rst src_fix_wrong_return_type (by simp [sources])⟩

/-- C11: in each payload, for every term that is a key of both `terms` and `titleterms`, no
document of its posting in `terms` is in its posting in `titleterms`. -/
theorem body_and_title_postings_disjoint :
    ∀ s ∈ sources, ∃ p ∈ parseIndex s, ∃ ts ∈ p.table "terms", ∃ tts ∈ p.table "titleterms",
      ∀ kv ∈ ts, ∀ kw ∈ tts, kv.1 = kw.1 → DisjointPostings kv.2 kw.2 :=
  forall_sources (disjoint_of_termsDisjointCheck (by decide!))
    (disjoint_of_termsDisjointCheck (by decide!))
    (disjoint_of_termsDisjointCheck (by decide!))
    (disjoint_of_termsDisjointCheck (by decide!))

/-- The preceding statement, at the file `fix_wrong_return_type/searchindex.js`. -/
theorem body_and_title_postings_disjoint_witness :
    src_fix_wrong_return_type ∈ sources ∧ ∃ p ∈ parseIndex src_fix_wrong_return_type,
      ∃ ts ∈ p.table "terms", ∃ tts ∈ p.table "titleterms",
        ∀ kv ∈ ts, ∀ kw ∈ tts, kv.1 = kw.1 → DisjointPostings kv.2 kw.2 :=
  ⟨by simp [sources],
    body_and_title_postings_disjoint src_fix_wrong_return_type (by simp [sources])⟩

/-- C12: in each payload and for every document index `i`, the title `titles[i]` is a key of
`alltitles` and the list `alltitles[titles[i]]` has an entry whose document index is `i`. -/
theorem title_listed_in_alltitles :
    ∀ s ∈ sources, ∃ p ∈ parseIndex s, ∃ n ∈ docCount p, ∃ ts ∈ p.list "titles",
      ∃ tbl ∈ p.table "alltitles", ∀ i < n, ∃ t ∈ (ts[i]?).bind Json.str?,
        ∃ es ∈ (lookupLast t tbl).bind Json.arr?, ∃ e ∈ es, entryDoc e = some i :=
  forall_sources (by decide!) (by decide!) (by decide!) (by decide!)

/-- The preceding statement, at the file `1.29.4/searchindex.js`. -/
theorem title_listed_in_alltitles_witness :
    src_1_29_4 ∈ sources ∧ ∃ p ∈ parseIndex src_1_29_4, ∃ n ∈ docCount p,
      ∃ ts ∈ p.list "titles", ∃ tbl ∈ p.table "alltitles", ∀ i < n,
        ∃ t ∈ (ts[i]?).bind Json.str?, ∃ es ∈ (lookupLast t tbl).bind Json.arr?,
          ∃ e ∈ es, entryDoc e = some i :=
  ⟨by simp [sources], title_listed_in_alltitles src_1_29_4 (by simp [sources])⟩

/-- C13: in each payload, the targets that the objects of the inventory resolve to
(`objectTarget`) are exactly the `(document, anchor)` targets that occur in
`indexentries`. -/
theorem objects_agree_with_indexentries :
    ∀ s ∈ sources, ∃ p ∈ parseIndex s, ∃ a ∈ objectTargets p, ∃ b ∈ indexTargets p,
      (∀ t ∈ a, t ∈ b) ∧ (∀ t ∈ b, t ∈ a) :=
  forall_sources (by decide!) (by decide!) (by decide!) (by decide!)

/-- The preceding statement, at the file `1.29.4/searchindex.js`. -/
theorem objects_agree_with_indexentries_witness :
    src_1_29_4 ∈ sources ∧ ∃ p ∈ parseIndex src_1_29_4, ∃ a ∈ objectTargets p,
      ∃ b ∈ indexTargets p, (∀ t ∈ a, t ∈ b) ∧ (∀ t ∈ b, t ∈ a) :=
  ⟨by simp [sources], objects_agree_with_indexentries src_1_29_4 (by simp [sources])⟩

/-- C14: in each payload `objtypes` and `objnames` have the same keys, and the object-type
field of every entry of `objects`, written in decimal, is one of those keys. -/
theorem object_types_resolve :
    ∀ s ∈ sources, ∃ p ∈ parseIndex s, ∃ ot ∈ p.table "objtypes", ∃ ons ∈ p.table "objnames",
      SameKeys ot ons ∧ ∃ os ∈ p.table "objects", TypesResolve os ot :=
  forall_sources (by decide!) (by decide!) (by decide!) (by decide!)

/-- The preceding statement, at the file `341-new-j20-setup/searchindex.js`. -/
theorem object_types_resolve_witness :
    src_341_new_j20_setup ∈ sources ∧ ∃ p ∈ parseIndex src_341_new_j20_setup,
      ∃ ot ∈ p.table "objtypes", ∃ ons ∈ p.table "objnames",
        SameKeys ot ons ∧ ∃ os ∈ p.table "objects", TypesResolve os ot :=
  ⟨by simp [sources], object_types_resolve src_341_new_j20_setup (by simp [sources])⟩

/-- C15: in each payload and for every key `k` of `objtypes`, `objtypes[k]` is
`objnames[k][0]`, a colon, and `objnames[k][1]`. -/
theorem objtype_is_domain_colon_type :
    ∀ s ∈ sources, ∃ p ∈ parseIndex s, ∃ ot ∈ p.table "objtypes", ∃ ons ∈ p.table "objnames",
      ∀ kv ∈ ot, ∃ t ∈ kv.2.str?, ∃ nm ∈ (lookupLast kv.1 ons).bind Json.arr?,
        IsDomainColonType t nm :=
  forall_sources (by decide!) (by decide!) (by decide!) (by decide!)

/-- The preceding statement, at the file `483-make-device_factory-.../searchindex.js`. -/
theorem objtype_is_domain_colon_type_witness :
    src_483_make_device_factory ∈ sources ∧ ∃ p ∈ parseIndex src_483_make_device_factory,
      ∃ ot ∈ p.table "objtypes", ∃ ons ∈ p.table "objnames",
        ∀ kv ∈ ot, ∃ t ∈ kv.2.str?, ∃ nm ∈ (lookupLast kv.1 ons).bind Json.arr?,
        IsDomainColonType t nm :=
  ⟨by simp [sources],
    objtype_is_domain_colon_type src_483_make_device_factory (by simp [sources])⟩

/-- C16: in each payload the list `docnames` is in strictly increasing lexicographic order
of character codes, and so holds no document name twice. -/
theorem docnames_strictly_increasing :
    ∀ s ∈ sources, ∃ p ∈ parseIndex s, ∃ ds ∈ (p.list "docnames").bind strs?,
      ds.Pairwise (fun a b => strLt a b = true) ∧ ds.Nodup :=
  forall_sources (by decide!) (by decide!) (by decide!) (by decide!)

/-- The preceding statement, at the file `fix_wrong_return_type/searchindex.js`. -/
theorem docnames_strictly_increasing_witness :
    src_fix_wrong_return_type ∈ sources ∧ ∃ p ∈ parseIndex src_fix_wrong_return_type,
      ∃ ds ∈ (p.list "docnames").bind strs?, ds.Pairwise (fun a b => strLt a b = true) ∧ ds.Nodup :=
  ⟨by simp [sources],
    docnames_strictly_increasing src_fix_wrong_return_type (by simp [sources])⟩

/-- C17: in each payload every document index below the number of documents occurs in the
posting of at least one key of `titleterms`. -/
theorem every_doc_has_title_term :
    ∀ s ∈ sources, ∃ p ∈ parseIndex s, ∃ n ∈ docCount p, ∃ tts ∈ p.table "titleterms",
      ∀ i < n, ∃ kv ∈ tts, ∃ ds ∈ postingDocs kv.2, i ∈ ds :=
  forall_sources (by decide!) (by decide!) (by decide!) (by decide!)

/-- The preceding statement, at the file `341-new-j20-setup/searchindex.js`. -/
theorem every_doc_has_title_term_witness :
    src_341_new_j20_setup ∈ sources ∧ ∃ p ∈ parseIndex src_341_new_j20_setup,
      ∃ n ∈ docCount p, ∃ tts ∈ p.table "titleterms",
        ∀ i < n, ∃ kv ∈ tts, ∃ ds ∈ postingDocs kv.2, i ∈ ds :=
  ⟨by simp [sources], every_doc_has_title_term src_341_new_j20_setup (by simp [sources])⟩

/-- C18: in each payload no two entries of `alltitles`, under the same or under different
titles, have the same document index together with the same non-null anchor. -/
theorem title_anchors_unique :
    ∀ s ∈ sources, ∃ p ∈ parseIndex s, ∃ xs ∈ titleAnchors p, xs.Nodup :=
  forall_sources (by decide!) (by decide!) (by decide!) (by decide!)

/-- The preceding statement, at the file `483-make-device_factory-.../searchindex.js`. -/
theorem title_anchors_unique_witness :
    src_483_make_device_factory ∈ sources ∧ ∃ p ∈ parseIndex src_483_make_device_factory,
      ∃ xs ∈ titleAnchors p, xs.Nodup :=
  ⟨by simp [sources], title_anchors_unique src_483_make_device_factory (by simp [sources])⟩

end SearchIndex
